import Mathlib

/-!
# vioinput: HID related functionality (`vioinput/sys/Hid.c`)

A shallow embedding of the HID part of the virtio-input driver and the
properties of it that the specification states.

Conventions of the embedding:

* `UCHAR`, `USHORT`, `ULONG`, `SIZE_T` values are natural numbers, reduced
  modulo `2 ^ w` where the C code converts to the narrower type.
* `LONG` and `NTSTATUS` values are integers; a `LONG` argument is in range
  when `-2 ^ 31 ≤ v < 2 ^ 31`.
* Memory that the C code addresses byte by byte is a `List Nat` of bytes.
* Functions of the driver that live in other files (the per-class
  descriptor builders, the dynamic array of `utils.c`) and the device's
  config space are parameters or small models, each marked as such.
-/

namespace VioInput

/-! ## Constants of the platform headers -/

/-- Modelled from the spec: `MINCHAR`, a constant of the platform headers
(`0x80` there); the spec gives the one-byte range as `-128 ≤ value ≤ 127`. -/
def MINCHAR : Int := 0x80
/-- Modelled from the spec: `MAXCHAR`, a constant of the platform headers
(`0x7f` there). -/
def MAXCHAR : Int := 0x7f
/-- Modelled from the spec: `MINSHORT`, a constant of the platform headers
(`0x8000` there); the spec gives the two-byte range as `-32768 ≤ value ≤ 32767`. -/
def MINSHORT : Int := 0x8000
/-- Modelled from the spec: `MAXSHORT`, a constant of the platform headers
(`0x7fff` there). -/
def MAXSHORT : Int := 0x7fff

/-- A value is a `LONG`: it fits 32-bit signed two's complement. -/
def IsLONG (v : Int) : Prop := -2 ^ 31 ≤ v ∧ v < 2 ^ 31

instance (v : Int) : Decidable (IsLONG v) := by unfold IsLONG; infer_instance

/-! ## The dynamic array -/

/-- Modelled from the spec: the `DYNAMIC_ARRAY` of `utils.c` (not part of
`Hid.c`), "an append-only growable byte buffer with a finalize-to-immutable-slice
operation".  `Ptr` is `none` for the initial `{ NULL }` array and after a
failed allocation, otherwise it holds the `Size` bytes accumulated so far. -/
structure DYNAMIC_ARRAY where
  Ptr : Option (List Nat)
deriving DecidableEq, Repr

/-- The bytes accumulated in the array (none when `Ptr` is `NULL`). -/
def DYNAMIC_ARRAY.data (a : DYNAMIC_ARRAY) : List Nat := a.Ptr.getD []

/-- The `Size` field: number of bytes accumulated. -/
def DYNAMIC_ARRAY.Size (a : DYNAMIC_ARRAY) : Nat := a.data.length

/-- Modelled from the spec: `DynamicArrayAppend` of `utils.c`, "amortized-growth
append"; the bytes of `pData` are added at the end (growth is taken to succeed). -/
def DynamicArrayAppend (pArray : DYNAMIC_ARRAY) (pData : List Nat) : DYNAMIC_ARRAY :=
  { Ptr := some (pArray.data ++ pData) }

/-- Modelled from the spec: `DynamicArrayGet` of `utils.c`, "finalize() ->
(pointer, length)": the accumulated bytes with their count, or `NULL`. -/
def DynamicArrayGet (pArray : DYNAMIC_ARRAY) : Option (List Nat × Nat) :=
  pArray.Ptr.map (fun bs => (bs, bs.length))

/-! ## Short item encoding: `HIDAppend1`, `HIDAppend2` -/

/-- The in-memory bytes of a `LONG` (little endian, two's complement):
what `&value` points at in `HIDAppend2`. -/
def LONG_bytes (value : Int) : List Nat :=
  let u : Nat := (value % 2 ^ 32).toNat
  [u % 256, u / 256 % 256, u / 65536 % 256, u / 16777216 % 256]

/-- Function `HIDAppend1`: append the one tag byte (the parameter is a `UCHAR`). -/
def HIDAppend1 (pArray : DYNAMIC_ARRAY) (tag : Nat) : DYNAMIC_ARRAY :=
  DynamicArrayAppend pArray [tag % 256]

/-- Function `HIDAppend2`: append the tag with the width code in its low bits, then
the first 1, 2 or 4 bytes of `value`. -/
def HIDAppend2 (pArray : DYNAMIC_ARRAY) (tag : Nat) (value : Int) : DYNAMIC_ARRAY :=
  if value ≥ -MINCHAR ∧ value ≤ MAXCHAR then
    DynamicArrayAppend (HIDAppend1 pArray (tag ||| 0x01)) ((LONG_bytes value).take 1)
  else if value ≥ -MINSHORT ∧ value ≤ MAXSHORT then
    DynamicArrayAppend (HIDAppend1 pArray (tag ||| 0x02)) ((LONG_bytes value).take 2)
  else
    DynamicArrayAppend (HIDAppend1 pArray (tag ||| 0x03)) ((LONG_bytes value).take 4)

/-! ### What the specification says about the encoding -/

/-- The signed two's-complement range of `w` bytes contains `v`. -/
def FitsSigned (w : Nat) (v : Int) : Prop := -2 ^ (8 * w - 1) ≤ v ∧ v < 2 ^ (8 * w - 1)

instance (w : Nat) (v : Int) : Decidable (FitsSigned w v) := by
  unfold FitsSigned; infer_instance

/-- The payload width in the specification's words: "width 1 if
`-128 ≤ value ≤ 127`, width 2 if `-32768 ≤ value ≤ 32767`, else width 4". -/
def specWidth (v : Int) : Nat :=
  if -128 ≤ v ∧ v ≤ 127 then 1 else if -32768 ≤ v ∧ v ≤ 32767 then 2 else 4

/-- The width code in the low two bits of a tag byte: `01`, `10`, `11` for a
payload of 1, 2, 4 bytes (and `00` for none). -/
def widthCode (w : Nat) : Nat := if w = 4 then 3 else w % 4

/-- The unsigned value of a little-endian byte string. -/
def decodeUnsignedLE : List Nat → Nat
  | [] => 0
  | b :: bs => b + 256 * decodeUnsignedLE bs

/-- The value of a little-endian byte string read as signed two's complement
of its own width (the empty string reads as `0`). -/
def decodeSignedLE (bs : List Nat) : Int :=
  let n := decodeUnsignedLE bs
  if bs.length ≠ 0 ∧ 2 ^ (8 * bs.length - 1) ≤ n then (n : Int) - 2 ^ (8 * bs.length) else n

/-- The bytes `HIDAppend2` adds after the tag byte. -/
def payloadOf (pArray : DYNAMIC_ARRAY) (tag : Nat) (value : Int) : List Nat :=
  (HIDAppend2 pArray tag value).data.drop (pArray.Size + 1)

/-! ## Walking a report descriptor: `DumpReportDescriptor` -/

/-- The loop of `DumpReportDescriptor` from index `i`: the low two bits of
the byte at `i` select how many bytes are printed on the line (1, 2, 3 or 5)
and by how much `i` advances.  The result is the list of printed lines, each
the list of bytes printed, and the final index.  A read past the end of the
list gives `0`.  The first argument bounds the number of iterations. -/
def dumpWalk (pDescriptor : List Nat) (cbSize : Nat) : Nat → Nat → List (List Nat) × Nat
  | 0, i => ([], i)
  | fuel + 1, i =>
    if i < cbSize then
      let b := pDescriptor.getD i 0
      let c := b &&& 0x03
      if c = 0x00 then
        let r := dumpWalk pDescriptor cbSize fuel (i + 1)
        ([b] :: r.1, r.2)
      else if c = 0x01 then
        let r := dumpWalk pDescriptor cbSize fuel (i + 2)
        ([b, pDescriptor.getD (i + 1) 0] :: r.1, r.2)
      else if c = 0x02 then
        let r := dumpWalk pDescriptor cbSize fuel (i + 3)
        ([b, pDescriptor.getD (i + 1) 0, pDescriptor.getD (i + 2) 0] :: r.1, r.2)
      else
        let r := dumpWalk pDescriptor cbSize fuel (i + 5)
        ([b, pDescriptor.getD (i + 1) 0, pDescriptor.getD (i + 2) 0,
          pDescriptor.getD (i + 3) 0, pDescriptor.getD (i + 4) 0] :: r.1, r.2)
    else ([], i)

/-- Function `DumpReportDescriptor`: the lines printed between "begin" and "end", and
the index at which the loop stops.  Every iteration advances `i` by at least
one, so `cbSize` iterations always reach the end of the loop. -/
def DumpReportDescriptor (pDescriptor : List Nat) (cbSize : Nat) : List (List Nat) × Nat :=
  dumpWalk pDescriptor cbSize cbSize 0

/-- One call of the encoder. -/
inductive HidCall where
  | append1 (tag : Nat)
  | append2 (tag : Nat) (value : Int)
deriving DecidableEq, Repr

/-- Perform one call on the array. -/
def HidCall.run (a : DYNAMIC_ARRAY) : HidCall → DYNAMIC_ARRAY
  | .append1 tag => HIDAppend1 a tag
  | .append2 tag value => HIDAppend2 a tag value

/-- The calls use a `UCHAR` tag that is a short-item prefix (low two bits
zero) and a `LONG` value. -/
def HidCall.WellFormed : HidCall → Prop
  | .append1 tag => tag < 256 ∧ tag % 4 = 0
  | .append2 tag value => tag < 256 ∧ tag % 4 = 0 ∧ IsLONG value

instance (c : HidCall) : Decidable c.WellFormed := by
  cases c <;> unfold HidCall.WellFormed <;> infer_instance

/-- The (tag, width, value) triple a call appends; a bare tag has width 0
and value 0. -/
def HidCall.triple : HidCall → Nat × Nat × Int
  | .append1 tag => (tag, 0, 0)
  | .append2 tag value => (tag, specWidth value, value)

/-- Assemble a descriptor: the calls in order on the initial `{ NULL }` array. -/
def assemble (calls : List HidCall) : DYNAMIC_ARRAY :=
  calls.foldl HidCall.run { Ptr := none }

/-- Read one parsed item (first byte, then payload) as a (tag, width, value)
triple: the tag is the first byte without its low two bits, the width is the
number of payload bytes, the value is the payload as little-endian signed. -/
def itemTriple : List Nat → Nat × Nat × Int
  | [] => (0, 0, 0)
  | b :: payload => (b &&& 0xFC, payload.length, decodeSignedLE payload)

/-! ## Capability bitmaps: `DecodeNextBit`, `InputCfgDataEmpty` -/

/-- Modelled from the spec: the compiler intrinsic `BitScanForward` on a
32-bit mask, "scans for the lowest-numbered set bit": the position of the
lowest set bit, or nothing (return value zero) when the mask is zero. -/
def BitScanForward (Mask : Nat) : Option Nat :=
  (List.range 32).find? (fun i => (Mask % 2 ^ 32).testBit i)

/-- Function `DecodeNextBit` on the byte `*pBitmap` and the output `*pValue`: the
result, the new byte and the new output value. -/
def DecodeNextBit (Bitmap : Nat) (Value : Nat) : Bool × Nat × Nat :=
  match BitScanForward Bitmap with
  | some Index => (true, (Bitmap &&& (0xFFFFFFFF ^^^ (1 <<< Index))) % 256, Index % 256)
  | none => (false, Bitmap, Value)

/-- Modelled from the spec: the structure `VIRTIO_INPUT_CFG_DATA` (declared in
a header), "`size` is the number of valid bytes": the fields `size` and
`u.bitmap` that `Hid.c` uses. -/
structure VIRTIO_INPUT_CFG_DATA where
  size : Nat
  bitmap : List Nat
deriving DecidableEq, Repr

/-- Function `InputCfgDataEmpty`: no byte below `size` is non-zero. -/
def InputCfgDataEmpty (pCfgData : VIRTIO_INPUT_CFG_DATA) : Bool :=
  (List.range pCfgData.size).all (fun i => pCfgData.bitmap.getD i 0 == 0)

/-- Call `DecodeNextBit(&pCfgData->u.bitmap[i], &Value)`: the call on byte `i` of
a bitmap. -/
def DecodeNextBitAt (pCfgData : VIRTIO_INPUT_CFG_DATA) (i : Nat) (Value : Nat) :
    Bool × VIRTIO_INPUT_CFG_DATA × Nat :=
  let r := DecodeNextBit (pCfgData.bitmap.getD i 0) Value
  (r.1, { pCfgData with bitmap := pCfgData.bitmap.set i r.2.1 }, r.2.2)

/-- The loop `while (DecodeNextBit(&byte, &Value)) ...` on one byte: the values
returned by the calls that gave `TRUE`, then the byte and the output value
after the call that gave `FALSE`.  Every `TRUE` clears a bit of the byte, so
nine calls always reach the `FALSE`. -/
def drainByte : Nat → Nat → Nat → List Nat × Nat × Nat
  | 0, b, v => ([], b, v)
  | fuel + 1, b, v =>
    let r := DecodeNextBit b v
    if r.1 then
      let rest := drainByte fuel r.2.1 r.2.2
      (r.2.2 :: rest.1, rest.2)
    else ([], r.2.1, r.2.2)

/-- Modelled from the spec: "byte-major, bit-minor order" over the whole
bitmap, the way the class builders (not part of `Hid.c`) use `DecodeNextBit`:
for each byte `i` in turn, call it on that byte until it gives `FALSE` and
take `Value + 8 * i` as the index.  Gives the indices and the bytes left. -/
def drainBytes : List Nat → Nat → List Nat × List Nat
  | [], _ => ([], [])
  | b :: bs, i =>
    let d := drainByte 9 b 0
    let r := drainBytes bs (i + 1)
    (d.1.map (fun v => v + 8 * i) ++ r.1, d.2.1 :: r.2)

/-- The byte-by-byte enumeration over the `size` valid bytes of a bitmap. -/
def drainBitmap (pCfgData : VIRTIO_INPUT_CFG_DATA) : List Nat × VIRTIO_INPUT_CFG_DATA :=
  let r := drainBytes (pCfgData.bitmap.take pCfgData.size) 0
  (r.1, { pCfgData with bitmap := r.2 ++ pCfgData.bitmap.drop pCfgData.size })

/-! ## The device context and its collaborators -/

/-- Modelled from the spec: success, `STATUS_SUCCESS` of the platform headers. -/
def STATUS_SUCCESS : Int := 0
/-- Modelled from the spec: the resource-exhaustion error,
`STATUS_INSUFFICIENT_RESOURCES` of the platform headers (`0xC000009A`, read
as a signed `NTSTATUS`). -/
def STATUS_INSUFFICIENT_RESOURCES : Int := 0xC000009A - 2 ^ 32
/-- Modelled from the spec: the error for a consumer buffer that cannot hold
the payload, `STATUS_INVALID_BUFFER_SIZE` of the platform headers
(`0xC0000206`, read as a signed `NTSTATUS`). -/
def STATUS_INVALID_BUFFER_SIZE : Int := 0xC0000206 - 2 ^ 32

/-- Modelled from the spec: success or failure of a status, the macro
`NT_SUCCESS(status)` of the platform headers: the signed 32-bit status is
not negative. -/
def NT_SUCCESS (status : Int) : Bool := decide (0 ≤ status)

/-- Modelled from the spec: the config selector for event-type bitmaps,
`VIRTIO_INPUT_CFG_EV_BITS` of the virtio-input headers. -/
def VIRTIO_INPUT_CFG_EV_BITS : Nat := 0x11
/-- Modelled from the spec: the event type `EV_KEY` (value of the
virtio-input headers). -/
def EV_KEY : Nat := 0x01
/-- Modelled from the spec: the event type `EV_REL` (value of the
virtio-input headers). -/
def EV_REL : Nat := 0x02
/-- Modelled from the spec: the event type `EV_ABS` (value of the
virtio-input headers). -/
def EV_ABS : Nat := 0x03
/-- Modelled from the spec: the event type `EV_LED` (value of the
virtio-input headers). -/
def EV_LED : Nat := 0x11

/-- What the device shows in `struct virtio_input_config` once `select` and
`subsel` are written: the `size` field and the bytes of `u.bitmap`. -/
structure virtio_input_config where
  size : Nat
  bitmap : Nat → Nat

/-- The device's config space (`VDevice`): the contents shown for every
`(select, subsel)` pair.  Every read in this file follows the
`SelectInputConfig` that selects what it reads, so the selection registers
themselves are not kept. -/
abbrev ConfigSpace := Nat → Nat → virtio_input_config

/-- Modelled from the spec: the structure `INPUT_CLASS_COMMON` (declared in a
header), the part shared by the four device classes, "reportId,
reportBuffer, reportSize, dirty", under the field names `Hid.c` uses. -/
structure INPUT_CLASS_COMMON where
  uReportID : Nat
  cbHidReportSize : Nat
  pHidReport : List Nat
  bDirty : Bool
deriving DecidableEq, Repr

/-- Modelled from the spec: the structure `HID_DESCRIPTOR` of the platform
headers, the "9-byte HID descriptor", with its one `DescriptorList[0]` entry
flattened; `wReportLength` is a `USHORT`. -/
structure HID_DESCRIPTOR where
  bLength : Nat
  bDescriptorType : Nat
  bcdHID : Nat
  bCountry : Nat
  bNumDescriptors : Nat
  bReportType : Nat
  wReportLength : Nat
deriving DecidableEq, Repr

/-- The constant `G_DefaultHidDescriptor` at the top of `Hid.c`. -/
def G_DefaultHidDescriptor : HID_DESCRIPTOR :=
  { bLength := 0x09, bDescriptorType := 0x21, bcdHID := 0x0100, bCountry := 0x00,
    bNumDescriptors := 0x01, bReportType := 0x22, wReportLength := 0x0000 }

/-- Modelled from the spec: the structure `INPUT_DEVICE` (declared in a
header): the fields of the device context that `Hid.c` uses for the
descriptors.  Of each class descriptor only the `Common` part is kept. -/
structure INPUT_DEVICE where
  VDevice : ConfigSpace
  HidDescriptor : HID_DESCRIPTOR
  HidReportDescriptor : Option (List Nat)
  MouseDesc : INPUT_CLASS_COMMON
  TabletDesc : INPUT_CLASS_COMMON
  KeyboardDesc : INPUT_CLASS_COMMON
  ConsumerDesc : INPUT_CLASS_COMMON

/-- Function `SelectInputConfig`: select, then read the one-byte `size` field. -/
def SelectInputConfig (pContext : INPUT_DEVICE) (cfgSelect cfgSubSel : Nat) : Nat :=
  (pContext.VDevice (cfgSelect % 256) (cfgSubSel % 256)).size % 256

/-- The `SelectInputConfig` call and the byte-by-byte read loop that
`VIOInputBuildReportDescriptor` runs for each event type.  Only the `size`
bytes that the loop writes are kept in the model of the local variable. -/
def readEventBits (pContext : INPUT_DEVICE) (evType : Nat) : VIRTIO_INPUT_CFG_DATA :=
  let size := SelectInputConfig pContext VIRTIO_INPUT_CFG_EV_BITS evType
  { size := size,
    bitmap := (List.range size).map
      (fun i => (pContext.VDevice (VIRTIO_INPUT_CFG_EV_BITS % 256) (evType % 256)).bitmap i % 256) }

/-! ### The per-class descriptor builders

The four builders live in `HidMouse.c`, `HidTablet.c`, `HidKeyboard.c` and
`HidConsumer.c`; they are parameters here.  Each gets what the C call passes
(by value or by pointer) and hands back its status and the new contents of
what it got by pointer: the array, the bitmaps, and the report layout
(`cbHidReportSize`, `pHidReport`) it stores in its class descriptor.  The
report ID in the class descriptor is written by
`VIOInputBuildReportDescriptor` before the call and is read, not written, by
the builder. -/

/-- Outcome of `HIDMouseBuildReportDescriptor`. -/
structure MouseBuilt where
  status : Int
  ReportDescriptor : DYNAMIC_ARRAY
  cbHidReportSize : Nat
  pHidReport : List Nat
  RelData : VIRTIO_INPUT_CFG_DATA
  AbsData : VIRTIO_INPUT_CFG_DATA
  KeyData : VIRTIO_INPUT_CFG_DATA

/-- Outcome of `HIDTabletBuildReportDescriptor`. -/
structure TabletBuilt where
  status : Int
  ReportDescriptor : DYNAMIC_ARRAY
  cbHidReportSize : Nat
  pHidReport : List Nat
  AbsData : VIRTIO_INPUT_CFG_DATA
  KeyData : VIRTIO_INPUT_CFG_DATA

/-- Outcome of `HIDKeyboardBuildReportDescriptor`. -/
structure KeyboardBuilt where
  status : Int
  ReportDescriptor : DYNAMIC_ARRAY
  cbHidReportSize : Nat
  pHidReport : List Nat
  KeyData : VIRTIO_INPUT_CFG_DATA
  LedData : VIRTIO_INPUT_CFG_DATA

/-- Outcome of `HIDConsumerBuildReportDescriptor`. -/
structure ConsumerBuilt where
  status : Int
  ReportDescriptor : DYNAMIC_ARRAY
  cbHidReportSize : Nat
  pHidReport : List Nat
  KeyData : VIRTIO_INPUT_CFG_DATA

/-- The four builders, with the arguments of their C calls. -/
structure ClassBuilders where
  HIDMouseBuildReportDescriptor : INPUT_DEVICE → DYNAMIC_ARRAY → INPUT_CLASS_COMMON →
    VIRTIO_INPUT_CFG_DATA → VIRTIO_INPUT_CFG_DATA → VIRTIO_INPUT_CFG_DATA → MouseBuilt
  HIDTabletBuildReportDescriptor : INPUT_DEVICE → DYNAMIC_ARRAY → INPUT_CLASS_COMMON →
    VIRTIO_INPUT_CFG_DATA → VIRTIO_INPUT_CFG_DATA → TabletBuilt
  HIDKeyboardBuildReportDescriptor : DYNAMIC_ARRAY → INPUT_CLASS_COMMON →
    VIRTIO_INPUT_CFG_DATA → VIRTIO_INPUT_CFG_DATA → KeyboardBuilt
  HIDConsumerBuildReportDescriptor : DYNAMIC_ARRAY → INPUT_CLASS_COMMON →
    VIRTIO_INPUT_CFG_DATA → ConsumerBuilt

/-! ## `VIOInputBuildReportDescriptor` -/

/-- The local variables of `VIOInputBuildReportDescriptor` together with the
device context it works on. -/
structure BuildLocals where
  pContext : INPUT_DEVICE
  ReportDescriptor : DYNAMIC_ARRAY
  status : Int
  KeyData : VIRTIO_INPUT_CFG_DATA
  RelData : VIRTIO_INPUT_CFG_DATA
  AbsData : VIRTIO_INPUT_CFG_DATA
  uReportID : Nat

/-- The state after the three config reads at the top of the function. -/
def buildInit (pContext : INPUT_DEVICE) : BuildLocals :=
  { pContext := pContext
    ReportDescriptor := { Ptr := none }
    status := STATUS_SUCCESS
    KeyData := readEventBits pContext EV_KEY
    RelData := readEventBits pContext EV_REL
    AbsData := readEventBits pContext EV_ABS
    uReportID := 0 }

/-- The condition of the mouse block. -/
def enterMouse (s : BuildLocals) : Bool :=
  !InputCfgDataEmpty s.RelData || !InputCfgDataEmpty s.AbsData

/-- The condition of the tablet block. -/
def enterTablet (s : BuildLocals) : Bool := !InputCfgDataEmpty s.AbsData

/-- The condition of the keyboard block and of the consumer block. -/
def enterKeys (s : BuildLocals) : Bool := !InputCfgDataEmpty s.KeyData

/-- The mouse block up to its status test: the report ID is assigned from
the pre-incremented counter, then the builder runs. -/
def mouseBuild (B : ClassBuilders) (s : BuildLocals) : BuildLocals :=
  let uReportID := (s.uReportID + 1) % 256
  let ctx := { s.pContext with MouseDesc := { s.pContext.MouseDesc with uReportID := uReportID } }
  let r := B.HIDMouseBuildReportDescriptor ctx s.ReportDescriptor ctx.MouseDesc
    s.RelData s.AbsData s.KeyData
  { pContext := { ctx with MouseDesc := { ctx.MouseDesc with
        cbHidReportSize := r.cbHidReportSize, pHidReport := r.pHidReport } }
    ReportDescriptor := r.ReportDescriptor
    status := r.status
    KeyData := r.KeyData
    RelData := r.RelData
    AbsData := r.AbsData
    uReportID := uReportID }

/-- The tablet block up to its status test. -/
def tabletBuild (B : ClassBuilders) (s : BuildLocals) : BuildLocals :=
  let uReportID := (s.uReportID + 1) % 256
  let ctx := { s.pContext with
    TabletDesc := { s.pContext.TabletDesc with uReportID := uReportID } }
  let r := B.HIDTabletBuildReportDescriptor ctx s.ReportDescriptor ctx.TabletDesc
    s.AbsData s.KeyData
  { s with
    pContext := { ctx with TabletDesc := { ctx.TabletDesc with
        cbHidReportSize := r.cbHidReportSize, pHidReport := r.pHidReport } }
    ReportDescriptor := r.ReportDescriptor
    status := r.status
    KeyData := r.KeyData
    AbsData := r.AbsData
    uReportID := uReportID }

/-- The keyboard block up to its status test: the LED bitmap is read, the
report ID assigned, then the builder runs. -/
def keyboardBuild (B : ClassBuilders) (s : BuildLocals) : BuildLocals :=
  let LedData := readEventBits s.pContext EV_LED
  let uReportID := (s.uReportID + 1) % 256
  let ctx := { s.pContext with
    KeyboardDesc := { s.pContext.KeyboardDesc with uReportID := uReportID } }
  let r := B.HIDKeyboardBuildReportDescriptor s.ReportDescriptor ctx.KeyboardDesc
    s.KeyData LedData
  { s with
    pContext := { ctx with KeyboardDesc := { ctx.KeyboardDesc with
        cbHidReportSize := r.cbHidReportSize, pHidReport := r.pHidReport } }
    ReportDescriptor := r.ReportDescriptor
    status := r.status
    KeyData := r.KeyData
    uReportID := uReportID }

/-- The consumer block up to its status test. -/
def consumerBuild (B : ClassBuilders) (s : BuildLocals) : BuildLocals :=
  let uReportID := (s.uReportID + 1) % 256
  let ctx := { s.pContext with
    ConsumerDesc := { s.pContext.ConsumerDesc with uReportID := uReportID } }
  let r := B.HIDConsumerBuildReportDescriptor s.ReportDescriptor ctx.ConsumerDesc s.KeyData
  { s with
    pContext := { ctx with ConsumerDesc := { ctx.ConsumerDesc with
        cbHidReportSize := r.cbHidReportSize, pHidReport := r.pHidReport } }
    ReportDescriptor := r.ReportDescriptor
    status := r.status
    KeyData := r.KeyData
    uReportID := uReportID }

/-- The end of the function, from "initialize the HID descriptor" on: the
returned status and the device context.  (`DumpReportDescriptor` only traces.) -/
def buildFinish (s : BuildLocals) : Int × INPUT_DEVICE :=
  match DynamicArrayGet s.ReportDescriptor with
  | none => (STATUS_INSUFFICIENT_RESOURCES, { s.pContext with HidReportDescriptor := none })
  | some (p, cbReportDescriptor) =>
    (s.status,
     { s.pContext with
       HidReportDescriptor := some p
       HidDescriptor := { G_DefaultHidDescriptor with
         wReportLength := cbReportDescriptor % 2 ^ 16 } })

/-- The function from the consumer block on. -/
def buildFromConsumer (B : ClassBuilders) (s : BuildLocals) : Int × INPUT_DEVICE :=
  if enterKeys s then
    let s' := consumerBuild B s
    if !NT_SUCCESS s'.status then (s'.status, s'.pContext) else buildFinish s'
  else buildFinish s

/-- The function from the keyboard block on. -/
def buildFromKeyboard (B : ClassBuilders) (s : BuildLocals) : Int × INPUT_DEVICE :=
  if enterKeys s then
    let s' := keyboardBuild B s
    if !NT_SUCCESS s'.status then (s'.status, s'.pContext) else buildFromConsumer B s'
  else buildFromConsumer B s

/-- The function from the tablet block on. -/
def buildFromTablet (B : ClassBuilders) (s : BuildLocals) : Int × INPUT_DEVICE :=
  if enterTablet s then
    let s' := tabletBuild B s
    if !NT_SUCCESS s'.status then (s'.status, s'.pContext) else buildFromKeyboard B s'
  else buildFromKeyboard B s

/-- Function `VIOInputBuildReportDescriptor`: the returned status and the device
context after the call. -/
def VIOInputBuildReportDescriptor (B : ClassBuilders) (pContext : INPUT_DEVICE) :
    Int × INPUT_DEVICE :=
  let s := buildInit pContext
  if enterMouse s then
    let s' := mouseBuild B s
    if !NT_SUCCESS s'.status then (s'.status, s'.pContext) else buildFromTablet B s'
  else buildFromTablet B s

/-- The locals when control reaches the tablet block. -/
def atTablet (B : ClassBuilders) (pContext : INPUT_DEVICE) : BuildLocals :=
  if enterMouse (buildInit pContext) then mouseBuild B (buildInit pContext)
  else buildInit pContext

/-- The locals when control reaches the keyboard block. -/
def atKeyboard (B : ClassBuilders) (pContext : INPUT_DEVICE) : BuildLocals :=
  if enterTablet (atTablet B pContext) then tabletBuild B (atTablet B pContext)
  else atTablet B pContext

/-- The locals when control reaches the consumer block. -/
def atConsumer (B : ClassBuilders) (pContext : INPUT_DEVICE) : BuildLocals :=
  if enterKeys (atKeyboard B pContext) then keyboardBuild B (atKeyboard B pContext)
  else atKeyboard B pContext

/-- The locals when control reaches the end of the function. -/
def atFinish (B : ClassBuilders) (pContext : INPUT_DEVICE) : BuildLocals :=
  if enterKeys (atConsumer B pContext) then consumerBuild B (atConsumer B pContext)
  else atConsumer B pContext

/-- The report IDs of the four classes in priority order: mouse, tablet,
keyboard, consumer. -/
def reportIDs (pContext : INPUT_DEVICE) : List Nat :=
  [pContext.MouseDesc.uReportID, pContext.TabletDesc.uReportID,
   pContext.KeyboardDesc.uReportID, pContext.ConsumerDesc.uReportID]

/-- The counter `uReportID` and the report IDs of the four classes. -/
def idsOf (s : BuildLocals) : Nat × Nat × Nat × Nat × Nat :=
  (s.uReportID, s.pContext.MouseDesc.uReportID, s.pContext.TabletDesc.uReportID,
   s.pContext.KeyboardDesc.uReportID, s.pContext.ConsumerDesc.uReportID)

/-- The number of report IDs a block takes: one when it is entered. -/
def entered (b : Bool) : Nat := if b then 1 else 0

/-- A builder only clears bits of a bitmap: same size, and every byte of the
result is a submask of the byte it had. -/
def ClearsOnly (before after : VIRTIO_INPUT_CFG_DATA) : Prop :=
  after.size = before.size ∧
  ∀ i, after.bitmap.getD i 0 &&& before.bitmap.getD i 0 = after.bitmap.getD i 0

/-- All four builders only clear bits of the bitmaps they are given. -/
def ClassBuilders.ClearOnly (B : ClassBuilders) : Prop :=
  (∀ ctx a c rel abs key,
    ClearsOnly rel (B.HIDMouseBuildReportDescriptor ctx a c rel abs key).RelData ∧
    ClearsOnly abs (B.HIDMouseBuildReportDescriptor ctx a c rel abs key).AbsData ∧
    ClearsOnly key (B.HIDMouseBuildReportDescriptor ctx a c rel abs key).KeyData) ∧
  (∀ ctx a c abs key,
    ClearsOnly abs (B.HIDTabletBuildReportDescriptor ctx a c abs key).AbsData ∧
    ClearsOnly key (B.HIDTabletBuildReportDescriptor ctx a c abs key).KeyData) ∧
  (∀ a c key led,
    ClearsOnly key (B.HIDKeyboardBuildReportDescriptor a c key led).KeyData ∧
    ClearsOnly led (B.HIDKeyboardBuildReportDescriptor a c key led).LedData) ∧
  (∀ a c key, ClearsOnly key (B.HIDConsumerBuildReportDescriptor a c key).KeyData)

/-! ### Sample devices and builders, used to evaluate the functions -/

/-- A config space that shows the given bytes as the `EV_KEY`, `EV_REL`,
`EV_ABS` and `EV_LED` bitmaps and nothing else. -/
def sampleConfig (key rel abs led : List Nat) : ConfigSpace := fun select subsel =>
  let bytes : List Nat :=
    if select = VIRTIO_INPUT_CFG_EV_BITS then
      if subsel = EV_KEY then key
      else if subsel = EV_REL then rel
      else if subsel = EV_ABS then abs
      else if subsel = EV_LED then led
      else []
    else []
  { size := bytes.length, bitmap := fun i => bytes.getD i 0 }

/-- A zeroed class descriptor. -/
def zeroClass : INPUT_CLASS_COMMON :=
  { uReportID := 0, cbHidReportSize := 0, pHidReport := [], bDirty := false }

/-- A zeroed device context on the given config space. -/
def freshContext (cfg : ConfigSpace) : INPUT_DEVICE :=
  { VDevice := cfg
    HidDescriptor := { bLength := 0, bDescriptorType := 0, bcdHID := 0, bCountry := 0,
                       bNumDescriptors := 0, bReportType := 0, wReportLength := 0 }
    HidReportDescriptor := none
    MouseDesc := zeroClass
    TabletDesc := zeroClass
    KeyboardDesc := zeroClass
    ConsumerDesc := zeroClass }

/-- The bitmap with every byte cleared. -/
def clearAll (d : VIRTIO_INPUT_CFG_DATA) : VIRTIO_INPUT_CFG_DATA :=
  { d with bitmap := d.bitmap.map (fun _ => 0) }

/-- The bitmap with its first byte cleared. -/
def clearFirstByte (d : VIRTIO_INPUT_CFG_DATA) : VIRTIO_INPUT_CFG_DATA :=
  { d with bitmap := d.bitmap.set 0 0 }

/-- What a sample builder does to the array: it appends `emit`, or leaves
the array `NULL` when the allocation fails (`emit = none`). -/
def sampleEmit (emit : Option (List Nat)) (a : DYNAMIC_ARRAY) : DYNAMIC_ARRAY :=
  match emit with
  | some bytes => DynamicArrayAppend a bytes
  | none => { Ptr := none }

/-- Sample builders.  The mouse claims all relative axes, the tablet all
absolute axes, the keyboard the keys of the first bitmap byte, the consumer
all keys that are left.  A class that claimed something gets a report of
four bytes, one that claimed nothing a report size of zero.  All return
`STATUS_SUCCESS`. -/
def sampleBuilders (emit : Option (List Nat)) : ClassBuilders :=
  { HIDMouseBuildReportDescriptor := fun _ a _ rel abs key =>
      { status := STATUS_SUCCESS, ReportDescriptor := sampleEmit emit a,
        cbHidReportSize := if InputCfgDataEmpty rel then 0 else 4,
        pHidReport := [], RelData := clearAll rel, AbsData := abs, KeyData := key }
    HIDTabletBuildReportDescriptor := fun _ a _ abs key =>
      { status := STATUS_SUCCESS, ReportDescriptor := sampleEmit emit a,
        cbHidReportSize := if InputCfgDataEmpty abs then 0 else 4,
        pHidReport := [], AbsData := clearAll abs, KeyData := key }
    HIDKeyboardBuildReportDescriptor := fun a _ key led =>
      { status := STATUS_SUCCESS, ReportDescriptor := sampleEmit emit a,
        cbHidReportSize := if key.bitmap.getD 0 0 = 0 then 0 else 4,
        pHidReport := [], KeyData := clearFirstByte key, LedData := led }
    HIDConsumerBuildReportDescriptor := fun a _ key =>
      { status := STATUS_SUCCESS, ReportDescriptor := sampleEmit emit a,
        cbHidReportSize := if InputCfgDataEmpty key then 0 else 4,
        pHidReport := [], KeyData := clearAll key } }

/-! ## Requests: `RequestCopyFromBuffer` -/

/-- A framework request as `RequestCopyFromBuffer` sees it: the status that
`WdfRequestRetrieveOutputMemory` gives for it, the bytes of its output
memory (their number is `outputBufferLength`), the status that
`WdfMemoryCopyFromBuffer` gives for a copy that fits, and the `Information`
field. -/
structure WDFREQUEST where
  RetrieveOutputMemory : Int
  OutputMemory : List Nat
  MemoryCopyFromBuffer : Int
  Information : Nat
deriving DecidableEq, Repr

/-- Function `RequestCopyFromBuffer`: the returned status and the request afterwards.
A read past the end of `SourceBuffer` gives no bytes. -/
def RequestCopyFromBuffer (Request : WDFREQUEST) (SourceBuffer : List Nat)
    (NumBytesToCopyFrom : Nat) : Int × WDFREQUEST :=
  if !NT_SUCCESS Request.RetrieveOutputMemory then
    (Request.RetrieveOutputMemory, Request)
  else if Request.OutputMemory.length < NumBytesToCopyFrom then
    (STATUS_INVALID_BUFFER_SIZE, Request)
  else if !NT_SUCCESS Request.MemoryCopyFromBuffer then
    (Request.MemoryCopyFromBuffer, Request)
  else
    (Request.MemoryCopyFromBuffer,
     { Request with
       OutputMemory := SourceBuffer.take NumBytesToCopyFrom
         ++ Request.OutputMemory.drop NumBytesToCopyFrom
       Information := NumBytesToCopyFrom })

/-- The `IOCTL_HID_GET_REPORT_DESCRIPTOR` case of `EvtIoDeviceControl`: the
status the request is completed with and the request afterwards. -/
def GetReportDescriptor (pContext : INPUT_DEVICE) (Request : WDFREQUEST) : Int × WDFREQUEST :=
  RequestCopyFromBuffer Request (pContext.HidReportDescriptor.getD [])
    pContext.HidDescriptor.wReportLength

/-- The number of set bits of a byte. -/
def popcount (b : Nat) : Nat := ((List.range 8).map (fun i => b / 2 ^ i % 2)).sum

/-! ## Events and report delivery: `CompleteHIDQueueRequest`, `ProcessInputEvent` -/

/-- Modelled from the spec: the synchronization event type `EV_SYN` (value of
the virtio-input headers). -/
def EV_SYN : Nat := 0x00

/-- Modelled from the spec: the structure `VIRTIO_INPUT_EVENT` (declared in a
header), "`{ type, code: u16, value: i32 }`". -/
structure VIRTIO_INPUT_EVENT where
  type : Nat
  code : Nat
  value : Int
deriving DecidableEq, Repr

/-- Modelled from the spec: the framework's side of the driver, "a FIFO of
outstanding read requests" behind the handle `pContext->HidQueue`, and the
requests handed to `WdfRequestComplete` so far with their statuses, oldest
first. -/
structure Framework where
  HidQueue : List WDFREQUEST
  Completed : List (WDFREQUEST × Int)
deriving DecidableEq, Repr

/-- Modelled from the spec: the status of an empty queue,
`STATUS_NO_MORE_ENTRIES` of the platform headers (`0x8000001A`, read as a
signed `NTSTATUS`). -/
def STATUS_NO_MORE_ENTRIES : Int := 0x8000001A - 2 ^ 32

/-- Modelled from the spec: `WdfIoQueueRetrieveNextRequest`, "hand me the next
waiting consumer, or tell me none is waiting": the status, the request taken
from the head of the queue, and the framework afterwards. -/
def WdfIoQueueRetrieveNextRequest (io : Framework) : Int × Option WDFREQUEST × Framework :=
  match io.HidQueue with
  | [] => (STATUS_NO_MORE_ENTRIES, none, io)
  | request :: rest => (STATUS_SUCCESS, some request, { io with HidQueue := rest })

/-- Modelled from the spec: `WdfRequestComplete`, which hands the request back
with its status. -/
def WdfRequestComplete (io : Framework) (Request : WDFREQUEST) (status : Int) : Framework :=
  { io with Completed := io.Completed ++ [(Request, status)] }

/-- Function `CompleteHIDQueueRequest` on the class `pClass`: the framework and
the class afterwards. -/
def CompleteHIDQueueRequest (io : Framework) (pClass : INPUT_CLASS_COMMON) :
    Framework × INPUT_CLASS_COMMON :=
  if !pClass.bDirty then
    (io, pClass)
  else
    let r := WdfIoQueueRetrieveNextRequest io
    match NT_SUCCESS r.1, r.2.1 with
    | true, some request =>
      let c := RequestCopyFromBuffer request pClass.pHidReport pClass.cbHidReportSize
      let io' := WdfRequestComplete r.2.2 c.2 c.1
      if NT_SUCCESS c.1 then (io', { pClass with bDirty := false }) else (io', pClass)
    | _, _ => (r.2.2, pClass)

/-- The four device classes. -/
inductive DeviceClass where
  | Mouse
  | Keyboard
  | Consumer
  | Tablet
deriving DecidableEq, Repr

/-- The event-to-report mappers of the four classes.  They live in
`HidMouse.c`, `HidKeyboard.c`, `HidConsumer.c` and `HidTablet.c` and are
parameters here: each gets its class descriptor by pointer and the event, and
hands back the class descriptor as it leaves it. -/
structure EventMappers where
  HIDMouseEventToReport : INPUT_CLASS_COMMON → VIRTIO_INPUT_EVENT → INPUT_CLASS_COMMON
  HIDKeyboardEventToReport : INPUT_CLASS_COMMON → VIRTIO_INPUT_EVENT → INPUT_CLASS_COMMON
  HIDConsumerEventToReport : INPUT_CLASS_COMMON → VIRTIO_INPUT_EVENT → INPUT_CLASS_COMMON
  HIDTabletEventToReport : INPUT_CLASS_COMMON → VIRTIO_INPUT_EVENT → INPUT_CLASS_COMMON

/-- What a call of `ProcessInputEvent` leaves: the device context, the
framework, and the mapper invocations it made, in order. -/
structure InputOutcome where
  pContext : INPUT_DEVICE
  io : Framework
  mapperCalls : List (DeviceClass × VIRTIO_INPUT_EVENT)

/-- The body of the `if (pEvent->type == EV_SYN)` block of
`ProcessInputEvent`: the four `CompleteHIDQueueRequest` calls in the order
mouse, keyboard, consumer, tablet. -/
def sendReportsUp (pContext : INPUT_DEVICE) (io : Framework) : INPUT_DEVICE × Framework :=
  let m := CompleteHIDQueueRequest io pContext.MouseDesc
  let c1 := { pContext with MouseDesc := m.2 }
  let k := CompleteHIDQueueRequest m.1 c1.KeyboardDesc
  let c2 := { c1 with KeyboardDesc := k.2 }
  let c := CompleteHIDQueueRequest k.1 c2.ConsumerDesc
  let c3 := { c2 with ConsumerDesc := c.2 }
  let t := CompleteHIDQueueRequest c.1 c3.TabletDesc
  ({ c3 with TabletDesc := t.2 }, t.1)

/-- The four guarded mapper calls that end `ProcessInputEvent`. -/
def callMappers (M : EventMappers) (pContext : INPUT_DEVICE) (pEvent : VIRTIO_INPUT_EVENT) :
    INPUT_DEVICE × List (DeviceClass × VIRTIO_INPUT_EVENT) :=
  let s1 : INPUT_DEVICE × List (DeviceClass × VIRTIO_INPUT_EVENT) :=
    if pContext.MouseDesc.cbHidReportSize > 0 then
      ({ pContext with MouseDesc := M.HIDMouseEventToReport pContext.MouseDesc pEvent },
       [(DeviceClass.Mouse, pEvent)])
    else (pContext, [])
  let s2 : INPUT_DEVICE × List (DeviceClass × VIRTIO_INPUT_EVENT) :=
    if s1.1.KeyboardDesc.cbHidReportSize > 0 then
      ({ s1.1 with KeyboardDesc := M.HIDKeyboardEventToReport s1.1.KeyboardDesc pEvent },
       s1.2 ++ [(DeviceClass.Keyboard, pEvent)])
    else s1
  let s3 : INPUT_DEVICE × List (DeviceClass × VIRTIO_INPUT_EVENT) :=
    if s2.1.ConsumerDesc.cbHidReportSize > 0 then
      ({ s2.1 with ConsumerDesc := M.HIDConsumerEventToReport s2.1.ConsumerDesc pEvent },
       s2.2 ++ [(DeviceClass.Consumer, pEvent)])
    else s2
  if s3.1.TabletDesc.cbHidReportSize > 0 then
    ({ s3.1 with TabletDesc := M.HIDTabletEventToReport s3.1.TabletDesc pEvent },
     s3.2 ++ [(DeviceClass.Tablet, pEvent)])
  else s3

/-- Function `ProcessInputEvent`: on `EV_SYN` the reports are sent up; then, for
every event, the guarded mapper calls follow. -/
def ProcessInputEvent (M : EventMappers) (pContext : INPUT_DEVICE) (io : Framework)
    (pEvent : VIRTIO_INPUT_EVENT) : InputOutcome :=
  let s : INPUT_DEVICE × Framework :=
    if pEvent.type = EV_SYN then sendReportsUp pContext io else (pContext, io)
  let r := callMappers M s.1 pEvent
  { pContext := r.1, io := s.2, mapperCalls := r.2 }

/-- The class descriptors in the order in which the reports are sent up. -/
def flushOrder (pContext : INPUT_DEVICE) : List INPUT_CLASS_COMMON :=
  [pContext.MouseDesc, pContext.KeyboardDesc, pContext.ConsumerDesc, pContext.TabletDesc]

/-- The framework after `CompleteHIDQueueRequest` on each class of a list in
turn. -/
def flushList (io : Framework) : List INPUT_CLASS_COMMON → Framework
  | [] => io
  | c :: cs => flushList (CompleteHIDQueueRequest io c).1 cs

/-- A reader that got the report of a class: its output memory starts with
the `cbHidReportSize` bytes of the report buffer, `Information` is that
count, and it is completed with the status of the copy. -/
def delivered (c : INPUT_CLASS_COMMON) (r : WDFREQUEST) : WDFREQUEST × Int :=
  ({ r with
     OutputMemory := c.pHidReport.take c.cbHidReportSize
       ++ r.OutputMemory.drop c.cbHidReportSize
     Information := c.cbHidReportSize },
   r.MemoryCopyFromBuffer)

/-- A waiting reader that can take the report of every class of the list:
its output memory can be retrieved, is large enough, and the copy into it
succeeds. -/
def ReaderFits (cs : List INPUT_CLASS_COMMON) (r : WDFREQUEST) : Prop :=
  NT_SUCCESS r.RetrieveOutputMemory = true ∧ NT_SUCCESS r.MemoryCopyFromBuffer = true ∧
  ∀ c ∈ cs, c.cbHidReportSize ≤ r.OutputMemory.length

instance (cs : List INPUT_CLASS_COMMON) (r : WDFREQUEST) : Decidable (ReaderFits cs r) := by
  unfold ReaderFits; infer_instance

/-- The mapper calls `callMappers` makes for given report sizes: one call,
with the event, for each class whose `cbHidReportSize` is not zero, in the
order mouse, keyboard, consumer, tablet. -/
def expectedCalls (pContext : INPUT_DEVICE) (pEvent : VIRTIO_INPUT_EVENT) :
    List (DeviceClass × VIRTIO_INPUT_EVENT) :=
  (if 0 < pContext.MouseDesc.cbHidReportSize then [(DeviceClass.Mouse, pEvent)] else [])
  ++ (if 0 < pContext.KeyboardDesc.cbHidReportSize then [(DeviceClass.Keyboard, pEvent)] else [])
  ++ (if 0 < pContext.ConsumerDesc.cbHidReportSize then [(DeviceClass.Consumer, pEvent)] else [])
  ++ (if 0 < pContext.TabletDesc.cbHidReportSize then [(DeviceClass.Tablet, pEvent)] else [])

/-- Sample mappers: every class marks its report dirty on an event that is
not `EV_SYN` and leaves it alone on `EV_SYN`. -/
def sampleMappers : EventMappers :=
  { HIDMouseEventToReport := fun c e => if e.type = EV_SYN then c else { c with bDirty := true }
    HIDKeyboardEventToReport := fun c e =>
      if e.type = EV_SYN then c else { c with bDirty := true }
    HIDConsumerEventToReport := fun c e =>
      if e.type = EV_SYN then c else { c with bDirty := true }
    HIDTabletEventToReport := fun c e =>
      if e.type = EV_SYN then c else { c with bDirty := true } }

/-- A sample class descriptor with the given report ID, report buffer and
dirty flag. -/
def sampleClass (id : Nat) (report : List Nat) (dirty : Bool) : INPUT_CLASS_COMMON :=
  { uReportID := id, cbHidReportSize := report.length, pHidReport := report, bDirty := dirty }

/-- A sample reader with `n` bytes of output memory. -/
def sampleReader (n : Nat) : WDFREQUEST :=
  { RetrieveOutputMemory := STATUS_SUCCESS, OutputMemory := List.replicate n 0,
    MemoryCopyFromBuffer := STATUS_SUCCESS, Information := 0 }

/-- A sample device context: a mouse with report ID 1 and a keyboard with
report ID 2, with the given dirty flags; no tablet and no consumer class. -/
def sampleDevice (mouseDirty keyboardDirty : Bool) : INPUT_DEVICE :=
  { freshContext (sampleConfig [] [] [] []) with
    MouseDesc := sampleClass 1 [1, 0, 5, 0xFD] mouseDirty
    KeyboardDesc := sampleClass 2 [2, 0, 4] keyboardDirty }

/-! ## Output reports: `ProcessOutputReport`, `EvtIoDeviceControl` -/

/-- Modelled from the spec: the "no mapping for this report" error,
`STATUS_NONE_MAPPED` of the platform headers (`0xC0000073`, read as a signed
`NTSTATUS`). -/
def STATUS_NONE_MAPPED : Int := 0xC0000073 - 2 ^ 32

/-- Modelled from the spec: the `BufferTooSmall` error,
`STATUS_BUFFER_TOO_SMALL` of the platform headers (`0xC0000023`, read as a
signed `NTSTATUS`). -/
def STATUS_BUFFER_TOO_SMALL : Int := 0xC0000023 - 2 ^ 32

/-- Modelled from the spec: the `NotImplemented` error,
`STATUS_NOT_IMPLEMENTED` of the platform headers (`0xC0000002`, read as a
signed `NTSTATUS`). -/
def STATUS_NOT_IMPLEMENTED : Int := 0xC0000002 - 2 ^ 32

/-- Modelled from the spec: the transfer packet `HID_XFER_PACKET` of the
platform headers, "`WriteReport(reportId, payload)`": the report buffer it
points at, its length and the report ID. -/
structure HID_XFER_PACKET where
  reportBuffer : List Nat
  reportBufferLen : Nat
  reportId : Nat
deriving DecidableEq, Repr

/-- Outcome of `HIDKeyboardReportToEvent`: its status, the device context as
it leaves it, and the events it handed to the transport. -/
structure ReportToEvent where
  status : Int
  pContext : INPUT_DEVICE
  sent : List VIRTIO_INPUT_EVENT

/-- The keyboard's report-to-event mapper `HIDKeyboardReportToEvent`.  It
lives in `HidKeyboard.c` and is a parameter here, with the arguments of its C
call: the device context, the keyboard class, the request, the report buffer
and its length. -/
abbrev KeyboardReportToEvent :=
  INPUT_DEVICE → INPUT_CLASS_COMMON → WDFREQUEST → List Nat → Nat → ReportToEvent

/-- What a call of `ProcessOutputReport` leaves: the returned status, the
device context, the invocations of `HIDKeyboardReportToEvent` it made (with
the report buffer and length passed), and the events handed to the
transport. -/
structure OutputOutcome where
  status : Int
  pContext : INPUT_DEVICE
  mapperCalls : List (List Nat × Nat)
  sent : List VIRTIO_INPUT_EVENT

/-- Function `ProcessOutputReport`. -/
def ProcessOutputReport (HIDKeyboardReportToEvent : KeyboardReportToEvent)
    (pContext : INPUT_DEVICE) (Request : WDFREQUEST) (pPacket : HID_XFER_PACKET) :
    OutputOutcome :=
  if pPacket.reportId = pContext.KeyboardDesc.uReportID then
    let r := HIDKeyboardReportToEvent pContext pContext.KeyboardDesc Request
      pPacket.reportBuffer pPacket.reportBufferLen
    { status := r.status, pContext := r.pContext,
      mapperCalls := [(pPacket.reportBuffer, pPacket.reportBufferLen)], sent := r.sent }
  else
    { status := STATUS_NONE_MAPPED, pContext := pContext, mapperCalls := [], sent := [] }

/-- A sample keyboard mapper: it accepts a one-byte LED report and hands one
`EV_LED` event per LED bit 0..2 to the transport; it rejects an empty report
with `STATUS_BUFFER_TOO_SMALL`. -/
def sampleReportToEvent : KeyboardReportToEvent := fun pContext _ _ reportBuffer len =>
  if len < 1 then { status := STATUS_BUFFER_TOO_SMALL, pContext := pContext, sent := [] }
  else
    { status := STATUS_SUCCESS, pContext := pContext,
      sent := (List.range 3).map (fun i =>
        { type := EV_LED, code := i, value := ((reportBuffer.getD 0 0 / 2 ^ i % 2 : Nat) : Int) }) }

/-- Modelled from the spec: the control code of `GetDeviceDescriptor`,
`IOCTL_HID_GET_DEVICE_DESCRIPTOR` of the platform headers. -/
def IOCTL_HID_GET_DEVICE_DESCRIPTOR : Nat := 0xB0003
/-- Modelled from the spec: the control code of `GetReportDescriptor`,
`IOCTL_HID_GET_REPORT_DESCRIPTOR` of the platform headers. -/
def IOCTL_HID_GET_REPORT_DESCRIPTOR : Nat := 0xB0007
/-- Modelled from the spec: the control code of `ReadReport`,
`IOCTL_HID_READ_REPORT` of the platform headers. -/
def IOCTL_HID_READ_REPORT : Nat := 0xB000B
/-- Modelled from the spec: the control code of `WriteReport`,
`IOCTL_HID_WRITE_REPORT` of the platform headers. -/
def IOCTL_HID_WRITE_REPORT : Nat := 0xB000F
/-- Modelled from the spec: the control code of `GetDeviceAttributes`,
`IOCTL_HID_GET_DEVICE_ATTRIBUTES` of the platform headers. -/
def IOCTL_HID_GET_DEVICE_ATTRIBUTES : Nat := 0xB0027

/-- The in-memory bytes of a `HID_DESCRIPTOR` (a packed structure of nine
bytes, 16-bit fields little endian). -/
def HID_DESCRIPTOR.bytes (d : HID_DESCRIPTOR) : List Nat :=
  [d.bLength % 256, d.bDescriptorType % 256, d.bcdHID % 256, d.bcdHID / 256 % 256,
   d.bCountry % 256, d.bNumDescriptors % 256, d.bReportType % 256,
   d.wReportLength % 256, d.wReportLength / 256 % 256]

/-- What `EvtIoDeviceControl` takes from outside `Hid.c`: the keyboard's
report-to-event mapper, the status the framework gives to
`WdfRequestForwardToIoQueue`, the bytes of `pContext->HidDeviceAttributes`
(`sizeof(HID_DEVICE_ATTRIBUTES)` of them) and `sizeof(HID_XFER_PACKET)`. -/
structure IoCollaborators where
  HIDKeyboardReportToEvent : KeyboardReportToEvent
  WdfRequestForwardToIoQueue : Int
  HidDeviceAttributes : List Nat
  sizeof_HID_XFER_PACKET : Nat

/-- A device-control request: the request itself, the `InputBufferLength` that
`WdfRequestGetParameters` reports for it, and the transfer packet its
`UserBuffer` points at. -/
structure IoctlRequest where
  Request : WDFREQUEST
  InputBufferLength : Nat
  UserBuffer : HID_XFER_PACKET
deriving DecidableEq, Repr

/-- The local state of `EvtIoDeviceControl` at the end of its `switch`,
together with what the case did: the device context and framework, the
request, and the calls of `ProcessOutputReport` and of the keyboard mapper
with the events handed to the transport. -/
structure IoctlLocals where
  status : Int
  completeRequest : Bool
  Request : WDFREQUEST
  pContext : INPUT_DEVICE
  io : Framework
  outputReports : List HID_XFER_PACKET
  mapperCalls : List (List Nat × Nat)
  sent : List VIRTIO_INPUT_EVENT

/-- The `switch (IoControlCode)` of `EvtIoDeviceControl`. -/
def ioctlSwitch (E : IoCollaborators) (pContext : INPUT_DEVICE) (io : Framework)
    (R : IoctlRequest) (IoControlCode : Nat) : IoctlLocals :=
  if IoControlCode = IOCTL_HID_GET_DEVICE_DESCRIPTOR then
    let c := RequestCopyFromBuffer R.Request pContext.HidDescriptor.bytes
      pContext.HidDescriptor.bLength
    { status := c.1, completeRequest := true, Request := c.2, pContext := pContext, io := io,
      outputReports := [], mapperCalls := [], sent := [] }
  else if IoControlCode = IOCTL_HID_GET_DEVICE_ATTRIBUTES then
    let c := RequestCopyFromBuffer R.Request E.HidDeviceAttributes E.HidDeviceAttributes.length
    { status := c.1, completeRequest := true, Request := c.2, pContext := pContext, io := io,
      outputReports := [], mapperCalls := [], sent := [] }
  else if IoControlCode = IOCTL_HID_GET_REPORT_DESCRIPTOR then
    let c := GetReportDescriptor pContext R.Request
    { status := c.1, completeRequest := true, Request := c.2, pContext := pContext, io := io,
      outputReports := [], mapperCalls := [], sent := [] }
  else if IoControlCode = IOCTL_HID_READ_REPORT then
    let status := E.WdfRequestForwardToIoQueue
    if NT_SUCCESS status then
      { status := status, completeRequest := false, Request := R.Request, pContext := pContext,
        io := { io with HidQueue := io.HidQueue ++ [R.Request] },
        outputReports := [], mapperCalls := [], sent := [] }
    else
      { status := status, completeRequest := true, Request := R.Request, pContext := pContext,
        io := io, outputReports := [], mapperCalls := [], sent := [] }
  else if IoControlCode = IOCTL_HID_WRITE_REPORT then
    if R.InputBufferLength < E.sizeof_HID_XFER_PACKET then
      { status := STATUS_BUFFER_TOO_SMALL, completeRequest := true, Request := R.Request,
        pContext := pContext, io := io, outputReports := [], mapperCalls := [], sent := [] }
    else
      let Packet := R.UserBuffer
      let Request := { R.Request with Information := Packet.reportBufferLen }
      let o := ProcessOutputReport E.HIDKeyboardReportToEvent pContext Request Packet
      { status := o.status, completeRequest := !NT_SUCCESS o.status, Request := Request,
        pContext := o.pContext, io := io, outputReports := [Packet],
        mapperCalls := o.mapperCalls, sent := o.sent }
  else
    { status := STATUS_NOT_IMPLEMENTED, completeRequest := true, Request := R.Request,
      pContext := pContext, io := io, outputReports := [], mapperCalls := [], sent := [] }

/-- Function `EvtIoDeviceControl`: the `switch`, then the request is completed
with the status unless the case kept it. -/
def EvtIoDeviceControl (E : IoCollaborators) (pContext : INPUT_DEVICE) (io : Framework)
    (R : IoctlRequest) (IoControlCode : Nat) : IoctlLocals :=
  let s := ioctlSwitch E pContext io R IoControlCode
  if s.completeRequest then { s with io := WdfRequestComplete s.io s.Request s.status }
  else s

/-- Sample collaborators of `EvtIoDeviceControl`: the sample keyboard mapper,
a framework that accepts forwarded requests, zeroed device attributes of 32
bytes, and a transfer packet of 16 bytes. -/
def sampleCollaborators : IoCollaborators :=
  { HIDKeyboardReportToEvent := sampleReportToEvent
    WdfRequestForwardToIoQueue := STATUS_SUCCESS
    HidDeviceAttributes := List.replicate 32 0
    sizeof_HID_XFER_PACKET := 16 }

/-! ## Absolute axis information: `GetAbsAxisInfo` -/

/-- Modelled from the spec: `MAXUCHAR` of the platform headers, the largest
axis code that fits the one-byte sub-selector. -/
def MAXUCHAR : Nat := 0xff

/-- Modelled from the spec: the config selector for per-axis metadata,
`VIRTIO_INPUT_CFG_ABS_INFO` of the virtio-input headers. -/
def VIRTIO_INPUT_CFG_ABS_INFO : Nat := 0x12

/-- Modelled from the spec: `sizeof(struct virtio_input_absinfo)`, the size of
"`{ minimum: i32, maximum: i32, fuzz: i32, flat: i32, resolution: i32 }`". -/
def sizeof_virtio_input_absinfo : Nat := 20

/-- An access to the device's config space: a `SelectInputConfig` call with
its selector and sub-selector, or a one-byte `VirtIOWdfDeviceGet` of
`u.bitmap[i]`. -/
inductive ConfigAccess where
  | select (cfgSelect cfgSubSel : Nat)
  | readByte (i : Nat)
deriving DecidableEq, Repr

/-- The `for` loop of `GetAbsAxisInfo` from index `i`: while
`i < uSize && i < sizeof(struct virtio_input_absinfo)` byte `i` of the config
data goes to byte `i` of the result.  Gives the result bytes and the accesses
made.  The first argument bounds the number of iterations. -/
def absInfoLoop (pContext : INPUT_DEVICE) (cfgSubSel uSize : Nat) :
    Nat → Nat → List Nat → List ConfigAccess → List Nat × List ConfigAccess
  | 0, _, pAbsInfo, accesses => (pAbsInfo, accesses)
  | fuel + 1, i, pAbsInfo, accesses =>
    if i < uSize ∧ i < sizeof_virtio_input_absinfo then
      absInfoLoop pContext cfgSubSel uSize fuel (i + 1)
        (pAbsInfo.set i
          ((pContext.VDevice (VIRTIO_INPUT_CFG_ABS_INFO % 256) (cfgSubSel % 256)).bitmap i % 256))
        (accesses ++ [ConfigAccess.readByte i])
    else (pAbsInfo, accesses)

/-- Function `GetAbsAxisInfo`: the bytes of `*pAbsInfo` afterwards and the config
accesses made.  The loop advances `i` by one and stops at
`sizeof(struct virtio_input_absinfo)` at the latest, so one more iteration
than that always reaches its end. -/
def GetAbsAxisInfo (pContext : INPUT_DEVICE) (uAbsAxis : Nat) :
    List Nat × List ConfigAccess :=
  let pAbsInfo := List.replicate sizeof_virtio_input_absinfo 0
  if uAbsAxis ≤ MAXUCHAR then
    let uSize := SelectInputConfig pContext VIRTIO_INPUT_CFG_ABS_INFO (uAbsAxis % 256)
    absInfoLoop pContext (uAbsAxis % 256) uSize (sizeof_virtio_input_absinfo + 1) 0 pAbsInfo
      [ConfigAccess.select VIRTIO_INPUT_CFG_ABS_INFO (uAbsAxis % 256)]
  else (pAbsInfo, [])

/-- A config space that shows the given bytes as the information of absolute
axis 0 and nothing else. -/
def sampleAbsConfig (info : List Nat) : ConfigSpace := fun select subsel =>
  let bytes : List Nat :=
    if select = VIRTIO_INPUT_CFG_ABS_INFO ∧ subsel = 0 then info else []
  { size := bytes.length, bitmap := fun i => bytes.getD i 0 }

/-! ### Where a call of `VIOInputBuildReportDescriptor` stops -/

/-- Control reaches the tablet block: the mouse block, if it was entered, did
not return (its builder's status is a success; the status is still
`STATUS_SUCCESS` when the block was skipped). -/
def tabletReached (B : ClassBuilders) (pContext : INPUT_DEVICE) : Bool :=
  NT_SUCCESS (atTablet B pContext).status

/-- Control reaches the keyboard block: it reached the tablet block and that
block did not return. -/
def keyboardReached (B : ClassBuilders) (pContext : INPUT_DEVICE) : Bool :=
  tabletReached B pContext && NT_SUCCESS (atKeyboard B pContext).status

/-- Control reaches the consumer block: it reached the keyboard block and that
block did not return. -/
def consumerReached (B : ClassBuilders) (pContext : INPUT_DEVICE) : Bool :=
  keyboardReached B pContext && NT_SUCCESS (atConsumer B pContext).status

/-- The locals after the tablet block, entered or skipped. -/
def stepTablet (B : ClassBuilders) (s : BuildLocals) : BuildLocals :=
  if enterTablet s then tabletBuild B s else s

/-- The locals after the keyboard block, entered or skipped. -/
def stepKeyboard (B : ClassBuilders) (s : BuildLocals) : BuildLocals :=
  if enterKeys s then keyboardBuild B s else s

/-- The locals after the consumer block, entered or skipped. -/
def stepConsumer (B : ClassBuilders) (s : BuildLocals) : BuildLocals :=
  if enterKeys s then consumerBuild B s else s

/-- The locals after the last block that ran, from the keyboard block on: the
keyboard block when it returned, else the consumer block. -/
def stopFromKeyboard (B : ClassBuilders) (s : BuildLocals) : BuildLocals :=
  if NT_SUCCESS (stepKeyboard B s).status then stepConsumer B (stepKeyboard B s)
  else stepKeyboard B s

/-- The locals after the last block that ran, from the tablet block on. -/
def stopFromTablet (B : ClassBuilders) (s : BuildLocals) : BuildLocals :=
  if NT_SUCCESS (stepTablet B s).status then stopFromKeyboard B (stepTablet B s)
  else stepTablet B s

/-- The locals after the last block that ran in a call: the block whose
builder failed, or the consumer block when none failed. -/
def stopState (B : ClassBuilders) (pContext : INPUT_DEVICE) : BuildLocals :=
  if NT_SUCCESS (atTablet B pContext).status then stopFromTablet B (atTablet B pContext)
  else atTablet B pContext

/-- Sample builders whose tablet builder fails with
`STATUS_INSUFFICIENT_RESOURCES`; the others are the sample builders. -/
def sampleBuildersTabletFails : ClassBuilders :=
  { sampleBuilders (some [0xC0]) with
    HIDTabletBuildReportDescriptor := fun _ a _ abs key =>
      { status := STATUS_INSUFFICIENT_RESOURCES, ReportDescriptor := a,
        cbHidReportSize := 0, pHidReport := [], AbsData := abs, KeyData := key } }

end VioInput

namespace VioInput

/-! ## Properties of the short item encoding -/

theorem DynamicArrayAppend_data (a : DYNAMIC_ARRAY) (bs : List Nat) :
    (DynamicArrayAppend a bs).data = a.data ++ bs := rfl

theorem HIDAppend1_data (a : DYNAMIC_ARRAY) (tag : Nat) :
    (HIDAppend1 a tag).data = a.data ++ [tag % 256] := rfl

/-- The bytes `HIDAppend2` adds: the tag byte with the width code, then the
low `specWidth value` bytes of the value. -/
theorem HIDAppend2_data (a : DYNAMIC_ARRAY) (tag : Nat) (value : Int) :
    (HIDAppend2 a tag value).data
      = a.data ++ ((tag ||| widthCode (specWidth value)) % 256
          :: (LONG_bytes value).take (specWidth value)) := by
  unfold HIDAppend2 specWidth widthCode MINCHAR MAXCHAR MINSHORT MAXSHORT
  by_cases h1 : -128 ≤ value ∧ value ≤ 127
  · have h1' : value ≥ -128 ∧ value ≤ 127 := h1
    simp [h1, h1', DynamicArrayAppend_data, HIDAppend1_data]
  · by_cases h2 : -32768 ≤ value ∧ value ≤ 32767
    · simp [h1, h2, DynamicArrayAppend_data, HIDAppend1_data]
    · simp [h1, h2, DynamicArrayAppend_data, HIDAppend1_data]

theorem LONG_bytes_length (v : Int) : (LONG_bytes v).length = 4 := rfl

theorem specWidth_cases (v : Int) : specWidth v = 1 ∨ specWidth v = 2 ∨ specWidth v = 4 := by
  unfold specWidth
  split
  · exact Or.inl rfl
  · split
    · exact Or.inr (Or.inl rfl)
    · exact Or.inr (Or.inr rfl)

/-- C1: for every tag and every `LONG` value, `HIDAppend2` appends exactly
`1 + w` bytes, where `w` is the smallest of 1, 2, 4 whose signed range holds
the value: 1 iff `-128 ≤ v ≤ 127`, 2 iff outside that and
`-32768 ≤ v ≤ 32767`, and 4 otherwise. -/
theorem HIDAppend2_appends_minimal_width (a : DYNAMIC_ARRAY) (tag : Nat) (v : Int)
    (hv : IsLONG v) :
    (∃ item, (HIDAppend2 a tag v).data = a.data ++ item ∧ item.length = 1 + specWidth v) ∧
    (HIDAppend2 a tag v).Size = a.Size + (1 + specWidth v) ∧
    (specWidth v = 1 ∨ specWidth v = 2 ∨ specWidth v = 4) ∧
    FitsSigned (specWidth v) v ∧
    (∀ w, w = 1 ∨ w = 2 ∨ w = 4 → FitsSigned w v → specWidth v ≤ w) ∧
    (specWidth v = 1 ↔ -128 ≤ v ∧ v ≤ 127) ∧
    (specWidth v = 2 ↔ ¬ (-128 ≤ v ∧ v ≤ 127) ∧ -32768 ≤ v ∧ v ≤ 32767) ∧
    (specWidth v = 4 ↔ ¬ (-128 ≤ v ∧ v ≤ 127) ∧ ¬ (-32768 ≤ v ∧ v ≤ 32767)) := by
  have hlen : ((tag ||| widthCode (specWidth v)) % 256
      :: (LONG_bytes v).take (specWidth v)).length = 1 + specWidth v := by
    rcases specWidth_cases v with h | h | h <;> simp [h, LONG_bytes_length]
  refine ⟨⟨_, HIDAppend2_data a tag v, hlen⟩, ?_, specWidth_cases v, ?_, ?_, ?_, ?_, ?_⟩
  · unfold DYNAMIC_ARRAY.Size
    rw [HIDAppend2_data, List.length_append, hlen]
  · obtain ⟨hlo, hhi⟩ := hv
    unfold specWidth FitsSigned
    split
    · norm_num; omega
    · split
      · norm_num; omega
      · norm_num; omega
  · intro w hw hfit
    unfold specWidth
    unfold FitsSigned at hfit
    rcases hw with rfl | rfl | rfl
    · norm_num at hfit
      have : -128 ≤ v ∧ v ≤ 127 := by omega
      simp [this]
    · norm_num at hfit
      have : -32768 ≤ v ∧ v ≤ 32767 := by omega
      split
      · omega
      · simp [this]
    · split
      · omega
      · split <;> omega
  · unfold specWidth; split <;> [simp [*]; (split <;> simp [*])]
  · unfold specWidth; split <;> [simp [*]; (split <;> simp [*])]
  · unfold specWidth; split <;> [simp [*]; (split <;> simp [*])]

theorem HIDAppend2_appends_minimal_width_witness :
    IsLONG (-129) ∧ (HIDAppend2 ⟨none⟩ 0x14 (-129)).Size = 0 + (1 + 2) ∧ specWidth (-129) = 2 :=
  ⟨by decide,
   by simpa using (HIDAppend2_appends_minimal_width ⟨none⟩ 0x14 (-129) (by decide)).2.1,
   by decide⟩

theorem payloadOf_eq (a : DYNAMIC_ARRAY) (tag : Nat) (v : Int) :
    payloadOf a tag v = (LONG_bytes v).take (specWidth v) := by
  unfold payloadOf DYNAMIC_ARRAY.Size
  rw [HIDAppend2_data]
  simp [List.drop_append]

/-- Decoding the low `specWidth v` bytes of a `LONG` gives the value back. -/
theorem decode_LONG_bytes (v : Int) (hv : IsLONG v) :
    decodeSignedLE ((LONG_bytes v).take (specWidth v)) = v := by
  obtain ⟨hlo, hhi⟩ := hv
  norm_num at hlo hhi
  have hu : (((v % 4294967296).toNat : Nat) : Int) = v % 4294967296 :=
    Int.toNat_of_nonneg (Int.emod_nonneg _ (by norm_num))
  unfold specWidth
  split
  · simp only [LONG_bytes, decodeSignedLE, decodeUnsignedLE, List.take, List.length]
    norm_num
    split <;> omega
  · split
    · simp only [LONG_bytes, decodeSignedLE, decodeUnsignedLE, List.take, List.length]
      norm_num
      split <;> omega
    · simp only [LONG_bytes, decodeSignedLE, decodeUnsignedLE, List.take, List.length]
      norm_num
      split <;> omega

/-- C2: for every `LONG` value, the payload bytes `HIDAppend2` appends after
the tag byte are the low `w` bytes of the value in little-endian order, and
read back as a little-endian signed two's-complement integer of width `w`
they give the value again. -/
theorem HIDAppend2_payload_roundtrip (a : DYNAMIC_ARRAY) (tag : Nat) (v : Int)
    (hv : IsLONG v) :
    payloadOf a tag v = (LONG_bytes v).take (specWidth v) ∧
    (payloadOf a tag v).length = specWidth v ∧
    decodeSignedLE (payloadOf a tag v) = v := by
  refine ⟨payloadOf_eq a tag v, ?_, ?_⟩
  · rw [payloadOf_eq]
    rcases specWidth_cases v with h | h | h <;> simp [h, LONG_bytes_length]
  · rw [payloadOf_eq]
    exact decode_LONG_bytes v hv

theorem HIDAppend2_payload_roundtrip_witness :
    IsLONG (-300) ∧ payloadOf ⟨some [5]⟩ 0x24 (-300) = [0xD4, 0xFE] ∧
      decodeSignedLE (payloadOf ⟨some [5]⟩ 0x24 (-300)) = -300 :=
  ⟨by decide, by decide,
   (HIDAppend2_payload_roundtrip ⟨some [5]⟩ 0x24 (-300) (by decide)).2.2⟩

/-! ## Round trip of an assembled descriptor -/

/-- The bytes one call appends. -/
theorem HidCall.run_data (a : DYNAMIC_ARRAY) (c : HidCall) :
    ∃ hd payload, (c.run a).data = a.data ++ (hd :: payload) ∧
      (c.WellFormed → hd &&& 3 = widthCode payload.length ∧
        (payload.length = 0 ∨ payload.length = 1 ∨ payload.length = 2 ∨ payload.length = 4) ∧
        itemTriple (hd :: payload) = c.triple) := by
  cases c with
  | append1 tag =>
    refine ⟨tag % 256, [], HIDAppend1_data a tag, ?_⟩
    rintro ⟨h1, h2⟩
    have h3 : tag % 256 = tag := Nat.mod_eq_of_lt h1
    have e3 : tag &&& 3 = tag % 4 := Nat.and_pow_two_sub_one_eq_mod tag 2
    have hq : tag = 2 ^ 2 * (tag / 4) + 0 := by omega
    have e4 : tag &&& 0xFC = tag := by
      rw [hq]
      have : tag / 4 < 64 := by omega
      generalize tag / 4 = q at this
      interval_cases q <;> rfl
    simp [h3, e3, h2, widthCode, itemTriple, HidCall.triple, decodeSignedLE, decodeUnsignedLE, e4]
  | append2 tag v =>
    refine ⟨(tag ||| widthCode (specWidth v)) % 256, (LONG_bytes v).take (specWidth v),
      HIDAppend2_data a tag v, ?_⟩
    rintro ⟨h1, h2, hv⟩
    have hlen : ((LONG_bytes v).take (specWidth v)).length = specWidth v := by
      rcases specWidth_cases v with h | h | h <;> simp [h, LONG_bytes_length]
    have hc : widthCode (specWidth v) < 2 ^ 2 := by
      rcases specWidth_cases v with h | h | h <;> simp [h, widthCode]
    have hq : tag = 2 ^ 2 * (tag / 4) := by omega
    have hor : tag ||| widthCode (specWidth v) = tag + widthCode (specWidth v) := by
      conv_lhs => rw [hq]
      rw [← Nat.mul_add_lt_is_or hc]
      omega
    have hlt : tag + widthCode (specWidth v) < 256 := by omega
    have e3 : ∀ n : Nat, n &&& 3 = n % 4 := fun n => Nat.and_pow_two_sub_one_eq_mod n 2
    have e4 : (tag + widthCode (specWidth v)) &&& 0xFC = tag := by
      have : tag / 4 < 64 := by omega
      rw [hq]
      generalize tag / 4 = q at this
      generalize widthCode (specWidth v) = c at hc
      interval_cases q <;> interval_cases c <;> rfl
    refine ⟨?_, ?_, ?_⟩
    · rw [hor, Nat.mod_eq_of_lt hlt, e3, hlen]
      omega
    · rw [hlen]
      rcases specWidth_cases v with h | h | h <;> simp [h]
    · simp only [itemTriple, HidCall.triple, hor, Nat.mod_eq_of_lt hlt, e4, hlen,
        decode_LONG_bytes v hv]

theorem getD_mid (pre mid post : List Nat) (k : Nat) (hk : k < mid.length) :
    (pre ++ (mid ++ post)).getD (pre.length + k) 0 = mid.getD k 0 := by
  rw [List.getD_append_right _ _ _ _ (Nat.le_add_right _ _), Nat.add_sub_cancel_left,
    List.getD_append _ _ _ _ hk]

/-- One iteration of the walk over a well-formed item that starts at the
current index. -/
theorem dumpWalk_item (pre post payload : List Nat) (hd cbSize fuel : Nat)
    (hi : pre.length < cbSize) (hc : hd &&& 3 = widthCode payload.length)
    (hw : payload.length = 0 ∨ payload.length = 1 ∨ payload.length = 2 ∨ payload.length = 4) :
    dumpWalk (pre ++ ((hd :: payload) ++ post)) cbSize (fuel + 1) pre.length
      = ((hd :: payload) ::
          (dumpWalk (pre ++ ((hd :: payload) ++ post)) cbSize fuel
            (pre.length + (hd :: payload).length)).1,
         (dumpWalk (pre ++ ((hd :: payload) ++ post)) cbSize fuel
            (pre.length + (hd :: payload).length)).2) := by
  have g0 : (pre ++ ((hd :: payload) ++ post)).getD pre.length 0 = hd := by
    have := getD_mid pre (hd :: payload) post 0 (by simp)
    simpa using this
  have gk : ∀ k, k + 1 < (hd :: payload).length →
      (pre ++ ((hd :: payload) ++ post)).getD (pre.length + (k + 1)) 0 = payload.getD k 0 := by
    intro k hk
    have := getD_mid pre (hd :: payload) post (k + 1) hk
    simpa using this
  rw [dumpWalk]
  simp only [hi, if_true, g0, hc]
  rcases hw with h | h | h | h
  · match payload, h with
    | [], _ => simp [widthCode]
  · match payload, h with
    | [p0], _ =>
      have h0 := gk 0 (by simp)
      simp at h0
      simp [widthCode, h0]
  · match payload, h with
    | [p0, p1], _ =>
      have h0 := gk 0 (by simp)
      have h1 := gk 1 (by simp)
      simp at h0 h1
      simp [widthCode, h0, h1]
  · match payload, h with
    | [p0, p1, p2, p3], _ =>
      have h0 := gk 0 (by simp)
      have h1 := gk 1 (by simp)
      have h2 := gk 2 (by simp)
      have h3 := gk 3 (by simp)
      simp at h0 h1 h2 h3
      simp [widthCode, h0, h1, h2, h3]

theorem foldl_run_data (calls : List HidCall) :
    ∀ a : DYNAMIC_ARRAY, ∃ tail, (calls.foldl HidCall.run a).data = a.data ++ tail := by
  induction calls with
  | nil => intro a; exact ⟨[], by simp⟩
  | cons c rest ih =>
    intro a
    obtain ⟨hd, payload, h1, -⟩ := HidCall.run_data a c
    obtain ⟨tail, h2⟩ := ih (c.run a)
    exact ⟨(hd :: payload) ++ tail, by rw [List.foldl_cons, h2, h1, List.append_assoc]⟩

/-- The walk over the items appended after `a` stops exactly at the end of
the data and prints the items one per line. -/
theorem dumpWalk_items (calls : List HidCall) :
    ∀ (a : DYNAMIC_ARRAY) (fuel : Nat) (post : List Nat),
      (∀ c ∈ calls, c.WellFormed) →
      (calls.foldl HidCall.run a).Size - a.Size ≤ fuel →
      (dumpWalk ((calls.foldl HidCall.run a).data ++ post)
        (calls.foldl HidCall.run a).Size fuel a.Size).2 = (calls.foldl HidCall.run a).Size ∧
      (dumpWalk ((calls.foldl HidCall.run a).data ++ post)
        (calls.foldl HidCall.run a).Size fuel a.Size).1.map itemTriple
          = calls.map HidCall.triple := by
  induction calls with
  | nil =>
    intro a fuel post _ _
    cases fuel with
    | zero => simp [dumpWalk]
    | succ f => simp [dumpWalk]
  | cons c rest ih =>
    intro a fuel post hwf hfuel
    obtain ⟨hd, payload, h1, h1wf⟩ := HidCall.run_data a c
    obtain ⟨hc, hw, htr⟩ := h1wf (hwf c (List.mem_cons_self _ _))
    obtain ⟨tail, h2⟩ := foldl_run_data rest (c.run a)
    have hsz' : (c.run a).Size = a.Size + (hd :: payload).length := by
      unfold DYNAMIC_ARRAY.Size; rw [h1, List.length_append]
    have hF : ((c :: rest).foldl HidCall.run a).data ++ post
        = a.data ++ ((hd :: payload) ++ (tail ++ post)) := by
      rw [List.foldl_cons, h2, h1]; simp
    have hFs : ((c :: rest).foldl HidCall.run a).Size
        = a.Size + (hd :: payload).length + tail.length := by
      unfold DYNAMIC_ARRAY.Size
      rw [List.foldl_cons, h2, h1]; simp; omega
    have hlen1 : (hd :: payload).length = payload.length + 1 := rfl
    cases fuel with
    | zero => omega
    | succ f =>
      have hi : a.data.length < ((c :: rest).foldl HidCall.run a).Size := by
        rw [hFs]; unfold DYNAMIC_ARRAY.Size; omega
      have step := dumpWalk_item a.data (tail ++ post) payload hd
        ((c :: rest).foldl HidCall.run a).Size f hi hc hw
      have hih := ih (c.run a) f post (fun c' hc' => hwf c' (List.mem_cons_of_mem _ hc'))
        (by rw [List.foldl_cons] at hFs; rw [hFs, hsz']; rw [List.foldl_cons] at hfuel; omega)
      rw [hsz'] at hih
      rw [List.foldl_cons] at hF hfuel step ⊢
      rw [hF]
      rw [hF] at hih
      unfold DYNAMIC_ARRAY.Size at hih step ⊢
      rw [step]
      refine ⟨hih.1, ?_⟩
      rw [List.map_cons, List.map_cons, htr, hih.2]

/-- C3: for every sequence of `HIDAppend1(tag)` and `HIDAppend2(tag, v)` calls
on the initially empty array, with tags whose low two bits are zero, the walk
of `DumpReportDescriptor` over the assembled bytes stops exactly at their end
and its items, read as (tag, width, value), are the triples that were
appended, in the same order. -/
theorem assemble_parse_roundtrip (calls : List HidCall)
    (hwf : ∀ c ∈ calls, c.WellFormed) :
    (DumpReportDescriptor (assemble calls).data (assemble calls).Size).2
        = (assemble calls).Size ∧
    (DumpReportDescriptor (assemble calls).data (assemble calls).Size).1.map itemTriple
        = calls.map HidCall.triple := by
  have h := dumpWalk_items calls { Ptr := none } (assemble calls).Size [] hwf
    (by unfold assemble; omega)
  simpa [DumpReportDescriptor, assemble, DYNAMIC_ARRAY.Size, DYNAMIC_ARRAY.data] using h

theorem assemble_parse_roundtrip_witness :
    (∀ c ∈ [HidCall.append2 0x04 1, .append2 0x24 (-300), .append1 0xC0,
        .append2 0x44 70000], c.WellFormed) ∧
    (assemble [.append2 0x04 1, .append2 0x24 (-300), .append1 0xC0, .append2 0x44 70000]).data
      = [0x05, 0x01, 0x26, 0xD4, 0xFE, 0xC0, 0x47, 0x70, 0x11, 0x01, 0x00] ∧
    (DumpReportDescriptor
        (assemble [.append2 0x04 1, .append2 0x24 (-300), .append1 0xC0,
          .append2 0x44 70000]).data
        (assemble [.append2 0x04 1, .append2 0x24 (-300), .append1 0xC0,
          .append2 0x44 70000]).Size).1.map itemTriple
      = [(0x04, 1, 1), (0x24, 2, -300), (0xC0, 0, 0), (0x44, 4, 70000)] :=
  ⟨by decide, by decide,
   (assemble_parse_roundtrip [.append2 0x04 1, .append2 0x24 (-300), .append1 0xC0,
      .append2 0x44 70000] (by decide)).2⟩

/-! ## Capability bitmaps -/

set_option maxRecDepth 100000 in
/-- Draining a byte returns the positions of its set bits in increasing
order and leaves the byte zero. -/
theorem drainByte_spec : ∀ b < 256,
    (drainByte 9 b 0).1 = (List.range 8).filter (fun k => b.testBit k) ∧
    (drainByte 9 b 0).2.1 = 0 := by
  decide

theorem drainBytes_length (bs : List Nat) : ∀ i, (drainBytes bs i).2.length = bs.length := by
  induction bs with
  | nil => intro i; rfl
  | cons b bs ih => intro i; simp [drainBytes, ih]

theorem drainBytes_zero (bs : List Nat) (hb : ∀ b ∈ bs, b < 256) :
    ∀ i, ∀ x ∈ (drainBytes bs i).2, x = 0 := by
  induction bs with
  | nil => intro i x hx; simp [drainBytes] at hx
  | cons b bs ih =>
    intro i x hx
    simp only [drainBytes, List.mem_cons] at hx
    rcases hx with rfl | hx
    · exact (drainByte_spec b (hb b (List.mem_cons_self _ _))).2
    · exact ih (fun y hy => hb y (List.mem_cons_of_mem _ hy)) (i + 1) x hx

/-- Membership in the enumeration from byte index `i` on. -/
theorem mem_drainBytes (bs : List Nat) (hb : ∀ b ∈ bs, b < 256) :
    ∀ i k, k ∈ (drainBytes bs i).1 ↔
      8 * i ≤ k ∧ k / 8 - i < bs.length ∧ (bs.getD (k / 8 - i) 0).testBit (k % 8) = true := by
  induction bs with
  | nil => intro i k; simp [drainBytes]
  | cons b bs ih =>
    intro i k
    have hd := (drainByte_spec b (hb b (List.mem_cons_self _ _))).1
    have ih' := ih (fun y hy => hb y (List.mem_cons_of_mem _ hy)) (i + 1) k
    simp only [drainBytes, List.mem_append, List.mem_map, hd, List.mem_filter, List.mem_range,
      ih', List.length_cons]
    constructor
    · rintro (⟨p, ⟨hp, hbit⟩, rfl⟩ | ⟨h1, h2, h3⟩)
      · have e1 : (p + 8 * i) / 8 - i = 0 := by omega
        have e2 : (p + 8 * i) % 8 = p := by omega
        rw [e1, e2]
        exact ⟨by omega, by omega, by simpa using hbit⟩
      · have e1 : k / 8 - i = (k / 8 - (i + 1)) + 1 := by omega
        rw [e1, List.getD_cons_succ]
        exact ⟨by omega, by omega, h3⟩
    · rintro ⟨h1, h2, h3⟩
      by_cases h0 : k / 8 - i = 0
      · left
        rw [h0, List.getD_cons_zero] at h3
        exact ⟨k % 8, ⟨by omega, h3⟩, by omega⟩
      · right
        have e1 : k / 8 - i = (k / 8 - (i + 1)) + 1 := by omega
        rw [e1, List.getD_cons_succ] at h3
        exact ⟨by omega, by omega, h3⟩

/-- The enumeration comes out in strictly increasing order. -/
theorem drainBytes_sorted (bs : List Nat) (hb : ∀ b ∈ bs, b < 256) :
    ∀ i, (drainBytes bs i).1.Pairwise (· < ·) := by
  induction bs with
  | nil => intro i; simp [drainBytes]
  | cons b bs ih =>
    intro i
    have hb' : ∀ y ∈ bs, y < 256 := fun y hy => hb y (List.mem_cons_of_mem _ hy)
    have hd := (drainByte_spec b (hb b (List.mem_cons_self _ _))).1
    simp only [drainBytes, hd]
    rw [List.pairwise_append]
    refine ⟨?_, ih hb' (i + 1), ?_⟩
    · rw [List.pairwise_map]
      have h := (List.pairwise_lt_range 8).filter (fun k => b.testBit k)
      exact h.imp (fun hab => by omega)
    · intro x hx y hy
      rw [mem_drainBytes bs hb'] at hy
      simp only [List.mem_map, List.mem_filter, List.mem_range] at hx
      obtain ⟨p, ⟨hp, -⟩, rfl⟩ := hx
      omega

theorem getD_take_zero (l : List Nat) (n j : Nat) :
    (l.take n).getD j 0 = if j < n then l.getD j 0 else 0 := by
  simp only [List.getD_eq_getElem?_getD, List.getElem?_take]
  split <;> simp

/-- C4 fails as stated: `DecodeNextBit` reads and clears bits of the one byte
it is pointed at.  On the bitmap with bits 2, 5 and 9 set (bytes `0x24`,
`0x02`) repeated calls on the bitmap return 2, then 5, then `FALSE` although
bit 9 is still set, and `InputCfgDataEmpty` is still false. -/
theorem DecodeNextBit_stops_at_first_byte :
    DecodeNextBitAt ⟨2, [0x24, 0x02]⟩ 0 0 = (true, ⟨2, [0x20, 0x02]⟩, 2) ∧
    DecodeNextBitAt ⟨2, [0x20, 0x02]⟩ 0 2 = (true, ⟨2, [0x00, 0x02]⟩, 5) ∧
    DecodeNextBitAt ⟨2, [0x00, 0x02]⟩ 0 5 = (false, ⟨2, [0x00, 0x02]⟩, 5) ∧
    ((0x02 : Nat).testBit (9 % 8) = true) ∧
    InputCfgDataEmpty ⟨2, [0x00, 0x02]⟩ = false := by
  decide

/-- C4 (amended): `DecodeNextBit` works on one byte; called byte by byte over
a bitmap (each byte until `FALSE`, index `Value + 8 * i`) it returns exactly
the indices of the set bits below `8 * size`, in strictly increasing
(byte-major, bit-minor) order, and leaves a bitmap of the same size for which
`InputCfgDataEmpty` is true. -/
theorem drainBitmap_enumerates_set_bits (cfg : VIRTIO_INPUT_CFG_DATA)
    (hb : ∀ b ∈ cfg.bitmap, b < 256) :
    (drainBitmap cfg).1.Pairwise (· < ·) ∧
    (∀ k, k ∈ (drainBitmap cfg).1 ↔
      k / 8 < cfg.size ∧ (cfg.bitmap.getD (k / 8) 0).testBit (k % 8) = true) ∧
    (drainBitmap cfg).2.size = cfg.size ∧
    InputCfgDataEmpty (drainBitmap cfg).2 = true := by
  have hb' : ∀ b ∈ cfg.bitmap.take cfg.size, b < 256 :=
    fun b h => hb b (List.mem_of_mem_take h)
  refine ⟨drainBytes_sorted _ hb' 0, ?_, rfl, ?_⟩
  · intro k
    unfold drainBitmap
    simp only
    rw [mem_drainBytes _ hb' 0 k, getD_take_zero]
    simp only [Nat.sub_zero, Nat.mul_zero, Nat.zero_le, true_and, List.length_take]
    constructor
    · rintro ⟨h1, h2⟩
      have h3 : k / 8 < cfg.size := by omega
      rw [if_pos h3] at h2
      exact ⟨h3, h2⟩
    · rintro ⟨h1, h2⟩
      rw [if_pos h1]
      refine ⟨?_, h2⟩
      by_contra hlt
      have hge : cfg.bitmap.length ≤ k / 8 := by omega
      rw [List.getD_eq_default _ _ hge] at h2
      simp at h2
  · unfold InputCfgDataEmpty drainBitmap
    simp only [List.all_eq_true, List.mem_range, beq_iff_eq]
    intro i hi
    have hlen := drainBytes_length (cfg.bitmap.take cfg.size) 0
    by_cases h : i < (drainBytes (cfg.bitmap.take cfg.size) 0).2.length
    · rw [List.getD_append _ _ _ _ h]
      apply drainBytes_zero _ hb' 0
      rw [List.getD_eq_getElem _ _ h]
      exact List.getElem_mem _
    · apply List.getD_eq_default
      rw [List.length_append, hlen, List.length_take, List.length_drop]
      rw [hlen, List.length_take] at h
      omega

theorem drainBitmap_enumerates_set_bits_witness :
    (∀ b ∈ [0x24, 0x02], b < 256) ∧
    drainBitmap ⟨2, [0x24, 0x02]⟩ = ([2, 5, 9], ⟨2, [0, 0]⟩) ∧
    InputCfgDataEmpty (drainBitmap ⟨2, [0x24, 0x02]⟩).2 = true :=
  ⟨by decide, by decide,
   (drainBitmap_enumerates_set_bits ⟨2, [0x24, 0x02]⟩ (by decide)).2.2.2⟩

/-! ## `VIOInputBuildReportDescriptor` -/

theorem buildFinish_success (s : BuildLocals) (h : NT_SUCCESS (buildFinish s).1 = true) :
    ∃ p, s.ReportDescriptor.Ptr = some p ∧
      buildFinish s = (s.status, { s.pContext with
        HidReportDescriptor := some p
        HidDescriptor := { G_DefaultHidDescriptor with wReportLength := p.length % 2 ^ 16 } }) := by
  unfold buildFinish DynamicArrayGet at *
  cases hp : s.ReportDescriptor.Ptr with
  | none => simp [hp, STATUS_INSUFFICIENT_RESOURCES, NT_SUCCESS] at h
  | some p => exact ⟨p, rfl, by simp⟩

theorem buildFromConsumer_success (B : ClassBuilders) (s : BuildLocals)
    (h : NT_SUCCESS (buildFromConsumer B s).1 = true) :
    buildFromConsumer B s
      = buildFinish (if enterKeys s then consumerBuild B s else s) := by
  unfold buildFromConsumer at *
  by_cases hc : enterKeys s = true
  · simp only [hc, if_true] at h ⊢
    by_cases hs : NT_SUCCESS (consumerBuild B s).status = true
    · simp [hs]
    · simp [hs] at h
  · simp [hc]

theorem buildFromKeyboard_success (B : ClassBuilders) (s : BuildLocals)
    (h : NT_SUCCESS (buildFromKeyboard B s).1 = true) :
    buildFromKeyboard B s
      = buildFromConsumer B (if enterKeys s then keyboardBuild B s else s) := by
  unfold buildFromKeyboard at *
  by_cases hc : enterKeys s = true
  · simp only [hc, if_true] at h ⊢
    by_cases hs : NT_SUCCESS (keyboardBuild B s).status = true
    · simp [hs]
    · simp [hs] at h
  · simp [hc]

theorem buildFromTablet_success (B : ClassBuilders) (s : BuildLocals)
    (h : NT_SUCCESS (buildFromTablet B s).1 = true) :
    buildFromTablet B s
      = buildFromKeyboard B (if enterTablet s then tabletBuild B s else s) := by
  unfold buildFromTablet at *
  by_cases hc : enterTablet s = true
  · simp only [hc, if_true] at h ⊢
    by_cases hs : NT_SUCCESS (tabletBuild B s).status = true
    · simp [hs]
    · simp [hs] at h
  · simp [hc]

/-- A call that returns success has run to the end of the function. -/
theorem build_success (B : ClassBuilders) (pContext : INPUT_DEVICE)
    (h : NT_SUCCESS (VIOInputBuildReportDescriptor B pContext).1 = true) :
    VIOInputBuildReportDescriptor B pContext = buildFinish (atFinish B pContext) := by
  have h1 : VIOInputBuildReportDescriptor B pContext
      = buildFromTablet B (atTablet B pContext) := by
    unfold VIOInputBuildReportDescriptor atTablet at *
    by_cases hc : enterMouse (buildInit pContext) = true
    · simp only [hc, if_true] at h ⊢
      by_cases hs : NT_SUCCESS (mouseBuild B (buildInit pContext)).status = true
      · simp [hs]
      · simp [hs] at h
    · simp [hc]
  rw [h1] at h ⊢
  have h2 := buildFromTablet_success B _ h
  rw [h2] at h ⊢
  have h3 := buildFromKeyboard_success B _ h
  rw [h3] at h ⊢
  have h4 := buildFromConsumer_success B _ h
  rw [h4]
  rfl

/-- The counter and the four report IDs after each block. -/
theorem idsOf_mouseBuild (B : ClassBuilders) (s : BuildLocals) :
    idsOf (mouseBuild B s) = ((s.uReportID + 1) % 256, (s.uReportID + 1) % 256,
      s.pContext.TabletDesc.uReportID, s.pContext.KeyboardDesc.uReportID,
      s.pContext.ConsumerDesc.uReportID) := rfl

theorem idsOf_tabletBuild (B : ClassBuilders) (s : BuildLocals) :
    idsOf (tabletBuild B s) = ((s.uReportID + 1) % 256, s.pContext.MouseDesc.uReportID,
      (s.uReportID + 1) % 256, s.pContext.KeyboardDesc.uReportID,
      s.pContext.ConsumerDesc.uReportID) := rfl

theorem idsOf_keyboardBuild (B : ClassBuilders) (s : BuildLocals) :
    idsOf (keyboardBuild B s) = ((s.uReportID + 1) % 256, s.pContext.MouseDesc.uReportID,
      s.pContext.TabletDesc.uReportID, (s.uReportID + 1) % 256,
      s.pContext.ConsumerDesc.uReportID) := rfl

theorem idsOf_consumerBuild (B : ClassBuilders) (s : BuildLocals) :
    idsOf (consumerBuild B s) = ((s.uReportID + 1) % 256, s.pContext.MouseDesc.uReportID,
      s.pContext.TabletDesc.uReportID, s.pContext.KeyboardDesc.uReportID,
      (s.uReportID + 1) % 256) := rfl

theorem idsOf_eq (s : BuildLocals) :
    idsOf s = (s.uReportID, s.pContext.MouseDesc.uReportID, s.pContext.TabletDesc.uReportID,
      s.pContext.KeyboardDesc.uReportID, s.pContext.ConsumerDesc.uReportID) := rfl

theorem entered_true : entered true = 1 := rfl

theorem entered_false : entered false = 0 := rfl

theorem entered_le (b : Bool) : entered b ≤ 1 := by cases b <;> decide

theorem idsOf_atTablet (B : ClassBuilders) (pContext : INPUT_DEVICE) :
    idsOf (atTablet B pContext)
      = (entered (enterMouse (buildInit pContext)),
         if enterMouse (buildInit pContext) then 1 else pContext.MouseDesc.uReportID,
         pContext.TabletDesc.uReportID, pContext.KeyboardDesc.uReportID,
         pContext.ConsumerDesc.uReportID) := by
  unfold atTablet
  cases enterMouse (buildInit pContext)
  · simp only [Bool.false_eq_true, if_false, entered_false]; rfl
  · simp only [if_true, entered_true, idsOf_mouseBuild]; rfl

theorem idsOf_atKeyboard (B : ClassBuilders) (pContext : INPUT_DEVICE) :
    idsOf (atKeyboard B pContext)
      = (entered (enterMouse (buildInit pContext)) + entered (enterTablet (atTablet B pContext)),
         if enterMouse (buildInit pContext) then 1 else pContext.MouseDesc.uReportID,
         if enterTablet (atTablet B pContext) then
           entered (enterMouse (buildInit pContext)) + 1
         else pContext.TabletDesc.uReportID,
         pContext.KeyboardDesc.uReportID, pContext.ConsumerDesc.uReportID) := by
  have h := idsOf_atTablet B pContext
  have hb := entered_le (enterMouse (buildInit pContext))
  rw [idsOf_eq] at h
  simp only [Prod.mk.injEq] at h
  obtain ⟨h0, h1, h2, h3, h4⟩ := h
  unfold atKeyboard
  cases enterTablet (atTablet B pContext)
  · simp only [Bool.false_eq_true, if_false, entered_false, Nat.add_zero]
    rw [idsOf_eq, h0, h1, h2, h3, h4]
  · simp only [if_true, entered_true, idsOf_tabletBuild, h0, h1, h3, h4]
    rw [Nat.mod_eq_of_lt (by omega)]

theorem idsOf_atConsumer (B : ClassBuilders) (pContext : INPUT_DEVICE) :
    idsOf (atConsumer B pContext)
      = (entered (enterMouse (buildInit pContext)) + entered (enterTablet (atTablet B pContext))
           + entered (enterKeys (atKeyboard B pContext)),
         if enterMouse (buildInit pContext) then 1 else pContext.MouseDesc.uReportID,
         if enterTablet (atTablet B pContext) then
           entered (enterMouse (buildInit pContext)) + 1
         else pContext.TabletDesc.uReportID,
         if enterKeys (atKeyboard B pContext) then
           entered (enterMouse (buildInit pContext))
             + entered (enterTablet (atTablet B pContext)) + 1
         else pContext.KeyboardDesc.uReportID,
         pContext.ConsumerDesc.uReportID) := by
  have h := idsOf_atKeyboard B pContext
  have hb := entered_le (enterMouse (buildInit pContext))
  have hb2 := entered_le (enterTablet (atTablet B pContext))
  rw [idsOf_eq] at h
  simp only [Prod.mk.injEq] at h
  obtain ⟨h0, h1, h2, h3, h4⟩ := h
  unfold atConsumer
  cases enterKeys (atKeyboard B pContext)
  · simp only [Bool.false_eq_true, if_false, entered_false, Nat.add_zero]
    rw [idsOf_eq, h0, h1, h2, h3, h4]
  · simp only [if_true, entered_true, idsOf_keyboardBuild, h0, h1, h2, h4]
    rw [Nat.mod_eq_of_lt (by omega)]

/-- The counter and the report IDs when control reaches the end of the
function: each block that is entered takes the next number. -/
theorem idsOf_atFinish (B : ClassBuilders) (pContext : INPUT_DEVICE) :
    idsOf (atFinish B pContext)
      = (entered (enterMouse (buildInit pContext)) + entered (enterTablet (atTablet B pContext))
           + entered (enterKeys (atKeyboard B pContext))
           + entered (enterKeys (atConsumer B pContext)),
         if enterMouse (buildInit pContext) then 1 else pContext.MouseDesc.uReportID,
         if enterTablet (atTablet B pContext) then
           entered (enterMouse (buildInit pContext)) + 1
         else pContext.TabletDesc.uReportID,
         if enterKeys (atKeyboard B pContext) then
           entered (enterMouse (buildInit pContext))
             + entered (enterTablet (atTablet B pContext)) + 1
         else pContext.KeyboardDesc.uReportID,
         if enterKeys (atConsumer B pContext) then
           entered (enterMouse (buildInit pContext))
             + entered (enterTablet (atTablet B pContext))
             + entered (enterKeys (atKeyboard B pContext)) + 1
         else pContext.ConsumerDesc.uReportID) := by
  have h := idsOf_atConsumer B pContext
  have hb := entered_le (enterMouse (buildInit pContext))
  have hb2 := entered_le (enterTablet (atTablet B pContext))
  have hb3 := entered_le (enterKeys (atKeyboard B pContext))
  rw [idsOf_eq] at h
  simp only [Prod.mk.injEq] at h
  obtain ⟨h0, h1, h2, h3, h4⟩ := h
  unfold atFinish
  cases enterKeys (atConsumer B pContext)
  · simp only [Bool.false_eq_true, if_false, entered_false, Nat.add_zero]
    rw [idsOf_eq, h0, h1, h2, h3, h4]
  · simp only [if_true, entered_true, idsOf_consumerBuild, h0, h1, h2, h3]
    rw [Nat.mod_eq_of_lt (by omega)]

/-- After a successful call the class descriptors are those at the end of
the function, the report descriptor is the assembled array and
`wReportLength` is its length as a `USHORT`. -/
theorem build_success_result (B : ClassBuilders) (pContext : INPUT_DEVICE)
    (h : NT_SUCCESS (VIOInputBuildReportDescriptor B pContext).1 = true) :
    ∃ p, (atFinish B pContext).ReportDescriptor.Ptr = some p ∧
      VIOInputBuildReportDescriptor B pContext
        = ((atFinish B pContext).status, { (atFinish B pContext).pContext with
            HidReportDescriptor := some p
            HidDescriptor := { G_DefaultHidDescriptor with
              wReportLength := p.length % 2 ^ 16 } }) := by
  have h1 := build_success B pContext h
  rw [h1] at h ⊢
  exact buildFinish_success _ h

/-- The report IDs after a successful call, in terms of the blocks entered. -/
theorem build_success_ids (B : ClassBuilders) (pContext : INPUT_DEVICE)
    (h : NT_SUCCESS (VIOInputBuildReportDescriptor B pContext).1 = true) :
    (VIOInputBuildReportDescriptor B pContext).2.MouseDesc.uReportID
      = (if enterMouse (buildInit pContext) then 1 else pContext.MouseDesc.uReportID) ∧
    (VIOInputBuildReportDescriptor B pContext).2.TabletDesc.uReportID
      = (if enterTablet (atTablet B pContext) then
           entered (enterMouse (buildInit pContext)) + 1
         else pContext.TabletDesc.uReportID) ∧
    (VIOInputBuildReportDescriptor B pContext).2.KeyboardDesc.uReportID
      = (if enterKeys (atKeyboard B pContext) then
           entered (enterMouse (buildInit pContext))
             + entered (enterTablet (atTablet B pContext)) + 1
         else pContext.KeyboardDesc.uReportID) ∧
    (VIOInputBuildReportDescriptor B pContext).2.ConsumerDesc.uReportID
      = (if enterKeys (atConsumer B pContext) then
           entered (enterMouse (buildInit pContext))
             + entered (enterTablet (atTablet B pContext))
             + entered (enterKeys (atKeyboard B pContext)) + 1
         else pContext.ConsumerDesc.uReportID) := by
  obtain ⟨p, -, hp⟩ := build_success_result B pContext h
  have hi := idsOf_atFinish B pContext
  rw [idsOf_eq] at hi
  simp only [Prod.mk.injEq] at hi
  obtain ⟨-, h1, h2, h3, h4⟩ := hi
  rw [hp]
  simp only
  exact ⟨h1, h2, h3, h4⟩

theorem reportIDs_zero {pContext : INPUT_DEVICE} (h : reportIDs pContext = [0, 0, 0, 0]) :
    pContext.MouseDesc.uReportID = 0 ∧ pContext.TabletDesc.uReportID = 0 ∧
    pContext.KeyboardDesc.uReportID = 0 ∧ pContext.ConsumerDesc.uReportID = 0 := by
  simpa [reportIDs] using h

theorem ClearsOnly.empty {a b : VIRTIO_INPUT_CFG_DATA} (h : ClearsOnly a b)
    (ha : InputCfgDataEmpty a = true) : InputCfgDataEmpty b = true := by
  unfold InputCfgDataEmpty at *
  simp only [List.all_eq_true, List.mem_range, beq_iff_eq] at *
  intro i hi
  have h1 := h.2 i
  rw [ha i (by rw [← h.1]; exact hi), Nat.and_zero] at h1
  exact h1.symm

/-- When the keyboard block is skipped no key bit is left for the consumer
block either. -/
theorem enterKeys_atConsumer (B : ClassBuilders) (pContext : INPUT_DEVICE)
    (h : enterKeys (atConsumer B pContext) = true) :
    enterKeys (atKeyboard B pContext) = true := by
  by_contra hc
  have hc' : enterKeys (atKeyboard B pContext) = false := by simpa using hc
  unfold atConsumer at h
  rw [hc'] at h
  simp only [Bool.false_eq_true, if_false] at h
  exact hc h

/-- C6: when the `EV_REL` and `EV_ABS` bitmaps are both empty and the
`EV_KEY` bitmap is not, a successful call started with all report IDs 0
leaves mouse and tablet at 0, gives the keyboard 1, and gives the consumer 2
exactly when a key bit is still set after the keyboard builder has run
(otherwise the consumer stays 0). -/
theorem keys_only_report_ids (B : ClassBuilders) (pContext : INPUT_DEVICE)
    (hinit : reportIDs pContext = [0, 0, 0, 0])
    (hRel : InputCfgDataEmpty (readEventBits pContext EV_REL) = true)
    (hAbs : InputCfgDataEmpty (readEventBits pContext EV_ABS) = true)
    (hKey : InputCfgDataEmpty (readEventBits pContext EV_KEY) = false)
    (hs : NT_SUCCESS (VIOInputBuildReportDescriptor B pContext).1 = true) :
    (VIOInputBuildReportDescriptor B pContext).2.MouseDesc.uReportID = 0 ∧
    (VIOInputBuildReportDescriptor B pContext).2.TabletDesc.uReportID = 0 ∧
    (VIOInputBuildReportDescriptor B pContext).2.KeyboardDesc.uReportID = 1 ∧
    (VIOInputBuildReportDescriptor B pContext).2.ConsumerDesc.uReportID
      = (if InputCfgDataEmpty
            (B.HIDKeyboardBuildReportDescriptor { Ptr := none }
              { pContext.KeyboardDesc with uReportID := 1 }
              (readEventBits pContext EV_KEY) (readEventBits pContext EV_LED)).KeyData
         then 0 else 2) := by
  obtain ⟨i1, i2, i3, i4⟩ := build_success_ids B pContext hs
  obtain ⟨z1, z2, z3, z4⟩ := reportIDs_zero hinit
  have c1 : enterMouse (buildInit pContext) = false := by
    simp [enterMouse, buildInit, hRel, hAbs]
  have e1 : atTablet B pContext = buildInit pContext := by
    unfold atTablet; rw [c1]; rfl
  have c2 : enterTablet (atTablet B pContext) = false := by
    rw [e1]; simp [enterTablet, buildInit, hAbs]
  have e2 : atKeyboard B pContext = buildInit pContext := by
    unfold atKeyboard; rw [c2, e1]; rfl
  have c3 : enterKeys (atKeyboard B pContext) = true := by
    rw [e2]; simp [enterKeys, buildInit, hKey]
  have e3 : atConsumer B pContext = keyboardBuild B (buildInit pContext) := by
    unfold atConsumer; rw [c3, e2]; rfl
  have c4 : enterKeys (atConsumer B pContext)
      = !InputCfgDataEmpty
          (B.HIDKeyboardBuildReportDescriptor { Ptr := none }
            { pContext.KeyboardDesc with uReportID := 1 }
            (readEventBits pContext EV_KEY) (readEventBits pContext EV_LED)).KeyData := by
    rw [e3]; rfl
  simp only [c1, c2, c3, entered_true, entered_false, Bool.false_eq_true, if_false, if_true,
    z1, z2, z4] at i1 i2 i3 i4
  refine ⟨i1, i2, i3, ?_⟩
  rw [i4, c4]
  cases InputCfgDataEmpty _ <;> simp [entered]

theorem keys_only_report_ids_witness :
    reportIDs (freshContext (sampleConfig [0x00, 0x02] [] [] [])) = [0, 0, 0, 0] ∧
    InputCfgDataEmpty
      (readEventBits (freshContext (sampleConfig [0x00, 0x02] [] [] [])) EV_KEY) = false ∧
    (VIOInputBuildReportDescriptor (sampleBuilders (some [0xC0]))
      (freshContext (sampleConfig [0x00, 0x02] [] [] []))).2.KeyboardDesc.uReportID = 1 ∧
    (VIOInputBuildReportDescriptor (sampleBuilders (some [0xC0]))
      (freshContext (sampleConfig [0x00, 0x02] [] [] []))).2.ConsumerDesc.uReportID = 2 :=
  ⟨by decide, by decide,
   (keys_only_report_ids (sampleBuilders (some [0xC0]))
      (freshContext (sampleConfig [0x00, 0x02] [] [] []))
      (by decide) (by decide) (by decide) (by decide) (by decide)).2.2.1,
   by decide⟩

theorem ClearsOnly.refl (a : VIRTIO_INPUT_CFG_DATA) : ClearsOnly a a :=
  ⟨rfl, fun _ => Nat.and_self _⟩

theorem ClearsOnly.clearAll (a : VIRTIO_INPUT_CFG_DATA) : ClearsOnly a (clearAll a) := by
  refine ⟨rfl, fun i => ?_⟩
  have h : (VioInput.clearAll a).bitmap.getD i 0 = 0 := by
    simp only [VioInput.clearAll, List.getD_eq_getElem?_getD, List.getElem?_map]
    cases a.bitmap[i]? <;> rfl
  rw [h, Nat.zero_and]

theorem ClearsOnly.clearFirstByte (a : VIRTIO_INPUT_CFG_DATA) :
    ClearsOnly a (clearFirstByte a) := by
  refine ⟨rfl, fun i => ?_⟩
  cases i with
  | zero =>
    have h : (VioInput.clearFirstByte a).bitmap.getD 0 0 = 0 := by
      unfold VioInput.clearFirstByte
      cases a.bitmap <;> rfl
    rw [h, Nat.zero_and]
  | succ n =>
    have h : (VioInput.clearFirstByte a).bitmap.getD (n + 1) 0 = a.bitmap.getD (n + 1) 0 := by
      unfold VioInput.clearFirstByte
      cases a.bitmap <;> rfl
    rw [h, Nat.and_self]

/-- The sample builders only clear bits. -/
theorem sampleBuilders_clearOnly (emit : Option (List Nat)) :
    (sampleBuilders emit).ClearOnly :=
  ⟨fun _ _ _ rel abs key => ⟨ClearsOnly.clearAll rel, ClearsOnly.refl abs, ClearsOnly.refl key⟩,
   fun _ _ _ abs key => ⟨ClearsOnly.clearAll abs, ClearsOnly.refl key⟩,
   fun _ _ key led => ⟨ClearsOnly.clearFirstByte key, ClearsOnly.refl led⟩,
   fun _ _ key => ClearsOnly.clearAll key⟩

/-- C5 fails as stated: with relative axes, no absolute axes and a key the
keyboard builder does not claim (key bit 9 here), the call succeeds and the
consumer class gets report ID 3 instead of staying at 0. -/
theorem rel_device_consumer_gets_id :
    InputCfgDataEmpty
      (readEventBits (freshContext (sampleConfig [0x00, 0x02] [0x03] [] [])) EV_REL) = false ∧
    InputCfgDataEmpty
      (readEventBits (freshContext (sampleConfig [0x00, 0x02] [0x03] [] [])) EV_ABS) = true ∧
    reportIDs (freshContext (sampleConfig [0x00, 0x02] [0x03] [] [])) = [0, 0, 0, 0] ∧
    (sampleBuilders (some [0xC0])).ClearOnly ∧
    NT_SUCCESS (VIOInputBuildReportDescriptor (sampleBuilders (some [0xC0]))
      (freshContext (sampleConfig [0x00, 0x02] [0x03] [] []))).1 = true ∧
    reportIDs (VIOInputBuildReportDescriptor (sampleBuilders (some [0xC0]))
      (freshContext (sampleConfig [0x00, 0x02] [0x03] [] []))).2 = [1, 0, 2, 3] :=
  ⟨by decide, by decide, by decide, sampleBuilders_clearOnly _, by decide, by decide⟩

/-- C5 (amended): when the `EV_REL` bitmap is not empty and the `EV_ABS`
bitmap is, and the builders only clear bits, a successful call started with
all report IDs 0 gives the mouse report ID 1 and leaves the tablet at 0; the
keyboard gets 2 exactly when a key bit is left after the mouse builder, and
the consumer stays at 0 exactly when no key bit is left at its turn
(otherwise it gets 3, after the keyboard's 2). -/
theorem rel_only_report_ids (B : ClassBuilders) (pContext : INPUT_DEVICE)
    (hinit : reportIDs pContext = [0, 0, 0, 0])
    (hRel : InputCfgDataEmpty (readEventBits pContext EV_REL) = false)
    (hAbs : InputCfgDataEmpty (readEventBits pContext EV_ABS) = true)
    (hclear : B.ClearOnly)
    (hs : NT_SUCCESS (VIOInputBuildReportDescriptor B pContext).1 = true) :
    (VIOInputBuildReportDescriptor B pContext).2.MouseDesc.uReportID = 1 ∧
    (VIOInputBuildReportDescriptor B pContext).2.TabletDesc.uReportID = 0 ∧
    (VIOInputBuildReportDescriptor B pContext).2.KeyboardDesc.uReportID
      = (if InputCfgDataEmpty (mouseBuild B (buildInit pContext)).KeyData then 0 else 2) ∧
    (VIOInputBuildReportDescriptor B pContext).2.ConsumerDesc.uReportID
      = (if InputCfgDataEmpty (atConsumer B pContext).KeyData then 0 else 3) := by
  obtain ⟨i1, i2, i3, i4⟩ := build_success_ids B pContext hs
  obtain ⟨z1, z2, z3, z4⟩ := reportIDs_zero hinit
  have c1 : enterMouse (buildInit pContext) = true := by
    simp [enterMouse, buildInit, hRel]
  have e1 : atTablet B pContext = mouseBuild B (buildInit pContext) := by
    unfold atTablet; rw [c1]; rfl
  have c2 : enterTablet (atTablet B pContext) = false := by
    rw [e1]
    have h := (hclear.1 { pContext with MouseDesc := { pContext.MouseDesc with
        uReportID := (0 + 1) % 256 } } { Ptr := none }
      { pContext.MouseDesc with uReportID := (0 + 1) % 256 }
      (readEventBits pContext EV_REL) (readEventBits pContext EV_ABS)
      (readEventBits pContext EV_KEY)).2.1.empty hAbs
    have h' : InputCfgDataEmpty (mouseBuild B (buildInit pContext)).AbsData = true := h
    simp [enterTablet, h']
  have e2 : atKeyboard B pContext = mouseBuild B (buildInit pContext) := by
    unfold atKeyboard; rw [c2, e1]; rfl
  have c4 := enterKeys_atConsumer B pContext
  simp only [c1, c2, entered_true, entered_false, Bool.false_eq_true, if_false, if_true,
    z2, z3, z4] at i1 i2 i3 i4
  refine ⟨i1, i2, ?_, ?_⟩
  · rw [i3, e2]
    unfold enterKeys
    cases InputCfgDataEmpty _ <;> simp [entered]
  · rw [i4]
    unfold enterKeys at c4 ⊢
    cases h4 : InputCfgDataEmpty (atConsumer B pContext).KeyData
    · rw [h4] at c4
      have h3 := c4 rfl
      simp [entered, h3]
    · simp

theorem rel_only_report_ids_witness :
    reportIDs (freshContext (sampleConfig [0x01] [0x03] [] [])) = [0, 0, 0, 0] ∧
    InputCfgDataEmpty
      (readEventBits (freshContext (sampleConfig [0x01] [0x03] [] [])) EV_REL) = false ∧
    reportIDs (VIOInputBuildReportDescriptor (sampleBuilders (some [0xC0]))
      (freshContext (sampleConfig [0x01] [0x03] [] []))).2 = [1, 0, 2, 0] ∧
    (VIOInputBuildReportDescriptor (sampleBuilders (some [0xC0]))
      (freshContext (sampleConfig [0x01] [0x03] [] []))).2.MouseDesc.uReportID = 1 :=
  ⟨by decide, by decide, by decide,
   (rel_only_report_ids (sampleBuilders (some [0xC0]))
      (freshContext (sampleConfig [0x01] [0x03] [] []))
      (by decide) (by decide) (by decide) (sampleBuilders_clearOnly _) (by decide)).1⟩

/-- C7: after a successful call started with all class report IDs 0, the
non-zero report IDs, read in the order mouse, tablet, keyboard, consumer, are
exactly 1, 2, ..., k for some k between 0 and 4, whatever the builders do. -/
theorem report_ids_sequential (B : ClassBuilders) (pContext : INPUT_DEVICE)
    (hinit : reportIDs pContext = [0, 0, 0, 0])
    (hs : NT_SUCCESS (VIOInputBuildReportDescriptor B pContext).1 = true) :
    ∃ k, k ≤ 4 ∧
      (reportIDs (VIOInputBuildReportDescriptor B pContext).2).filter (fun n => n != 0)
        = List.range' 1 k := by
  obtain ⟨i1, i2, i3, i4⟩ := build_success_ids B pContext hs
  obtain ⟨z1, z2, z3, z4⟩ := reportIDs_zero hinit
  unfold reportIDs
  rw [i1, i2, i3, i4, z1, z2, z3, z4]
  refine ⟨entered (enterMouse (buildInit pContext)) + entered (enterTablet (atTablet B pContext))
    + entered (enterKeys (atKeyboard B pContext))
    + entered (enterKeys (atConsumer B pContext)), ?_, ?_⟩
  · have := entered_le (enterMouse (buildInit pContext))
    have := entered_le (enterTablet (atTablet B pContext))
    have := entered_le (enterKeys (atKeyboard B pContext))
    have := entered_le (enterKeys (atConsumer B pContext))
    omega
  · cases enterMouse (buildInit pContext) <;> cases enterTablet (atTablet B pContext) <;>
      cases enterKeys (atKeyboard B pContext) <;> cases enterKeys (atConsumer B pContext) <;>
      decide

theorem report_ids_sequential_witness :
    reportIDs (freshContext (sampleConfig [0x01, 0x02] [] [0x03] [])) = [0, 0, 0, 0] ∧
    reportIDs (VIOInputBuildReportDescriptor (sampleBuilders (some [0xC0]))
      (freshContext (sampleConfig [0x01, 0x02] [] [0x03] []))).2 = [1, 2, 3, 4] ∧
    ∃ k, k ≤ 4 ∧
      (reportIDs (VIOInputBuildReportDescriptor (sampleBuilders (some [0xC0]))
        (freshContext (sampleConfig [0x01, 0x02] [] [0x03] []))).2).filter (fun n => n != 0)
        = List.range' 1 k :=
  ⟨by decide, by decide,
   report_ids_sequential (sampleBuilders (some [0xC0]))
     (freshContext (sampleConfig [0x01, 0x02] [] [0x03] [])) (by decide) (by decide)⟩

/-- C8 fails as stated: the report ID is assigned before the builder runs.
With only key bit 9 set the keyboard builder claims nothing (the key bitmap
is the same after it as before, its report size is 0), yet the keyboard has
report ID 1 and the consumer gets 2. -/
theorem keyboard_id_without_claim :
    NT_SUCCESS (VIOInputBuildReportDescriptor (sampleBuilders (some [0xC0]))
      (freshContext (sampleConfig [0x00, 0x02] [] [] []))).1 = true ∧
    (atConsumer (sampleBuilders (some [0xC0]))
      (freshContext (sampleConfig [0x00, 0x02] [] [] []))).KeyData
      = (atKeyboard (sampleBuilders (some [0xC0]))
          (freshContext (sampleConfig [0x00, 0x02] [] [] []))).KeyData ∧
    (VIOInputBuildReportDescriptor (sampleBuilders (some [0xC0]))
      (freshContext (sampleConfig [0x00, 0x02] [] [] []))).2.KeyboardDesc.cbHidReportSize = 0 ∧
    (VIOInputBuildReportDescriptor (sampleBuilders (some [0xC0]))
      (freshContext (sampleConfig [0x00, 0x02] [] [] []))).2.KeyboardDesc.uReportID = 1 ∧
    (VIOInputBuildReportDescriptor (sampleBuilders (some [0xC0]))
      (freshContext (sampleConfig [0x00, 0x02] [] [] []))).2.ConsumerDesc.uReportID = 2 := by
  decide

/-- C8 (amended): after a successful call started with all report IDs 0, a
class has a non-zero report ID exactly when the bitmaps it is offered are not
empty at its turn: `EV_REL` or `EV_ABS` for the mouse, what is left of
`EV_ABS` for the tablet, what is left of `EV_KEY` for the keyboard and then
for the consumer.  The number is taken before the builder runs, whatever the
builder then claims. -/
theorem report_id_iff_offered (B : ClassBuilders) (pContext : INPUT_DEVICE)
    (hinit : reportIDs pContext = [0, 0, 0, 0])
    (hs : NT_SUCCESS (VIOInputBuildReportDescriptor B pContext).1 = true) :
    ((VIOInputBuildReportDescriptor B pContext).2.MouseDesc.uReportID ≠ 0 ↔
      (InputCfgDataEmpty (readEventBits pContext EV_REL) = false ∨
       InputCfgDataEmpty (readEventBits pContext EV_ABS) = false)) ∧
    ((VIOInputBuildReportDescriptor B pContext).2.TabletDesc.uReportID ≠ 0 ↔
      InputCfgDataEmpty (atTablet B pContext).AbsData = false) ∧
    ((VIOInputBuildReportDescriptor B pContext).2.KeyboardDesc.uReportID ≠ 0 ↔
      InputCfgDataEmpty (atKeyboard B pContext).KeyData = false) ∧
    ((VIOInputBuildReportDescriptor B pContext).2.ConsumerDesc.uReportID ≠ 0 ↔
      InputCfgDataEmpty (atConsumer B pContext).KeyData = false) := by
  obtain ⟨i1, i2, i3, i4⟩ := build_success_ids B pContext hs
  obtain ⟨z1, z2, z3, z4⟩ := reportIDs_zero hinit
  rw [i1, i2, i3, i4, z1, z2, z3, z4]
  have m : enterMouse (buildInit pContext)
      = (!InputCfgDataEmpty (readEventBits pContext EV_REL)
          || !InputCfgDataEmpty (readEventBits pContext EV_ABS)) := rfl
  rw [m]
  unfold enterTablet enterKeys
  refine ⟨?_, ?_, ?_, ?_⟩
  · cases InputCfgDataEmpty (readEventBits pContext EV_REL) <;>
      cases InputCfgDataEmpty (readEventBits pContext EV_ABS) <;> simp
  · cases InputCfgDataEmpty (atTablet B pContext).AbsData <;> simp
  · cases InputCfgDataEmpty (atKeyboard B pContext).KeyData <;> simp
  · cases InputCfgDataEmpty (atConsumer B pContext).KeyData <;> simp

theorem report_id_iff_offered_witness :
    reportIDs (freshContext (sampleConfig [0x01] [] [0x03] [])) = [0, 0, 0, 0] ∧
    reportIDs (VIOInputBuildReportDescriptor (sampleBuilders (some [0xC0]))
      (freshContext (sampleConfig [0x01] [] [0x03] []))).2 = [1, 2, 3, 0] ∧
    ((VIOInputBuildReportDescriptor (sampleBuilders (some [0xC0]))
        (freshContext (sampleConfig [0x01] [] [0x03] []))).2.ConsumerDesc.uReportID ≠ 0 ↔
      InputCfgDataEmpty (atConsumer (sampleBuilders (some [0xC0]))
        (freshContext (sampleConfig [0x01] [] [0x03] []))).KeyData = false) :=
  ⟨by decide, by decide,
   (report_id_iff_offered (sampleBuilders (some [0xC0]))
     (freshContext (sampleConfig [0x01] [] [0x03] [])) (by decide) (by decide)).2.2.2⟩

/-! ### Failure of the negotiation -/

theorem buildFinish_fail (s : BuildLocals) (hs : NT_SUCCESS s.status = true)
    (hf : NT_SUCCESS (buildFinish s).1 = false) :
    (buildFinish s).2.HidDescriptor = s.pContext.HidDescriptor := by
  unfold buildFinish DynamicArrayGet at *
  cases hp : s.ReportDescriptor.Ptr with
  | none => simp
  | some p =>
    rw [hp] at hf
    simp only [Option.map_some'] at hf
    rw [hs] at hf
    exact absurd hf (by decide)

theorem buildFromConsumer_fail (B : ClassBuilders) (s : BuildLocals)
    (hs : NT_SUCCESS s.status = true)
    (hf : NT_SUCCESS (buildFromConsumer B s).1 = false) :
    (buildFromConsumer B s).2.HidDescriptor = s.pContext.HidDescriptor := by
  unfold buildFromConsumer at *
  cases hc : enterKeys s
  · rw [hc] at hf
    simp only [Bool.false_eq_true, if_false] at hf ⊢
    exact buildFinish_fail s hs hf
  · rw [hc] at hf
    simp only [if_true] at hf ⊢
    cases h' : NT_SUCCESS (consumerBuild B s).status
    · simp only [h', Bool.not_false, if_true]
      rfl
    · rw [h'] at hf
      simp only [Bool.not_true, Bool.false_eq_true, if_false] at hf ⊢
      exact buildFinish_fail _ h' hf

theorem buildFromKeyboard_fail (B : ClassBuilders) (s : BuildLocals)
    (hs : NT_SUCCESS s.status = true)
    (hf : NT_SUCCESS (buildFromKeyboard B s).1 = false) :
    (buildFromKeyboard B s).2.HidDescriptor = s.pContext.HidDescriptor := by
  unfold buildFromKeyboard at *
  cases hc : enterKeys s
  · rw [hc] at hf
    simp only [Bool.false_eq_true, if_false] at hf ⊢
    exact buildFromConsumer_fail B s hs hf
  · rw [hc] at hf
    simp only [if_true] at hf ⊢
    cases h' : NT_SUCCESS (keyboardBuild B s).status
    · simp only [h', Bool.not_false, if_true]
      rfl
    · rw [h'] at hf
      simp only [Bool.not_true, Bool.false_eq_true, if_false] at hf ⊢
      exact buildFromConsumer_fail B _ h' hf

theorem buildFromTablet_fail (B : ClassBuilders) (s : BuildLocals)
    (hs : NT_SUCCESS s.status = true)
    (hf : NT_SUCCESS (buildFromTablet B s).1 = false) :
    (buildFromTablet B s).2.HidDescriptor = s.pContext.HidDescriptor := by
  unfold buildFromTablet at *
  cases hc : enterTablet s
  · rw [hc] at hf
    simp only [Bool.false_eq_true, if_false] at hf ⊢
    exact buildFromKeyboard_fail B s hs hf
  · rw [hc] at hf
    simp only [if_true] at hf ⊢
    cases h' : NT_SUCCESS (tabletBuild B s).status
    · simp only [h', Bool.not_false, if_true]
      rfl
    · rw [h'] at hf
      simp only [Bool.not_true, Bool.false_eq_true, if_false] at hf ⊢
      exact buildFromKeyboard_fail B _ h' hf

/-- No block after the mouse block writes the mouse's report ID. -/
theorem buildFinish_mouse (s : BuildLocals) :
    (buildFinish s).2.MouseDesc = s.pContext.MouseDesc := by
  unfold buildFinish
  cases DynamicArrayGet s.ReportDescriptor <;> rfl

theorem buildFromConsumer_mouse (B : ClassBuilders) (s : BuildLocals) :
    (buildFromConsumer B s).2.MouseDesc = s.pContext.MouseDesc := by
  unfold buildFromConsumer
  cases enterKeys s
  · simp only [Bool.false_eq_true, if_false]
    exact buildFinish_mouse s
  · simp only [if_true]
    cases NT_SUCCESS (consumerBuild B s).status
    · rfl
    · simp only [Bool.not_true, Bool.false_eq_true, if_false]
      exact buildFinish_mouse _

theorem buildFromKeyboard_mouse (B : ClassBuilders) (s : BuildLocals) :
    (buildFromKeyboard B s).2.MouseDesc = s.pContext.MouseDesc := by
  unfold buildFromKeyboard
  cases enterKeys s
  · simp only [Bool.false_eq_true, if_false]
    exact buildFromConsumer_mouse B s
  · simp only [if_true]
    cases NT_SUCCESS (keyboardBuild B s).status
    · rfl
    · simp only [Bool.not_true, Bool.false_eq_true, if_false]
      exact buildFromConsumer_mouse B _

theorem buildFromTablet_mouse (B : ClassBuilders) (s : BuildLocals) :
    (buildFromTablet B s).2.MouseDesc = s.pContext.MouseDesc := by
  unfold buildFromTablet
  cases enterTablet s
  · simp only [Bool.false_eq_true, if_false]
    exact buildFromKeyboard_mouse B s
  · simp only [if_true]
    cases NT_SUCCESS (tabletBuild B s).status
    · rfl
    · simp only [Bool.not_true, Bool.false_eq_true, if_false]
      exact buildFromKeyboard_mouse B _

/-- The end of the function leaves every class's report ID alone. -/
theorem buildFinish_ids (s : BuildLocals) :
    reportIDs (buildFinish s).2 = reportIDs s.pContext := by
  unfold buildFinish
  cases DynamicArrayGet s.ReportDescriptor <;> rfl

theorem buildFromConsumer_ids (B : ClassBuilders) (s : BuildLocals) :
    reportIDs (buildFromConsumer B s).2 = reportIDs (stepConsumer B s).pContext := by
  unfold buildFromConsumer stepConsumer
  cases enterKeys s
  · simp only [Bool.false_eq_true, if_false]
    exact buildFinish_ids s
  · simp only [if_true]
    cases NT_SUCCESS (consumerBuild B s).status
    · rfl
    · simp only [Bool.not_true, Bool.false_eq_true, if_false]
      exact buildFinish_ids _

theorem buildFromKeyboard_ids (B : ClassBuilders) (s : BuildLocals)
    (hs : NT_SUCCESS s.status = true) :
    reportIDs (buildFromKeyboard B s).2 = reportIDs (stopFromKeyboard B s).pContext := by
  unfold buildFromKeyboard stopFromKeyboard stepKeyboard
  cases enterKeys s
  · simp only [Bool.false_eq_true, if_false, hs, if_true]
    exact buildFromConsumer_ids B s
  · simp only [if_true]
    cases h' : NT_SUCCESS (keyboardBuild B s).status
    · simp only [Bool.not_false, if_true, Bool.false_eq_true, if_false]
    · simp only [Bool.not_true, Bool.false_eq_true, if_false, if_true]
      exact buildFromConsumer_ids B _

theorem buildFromTablet_ids (B : ClassBuilders) (s : BuildLocals)
    (hs : NT_SUCCESS s.status = true) :
    reportIDs (buildFromTablet B s).2 = reportIDs (stopFromTablet B s).pContext := by
  unfold buildFromTablet stopFromTablet stepTablet
  cases enterTablet s
  · simp only [Bool.false_eq_true, if_false, hs, if_true]
    exact buildFromKeyboard_ids B s hs
  · simp only [if_true]
    cases h' : NT_SUCCESS (tabletBuild B s).status
    · simp only [Bool.not_false, if_true, Bool.false_eq_true, if_false]
    · simp only [Bool.not_true, Bool.false_eq_true, if_false, if_true]
      exact buildFromKeyboard_ids B _ h'

/-- Whatever the outcome of a call, the report IDs it leaves are those after
the last block that ran. -/
theorem build_ids (B : ClassBuilders) (pContext : INPUT_DEVICE) :
    reportIDs (VIOInputBuildReportDescriptor B pContext).2
      = reportIDs (stopState B pContext).pContext := by
  have h0 : NT_SUCCESS (buildInit pContext).status = true := by
    simp [buildInit, NT_SUCCESS, STATUS_SUCCESS]
  unfold VIOInputBuildReportDescriptor stopState atTablet
  dsimp only
  cases enterMouse (buildInit pContext)
  · simp only [Bool.false_eq_true, if_false, h0, if_true]
    exact buildFromTablet_ids B _ h0
  · simp only [if_true]
    cases h' : NT_SUCCESS (mouseBuild B (buildInit pContext)).status
    · simp only [Bool.not_false, if_true, Bool.false_eq_true, if_false]
    · simp only [Bool.not_true, Bool.false_eq_true, if_false, if_true]
      exact buildFromTablet_ids B _ h'

/-- The last block that ran, in terms of the blocks reached. -/
theorem stopState_eq (B : ClassBuilders) (pContext : INPUT_DEVICE) :
    stopState B pContext
      = if tabletReached B pContext then
          if keyboardReached B pContext then
            if consumerReached B pContext then atFinish B pContext else atConsumer B pContext
          else atKeyboard B pContext
        else atTablet B pContext := by
  unfold consumerReached keyboardReached tabletReached stopState stopFromTablet stopFromKeyboard
  have e1 : stepTablet B (atTablet B pContext) = atKeyboard B pContext := rfl
  have e2 : stepKeyboard B (atKeyboard B pContext) = atConsumer B pContext := rfl
  have e3 : stepConsumer B (atConsumer B pContext) = atFinish B pContext := rfl
  rw [e1, e2, e3]
  cases NT_SUCCESS (atTablet B pContext).status <;>
    cases NT_SUCCESS (atKeyboard B pContext).status <;>
    cases NT_SUCCESS (atConsumer B pContext).status <;>
    simp only [Bool.and_self, Bool.and_true, Bool.and_false, Bool.false_eq_true, if_true,
      if_false]

/-- The report IDs a call leaves, whatever its outcome: a class whose block
was reached and entered holds the number the counter gave it, every other
class holds the ID it had before the call. -/
theorem build_ids_any_outcome (B : ClassBuilders) (pContext : INPUT_DEVICE) :
    reportIDs (VIOInputBuildReportDescriptor B pContext).2
      = [if enterMouse (buildInit pContext) then 1 else pContext.MouseDesc.uReportID,
         if tabletReached B pContext && enterTablet (atTablet B pContext) then
           entered (enterMouse (buildInit pContext)) + 1
         else pContext.TabletDesc.uReportID,
         if keyboardReached B pContext && enterKeys (atKeyboard B pContext) then
           entered (enterMouse (buildInit pContext))
             + entered (enterTablet (atTablet B pContext)) + 1
         else pContext.KeyboardDesc.uReportID,
         if consumerReached B pContext && enterKeys (atConsumer B pContext) then
           entered (enterMouse (buildInit pContext))
             + entered (enterTablet (atTablet B pContext))
             + entered (enterKeys (atKeyboard B pContext)) + 1
         else pContext.ConsumerDesc.uReportID] := by
  have a1 := idsOf_atTablet B pContext
  have a2 := idsOf_atKeyboard B pContext
  have a3 := idsOf_atConsumer B pContext
  have a4 := idsOf_atFinish B pContext
  rw [idsOf_eq] at a1 a2 a3 a4
  simp only [Prod.mk.injEq] at a1 a2 a3 a4
  rw [build_ids, stopState_eq]
  unfold reportIDs
  cases ht : tabletReached B pContext
  · have hk : keyboardReached B pContext = false := by unfold keyboardReached; rw [ht]; rfl
    have hc : consumerReached B pContext = false := by unfold consumerReached; rw [hk]; rfl
    simp only [hk, hc, Bool.false_and, Bool.false_eq_true, if_false]
    rw [a1.2.1, a1.2.2.1, a1.2.2.2.1, a1.2.2.2.2]
  · cases hk : keyboardReached B pContext
    · have hc : consumerReached B pContext = false := by unfold consumerReached; rw [hk]; rfl
      simp only [hc, Bool.false_and, Bool.true_and, Bool.false_eq_true, if_false, if_true]
      rw [a2.2.1, a2.2.2.1, a2.2.2.2.1, a2.2.2.2.2]
    · cases hc : consumerReached B pContext
      · simp only [Bool.false_and, Bool.true_and, Bool.false_eq_true, if_false, if_true]
        rw [a3.2.1, a3.2.2.1, a3.2.2.2.1, a3.2.2.2.2]
      · simp only [Bool.true_and, if_true]
        rw [a4.2.1, a4.2.2.1, a4.2.2.2.1, a4.2.2.2.2]

/-- C9 fails as stated: report IDs are not rolled back.  When the array
cannot be allocated the call returns `STATUS_INSUFFICIENT_RESOURCES`, and the
mouse class, whose report ID was 0 before the call, is left with report ID 1. -/
theorem failed_build_keeps_report_id :
    (VIOInputBuildReportDescriptor (sampleBuilders none)
      (freshContext (sampleConfig [] [0x03] [] []))).1 = STATUS_INSUFFICIENT_RESOURCES ∧
    NT_SUCCESS (VIOInputBuildReportDescriptor (sampleBuilders none)
      (freshContext (sampleConfig [] [0x03] [] []))).1 = false ∧
    (freshContext (sampleConfig [] [0x03] [] [])).MouseDesc.uReportID = 0 ∧
    (VIOInputBuildReportDescriptor (sampleBuilders none)
      (freshContext (sampleConfig [] [0x03] [] []))).2.MouseDesc.uReportID = 1 := by
  decide

/-- C9 (amended): whenever the call returns a failure status, `HidDescriptor`
(with its `wReportLength`) is what it was before the call.  Report IDs are
not rolled back: every class whose block was reached and entered before the
failure holds the ID assigned to it (one more than the number of blocks
entered before it, so 1 for the mouse), and every other class holds the ID
it had before the call. -/
theorem failed_build_leaves_HidDescriptor (B : ClassBuilders) (pContext : INPUT_DEVICE)
    (hf : NT_SUCCESS (VIOInputBuildReportDescriptor B pContext).1 = false) :
    (VIOInputBuildReportDescriptor B pContext).2.HidDescriptor = pContext.HidDescriptor ∧
    (enterMouse (buildInit pContext) = true →
      (VIOInputBuildReportDescriptor B pContext).2.MouseDesc.uReportID = 1) ∧
    reportIDs (VIOInputBuildReportDescriptor B pContext).2
      = [if enterMouse (buildInit pContext) then 1 else pContext.MouseDesc.uReportID,
         if tabletReached B pContext && enterTablet (atTablet B pContext) then
           entered (enterMouse (buildInit pContext)) + 1
         else pContext.TabletDesc.uReportID,
         if keyboardReached B pContext && enterKeys (atKeyboard B pContext) then
           entered (enterMouse (buildInit pContext))
             + entered (enterTablet (atTablet B pContext)) + 1
         else pContext.KeyboardDesc.uReportID,
         if consumerReached B pContext && enterKeys (atConsumer B pContext) then
           entered (enterMouse (buildInit pContext))
             + entered (enterTablet (atTablet B pContext))
             + entered (enterKeys (atKeyboard B pContext)) + 1
         else pContext.ConsumerDesc.uReportID] := by
  have hids := build_ids_any_outcome B pContext
  have h0 : NT_SUCCESS (buildInit pContext).status = true := by
    simp [buildInit, NT_SUCCESS, STATUS_SUCCESS]
  refine ⟨?_, ?_, hids⟩
  · unfold VIOInputBuildReportDescriptor at hf ⊢
    dsimp only at hf ⊢
    cases hc : enterMouse (buildInit pContext)
    · rw [hc] at hf
      simp only [Bool.false_eq_true, if_false] at hf ⊢
      exact buildFromTablet_fail B _ h0 hf
    · rw [hc] at hf
      simp only [if_true] at hf ⊢
      cases h' : NT_SUCCESS (mouseBuild B (buildInit pContext)).status
      · simp only [h', Bool.not_false, if_true]
        rfl
      · rw [h'] at hf
        simp only [Bool.not_true, Bool.false_eq_true, if_false] at hf ⊢
        exact buildFromTablet_fail B _ h' hf
  · intro hm
    have h1 : (reportIDs (VIOInputBuildReportDescriptor B pContext).2).head?
        = some (VIOInputBuildReportDescriptor B pContext).2.MouseDesc.uReportID := rfl
    rw [hids, hm] at h1
    simp only [List.head?_cons, if_true, Option.some.injEq] at h1
    exact h1.symm

theorem failed_build_leaves_HidDescriptor_witness :
    (VIOInputBuildReportDescriptor sampleBuildersTabletFails
      (freshContext (sampleConfig [0x01] [] [0x03] []))).1 = STATUS_INSUFFICIENT_RESOURCES ∧
    NT_SUCCESS (VIOInputBuildReportDescriptor sampleBuildersTabletFails
      (freshContext (sampleConfig [0x01] [] [0x03] []))).1 = false ∧
    reportIDs (VIOInputBuildReportDescriptor sampleBuildersTabletFails
      (freshContext (sampleConfig [0x01] [] [0x03] []))).2 = [1, 2, 0, 0] ∧
    (VIOInputBuildReportDescriptor sampleBuildersTabletFails
      (freshContext (sampleConfig [0x01] [] [0x03] []))).2.HidDescriptor
      = (freshContext (sampleConfig [0x01] [] [0x03] [])).HidDescriptor :=
  ⟨by decide, by decide, by decide,
   (failed_build_leaves_HidDescriptor sampleBuildersTabletFails
     (freshContext (sampleConfig [0x01] [] [0x03] [])) (by decide)).1⟩

/-! ### The advertised descriptor length -/

/-- The sample device with relative axes only: the descriptor is what the
mouse builder emits. -/
theorem sample_rel_build (blob : List Nat) :
    NT_SUCCESS (VIOInputBuildReportDescriptor (sampleBuilders (some blob))
      (freshContext (sampleConfig [] [0x03] [] []))).1 = true ∧
    (VIOInputBuildReportDescriptor (sampleBuilders (some blob))
      (freshContext (sampleConfig [] [0x03] [] []))).2.HidReportDescriptor = some blob ∧
    (VIOInputBuildReportDescriptor (sampleBuilders (some blob))
      (freshContext (sampleConfig [] [0x03] [] []))).2.HidDescriptor.wReportLength
      = blob.length % 2 ^ 16 :=
  ⟨rfl, rfl, rfl⟩

/-- C10 fails as stated: `wReportLength` is a `USHORT`.  When the builders
assemble a descriptor of 65536 bytes the call succeeds and `wReportLength`
is 0, not 65536. -/
theorem wReportLength_wraps :
    NT_SUCCESS (VIOInputBuildReportDescriptor (sampleBuilders (some (List.replicate 65536 0)))
      (freshContext (sampleConfig [] [0x03] [] []))).1 = true ∧
    (VIOInputBuildReportDescriptor (sampleBuilders (some (List.replicate 65536 0)))
      (freshContext (sampleConfig [] [0x03] [] []))).2.HidReportDescriptor
      = some (List.replicate 65536 0) ∧
    (List.replicate 65536 0).length = 65536 ∧
    (VIOInputBuildReportDescriptor (sampleBuilders (some (List.replicate 65536 0)))
      (freshContext (sampleConfig [] [0x03] [] []))).2.HidDescriptor.wReportLength = 0 := by
  obtain ⟨h1, h2, h3⟩ := sample_rel_build (List.replicate 65536 0)
  refine ⟨h1, h2, List.length_replicate _ _, ?_⟩
  rw [h3, List.length_replicate]
  decide

/-- C10 (amended): after every successful call `wReportLength` is the length
of the assembled report descriptor reduced modulo `2 ^ 16`.  When the
descriptor is shorter than 65536 bytes it is the length itself, and
`IOCTL_HID_GET_REPORT_DESCRIPTOR` on a request whose output memory is large
enough returns exactly the assembled bytes. -/
theorem wReportLength_is_length_mod (B : ClassBuilders) (pContext : INPUT_DEVICE)
    (hs : NT_SUCCESS (VIOInputBuildReportDescriptor B pContext).1 = true) :
    ∃ blob, (atFinish B pContext).ReportDescriptor.Ptr = some blob ∧
      (VIOInputBuildReportDescriptor B pContext).2.HidReportDescriptor = some blob ∧
      (VIOInputBuildReportDescriptor B pContext).2.HidDescriptor.wReportLength
        = blob.length % 2 ^ 16 ∧
      (blob.length < 2 ^ 16 →
        (VIOInputBuildReportDescriptor B pContext).2.HidDescriptor.wReportLength
          = blob.length ∧
        ∀ Request : WDFREQUEST,
          NT_SUCCESS Request.RetrieveOutputMemory = true →
          NT_SUCCESS Request.MemoryCopyFromBuffer = true →
          blob.length ≤ Request.OutputMemory.length →
          (GetReportDescriptor (VIOInputBuildReportDescriptor B pContext).2 Request).1
            = Request.MemoryCopyFromBuffer ∧
          (GetReportDescriptor (VIOInputBuildReportDescriptor B pContext).2
            Request).2.Information = blob.length ∧
          (GetReportDescriptor (VIOInputBuildReportDescriptor B pContext).2
            Request).2.OutputMemory.take blob.length = blob) := by
  obtain ⟨p, hp, hr⟩ := build_success_result B pContext hs
  refine ⟨p, hp, by rw [hr], by rw [hr], ?_⟩
  intro hlt
  have hw : (VIOInputBuildReportDescriptor B pContext).2.HidDescriptor.wReportLength
      = p.length := by
    rw [hr]
    exact Nat.mod_eq_of_lt hlt
  have hd : (VIOInputBuildReportDescriptor B pContext).2.HidReportDescriptor = some p := by
    rw [hr]
  refine ⟨hw, ?_⟩
  intro Request h1 h2 h3
  unfold GetReportDescriptor RequestCopyFromBuffer
  rw [hw, hd]
  have h3' : ¬ Request.OutputMemory.length < p.length := by omega
  simp only [h1, h2, h3', Bool.not_true, Bool.false_eq_true, if_false, Option.getD_some]
  refine ⟨trivial, trivial, ?_⟩
  rw [List.take_append_of_le_length (by simp), List.take_take]
  simp

theorem wReportLength_is_length_mod_witness :
    NT_SUCCESS (VIOInputBuildReportDescriptor (sampleBuilders (some [0x05, 0x01, 0xC0]))
      (freshContext (sampleConfig [0x01] [0x03] [] []))).1 = true ∧
    (VIOInputBuildReportDescriptor (sampleBuilders (some [0x05, 0x01, 0xC0]))
      (freshContext (sampleConfig [0x01] [0x03] [] []))).2.HidDescriptor.wReportLength = 6 ∧
    ∃ blob, (atFinish (sampleBuilders (some [0x05, 0x01, 0xC0]))
        (freshContext (sampleConfig [0x01] [0x03] [] []))).ReportDescriptor.Ptr = some blob ∧
      (VIOInputBuildReportDescriptor (sampleBuilders (some [0x05, 0x01, 0xC0]))
        (freshContext (sampleConfig [0x01] [0x03] [] []))).2.HidDescriptor.wReportLength
        = blob.length % 2 ^ 16 :=
  ⟨by decide, by decide,
   (wReportLength_is_length_mod (sampleBuilders (some [0x05, 0x01, 0xC0]))
     (freshContext (sampleConfig [0x01] [0x03] [] [])) (by decide)).imp
     (fun _ h => ⟨h.1, h.2.2.1⟩)⟩

/-! ## Repeated `DecodeNextBit` on one byte -/

/-- The input value only shows in the result of a call that gives `FALSE`. -/
theorem DecodeNextBit_value (b v : Nat) :
    DecodeNextBit b v
      = if (DecodeNextBit b 0).1 then DecodeNextBit b 0 else (false, b, v) := by
  unfold DecodeNextBit
  cases BitScanForward b <;> simp

theorem DecodeNextBit_false (b v : Nat) (h : (DecodeNextBit b v).1 = false) :
    DecodeNextBit b v = (false, b, v) := by
  unfold DecodeNextBit at *
  cases hb : BitScanForward b with
  | none => rfl
  | some i => rw [hb] at h; simp at h

theorem drainByte_value (fuel b v : Nat) :
    drainByte fuel b v
      = ((drainByte fuel b 0).1, (drainByte fuel b 0).2.1,
         if (drainByte fuel b 0).1 = [] then v else (drainByte fuel b 0).2.2) := by
  cases fuel with
  | zero => simp [drainByte]
  | succ n =>
    unfold drainByte
    rw [DecodeNextBit_value b v]
    cases h : (DecodeNextBit b 0).1
    · simp [h, DecodeNextBit_false b 0 h]
    · simp [h]

set_option maxRecDepth 100000 in
/-- One call on a non-zero byte gives `TRUE` and the lowest set bit. -/
theorem DecodeNextBit_lowest : ∀ b < 256, b ≠ 0 →
    (DecodeNextBit b 0).1 = true ∧ (DecodeNextBit b 0).2.2 < 8 ∧
    b.testBit (DecodeNextBit b 0).2.2 = true ∧
    (∀ q < 8, q < (DecodeNextBit b 0).2.2 → b.testBit q = false) := by
  decide

set_option maxRecDepth 100000 in
/-- One call on a non-zero byte clears the returned bit and no other. -/
theorem DecodeNextBit_clears : ∀ b < 256, b ≠ 0 →
    (DecodeNextBit b 0).2.1 = b - 2 ^ (DecodeNextBit b 0).2.2 ∧
    (∀ q < 8, ((DecodeNextBit b 0).2.1).testBit q
      = (decide (q ≠ (DecodeNextBit b 0).2.2) && b.testBit q)) := by
  decide

set_option maxRecDepth 100000 in
/-- The repeated calls on a byte, started with output value 0. -/
theorem drainByte_count : ∀ b < 256,
    (drainByte 9 b 0).1.length = popcount b ∧
    (drainByte 9 b 0).2.2 = ((drainByte 9 b 0).1.getLast?).getD 0 := by
  decide

/-- C20: for every byte `b` and output value `v`, a call of `DecodeNextBit` on
0 gives `FALSE` and changes nothing; a call on a non-zero byte gives `TRUE`
with the position (below 8) of the lowest set bit and clears that bit only.
Calling it repeatedly on the same byte gives `TRUE` exactly `popcount b`
times, with the positions of the set bits in strictly increasing order, and
then gives `FALSE` with the byte equal to 0 and the output value as the last
call left it. -/
theorem DecodeNextBit_repeated (b v : Nat) (hb : b < 256) :
    (b = 0 → DecodeNextBit b v = (false, b, v)) ∧
    (b ≠ 0 → ∃ p, p < 8 ∧ DecodeNextBit b v = (true, b - 2 ^ p, p) ∧
      b.testBit p = true ∧ (∀ q < p, b.testBit q = false) ∧
      (∀ q < 8, (b - 2 ^ p).testBit q = (decide (q ≠ p) && b.testBit q))) ∧
    (drainByte 9 b v).1 = (List.range 8).filter (fun k => b.testBit k) ∧
    (drainByte 9 b v).1.length = popcount b ∧
    (drainByte 9 b v).1.Pairwise (· < ·) ∧
    (drainByte 9 b v).2.1 = 0 ∧
    (drainByte 9 b v).2.2 = ((drainByte 9 b v).1.getLast?).getD v := by
  have hd := drainByte_value 9 b v
  obtain ⟨hl, hz⟩ := drainByte_spec b hb
  obtain ⟨hc, hlast⟩ := drainByte_count b hb
  have h1 : (drainByte 9 b v).1 = (drainByte 9 b 0).1 := by rw [hd]
  have h2 : (drainByte 9 b v).2.1 = (drainByte 9 b 0).2.1 := by rw [hd]
  refine ⟨?_, ?_, by rw [h1, hl], by rw [h1, hc], ?_, by rw [h2, hz], ?_⟩
  · intro h0
    subst h0
    rw [DecodeNextBit_value]
    rfl
  · intro hne
    obtain ⟨t1, t2, t3, t4⟩ := DecodeNextBit_lowest b hb hne
    obtain ⟨c1, c2⟩ := DecodeNextBit_clears b hb hne
    refine ⟨(DecodeNextBit b 0).2.2, t2, ?_, t3, fun q hq => t4 q (by omega) hq, ?_⟩
    · rw [DecodeNextBit_value, t1, if_pos rfl, ← c1]
      exact Prod.ext t1 rfl
    · rw [← c1]
      exact c2
  · rw [h1, hl]
    exact (List.pairwise_lt_range 8).filter _
  · rw [hd]
    simp only
    by_cases he : (drainByte 9 b 0).1 = []
    · simp [he]
    · rw [if_neg he, hlast]
      cases hg : (drainByte 9 b 0).1.getLast? with
      | none => exact absurd (List.getLast?_eq_none_iff.mp hg) he
      | some x => rfl

theorem DecodeNextBit_repeated_witness :
    (0x24 : Nat) < 256 ∧ popcount 0x24 = 2 ∧ drainByte 9 0x24 7 = ([2, 5], 0, 5) ∧
    (drainByte 9 0x24 7).1.length = popcount 0x24 :=
  ⟨by decide, by decide, by decide, (DecodeNextBit_repeated 0x24 7 (by decide)).2.2.2.1⟩

/-! ## The tag byte of `HIDAppend2` -/

set_option maxRecDepth 100000 in
/-- Or-ing a width code into a byte keeps its upper six bits. -/
theorem or_code_byte : ∀ tag < 256, ∀ c < 4,
    (tag ||| c) < 256 ∧ (tag ||| c) / 4 = tag / 4 ∧ (tag ||| c) % 4 = (tag % 4 ||| c) := by
  decide

theorem widthCode_specWidth (v : Int) :
    (specWidth v = 1 ∧ widthCode (specWidth v) = 1) ∨
    (specWidth v = 2 ∧ widthCode (specWidth v) = 2) ∨
    (specWidth v = 4 ∧ widthCode (specWidth v) = 3) := by
  rcases specWidth_cases v with h | h | h <;> simp [h, widthCode]

/-- C17 fails as stated: the width code is or-ed into the tag, the low two
bits of the tag are not cleared.  For the tag byte `0x02` and the value 0 the
first byte appended is `0x03`, whose low two bits are the code of a 4-byte
payload, and one payload byte follows. -/
theorem HIDAppend2_keeps_tag_low_bits :
    (HIDAppend2 { Ptr := none } 0x02 0).data = [0x03, 0x00] ∧
    (payloadOf { Ptr := none } 0x02 0).length = 1 ∧
    (HIDAppend2 { Ptr := none } 0x02 0).data.getD 0 0 % 4 = widthCode 4 ∧
    (HIDAppend2 { Ptr := none } 0x02 0).data.getD 0 0 % 4 ≠ widthCode 1 := by
  decide

/-- C17 (amended): for every tag byte and every value, the first byte
`HIDAppend2` appends is the tag byte or-ed with the width code of the chosen
payload width (01 for 1 byte, 10 for 2 bytes, 11 for 4 bytes): its upper six
bits are those of the tag and its low two bits are those of the tag or-ed
with the code.  For a tag whose low two bits are zero the low two bits are
the width code, so the number of payload bytes matches it. -/
theorem HIDAppend2_tag_byte (a : DYNAMIC_ARRAY) (tag : Nat) (v : Int) (ht : tag < 256) :
    (HIDAppend2 a tag v).data.getD a.Size 0 = (tag ||| widthCode (specWidth v)) ∧
    (HIDAppend2 a tag v).data.getD a.Size 0 / 4 = tag / 4 ∧
    (HIDAppend2 a tag v).data.getD a.Size 0 % 4 = (tag % 4 ||| widthCode (specWidth v)) ∧
    (payloadOf a tag v).length = specWidth v ∧
    ((specWidth v = 1 ∧ widthCode (specWidth v) = 1) ∨
     (specWidth v = 2 ∧ widthCode (specWidth v) = 2) ∨
     (specWidth v = 4 ∧ widthCode (specWidth v) = 3)) ∧
    (tag % 4 = 0 →
      (HIDAppend2 a tag v).data.getD a.Size 0 % 4 = widthCode (payloadOf a tag v).length) := by
  have hc : widthCode (specWidth v) < 4 := by
    rcases widthCode_specWidth v with h | h | h <;> omega
  obtain ⟨o1, o2, o3⟩ := or_code_byte tag ht _ hc
  have hfirst : (HIDAppend2 a tag v).data.getD a.Size 0 = (tag ||| widthCode (specWidth v)) := by
    rw [HIDAppend2_data]
    unfold DYNAMIC_ARRAY.Size
    rw [List.getD_append_right _ _ _ _ (Nat.le_refl _), Nat.sub_self, List.getD_cons_zero]
    exact Nat.mod_eq_of_lt o1
  have hlen : (payloadOf a tag v).length = specWidth v := by
    rw [payloadOf_eq]
    rcases specWidth_cases v with h | h | h <;> simp [h, LONG_bytes_length]
  refine ⟨hfirst, ?_, ?_, hlen, widthCode_specWidth v, ?_⟩
  · rw [hfirst, o2]
  · rw [hfirst, o3]
  · intro h0
    rw [hfirst, o3, h0, hlen, Nat.zero_or]

theorem HIDAppend2_tag_byte_witness :
    (0x74 : Nat) < 256 ∧ (HIDAppend2 { Ptr := some [0xC0] } 0x74 (-300)).data
      = [0xC0, 0x76, 0xD4, 0xFE] ∧
    (HIDAppend2 { Ptr := some [0xC0] } 0x74 (-300)).data.getD
      (DYNAMIC_ARRAY.Size { Ptr := some [0xC0] }) 0 / 4 = 0x74 / 4 :=
  ⟨by decide, by decide,
   (HIDAppend2_tag_byte { Ptr := some [0xC0] } 0x74 (-300) (by decide)).2.1⟩

/-! ## Report delivery -/

/-- The flush of a class that is not dirty does nothing. -/
theorem CompleteHIDQueueRequest_clean (io : Framework) (c : INPUT_CLASS_COMMON)
    (h : c.bDirty = false) : CompleteHIDQueueRequest io c = (io, c) := by
  unfold CompleteHIDQueueRequest
  simp [h]

/-- The flush of a dirty class with no reader waiting does nothing. -/
theorem CompleteHIDQueueRequest_no_reader (io : Framework) (c : INPUT_CLASS_COMMON)
    (hq : io.HidQueue = []) : CompleteHIDQueueRequest io c = (io, c) := by
  unfold CompleteHIDQueueRequest WdfIoQueueRetrieveNextRequest
  cases c.bDirty <;> simp [hq]

/-- The flush of a dirty class with a reader waiting: the reader is taken
from the queue and completed with the status of the copy, and the class is
clean afterwards exactly when the copy succeeded. -/
theorem CompleteHIDQueueRequest_reader (io : Framework) (c : INPUT_CLASS_COMMON)
    (r : WDFREQUEST) (rest : List WDFREQUEST)
    (h : c.bDirty = true) (hq : io.HidQueue = r :: rest) :
    CompleteHIDQueueRequest io c
      = ({ HidQueue := rest,
           Completed := io.Completed ++
             [((RequestCopyFromBuffer r c.pHidReport c.cbHidReportSize).2,
               (RequestCopyFromBuffer r c.pHidReport c.cbHidReportSize).1)] },
         if NT_SUCCESS (RequestCopyFromBuffer r c.pHidReport c.cbHidReportSize).1
         then { c with bDirty := false } else c) := by
  unfold CompleteHIDQueueRequest WdfIoQueueRetrieveNextRequest WdfRequestComplete
  simp only [h, hq, Bool.not_true, Bool.false_eq_true, if_false]
  have hs : NT_SUCCESS STATUS_SUCCESS = true := by decide
  simp only [hs]
  split <;> rfl

/-- A copy into a reader that fits succeeds and delivers the bytes. -/
theorem RequestCopyFromBuffer_fits (r : WDFREQUEST) (c : INPUT_CLASS_COMMON)
    (h1 : NT_SUCCESS r.RetrieveOutputMemory = true)
    (h2 : NT_SUCCESS r.MemoryCopyFromBuffer = true)
    (h3 : c.cbHidReportSize ≤ r.OutputMemory.length) :
    RequestCopyFromBuffer r c.pHidReport c.cbHidReportSize
      = ((delivered c r).2, (delivered c r).1) := by
  unfold RequestCopyFromBuffer delivered
  have h3' : ¬ r.OutputMemory.length < c.cbHidReportSize := by omega
  simp [h1, h2, h3']

/-- A copy into a reader whose buffer is too small fails. -/
theorem RequestCopyFromBuffer_small (r : WDFREQUEST) (src : List Nat) (n : Nat)
    (h : r.OutputMemory.length < n) :
    NT_SUCCESS (RequestCopyFromBuffer r src n).1 = false := by
  unfold RequestCopyFromBuffer
  cases h1 : NT_SUCCESS r.RetrieveOutputMemory
  · simp [h1]
  · simp only [h1, h, Bool.not_true, Bool.false_eq_true, if_false, if_true]
    decide

/-- C18: `CompleteHIDQueueRequest` changes nothing of the class but `bDirty`.
It changes `bDirty` from `TRUE` to `FALSE` iff the class was dirty, a waiting
reader was dequeued and the copy of the report into its buffer succeeded; in
every other case (not dirty, no reader, or a failed copy, as when the
reader's buffer is smaller than `cbHidReportSize`) the class, report buffer
and `bDirty` included, is unchanged; and a class that was not dirty is not
dirty afterwards. -/
theorem CompleteHIDQueueRequest_dirty_flag (io : Framework) (c : INPUT_CLASS_COMMON) :
    (CompleteHIDQueueRequest io c).2
      = { c with bDirty := (CompleteHIDQueueRequest io c).2.bDirty } ∧
    ((c.bDirty = true ∧ (CompleteHIDQueueRequest io c).2.bDirty = false) ↔
      (c.bDirty = true ∧ ∃ r rest, io.HidQueue = r :: rest ∧
        NT_SUCCESS (RequestCopyFromBuffer r c.pHidReport c.cbHidReportSize).1 = true)) ∧
    (¬ (c.bDirty = true ∧ ∃ r rest, io.HidQueue = r :: rest ∧
        NT_SUCCESS (RequestCopyFromBuffer r c.pHidReport c.cbHidReportSize).1 = true) →
      (CompleteHIDQueueRequest io c).2 = c) ∧
    (∀ r rest, io.HidQueue = r :: rest → r.OutputMemory.length < c.cbHidReportSize →
      (CompleteHIDQueueRequest io c).2 = c) ∧
    (c.bDirty = false → (CompleteHIDQueueRequest io c).2.bDirty = false) := by
  obtain ⟨id, sz, rep, d⟩ := c
  cases d
  · rw [CompleteHIDQueueRequest_clean io _ rfl]
    simp
  · cases hq : io.HidQueue with
    | nil =>
      rw [CompleteHIDQueueRequest_no_reader io _ hq]
      simp
    | cons r rest =>
      rw [CompleteHIDQueueRequest_reader io _ r rest rfl hq]
      cases hs : NT_SUCCESS (RequestCopyFromBuffer r rep sz).1
      · simp [hs]
      · rw [if_pos rfl]
        refine ⟨rfl, ⟨fun _ => ⟨rfl, r, rest, rfl, hs⟩, fun _ => ⟨rfl, rfl⟩⟩,
          fun h => absurd ⟨rfl, r, rest, rfl, hs⟩ h, ?_, fun _ => rfl⟩
        intro r' rest' he hlt
        have e := (List.cons.inj he).1
        subst e
        have := RequestCopyFromBuffer_small r rep sz hlt
        rw [hs] at this
        exact absurd this (by decide)

theorem CompleteHIDQueueRequest_dirty_flag_witness :
    (CompleteHIDQueueRequest { HidQueue := [sampleReader 4], Completed := [] }
        (sampleClass 1 [1, 0, 5, 0xFD] true)).2 = sampleClass 1 [1, 0, 5, 0xFD] false ∧
    (CompleteHIDQueueRequest { HidQueue := [], Completed := [] }
        (sampleClass 1 [1, 0, 5, 0xFD] true)).2 = sampleClass 1 [1, 0, 5, 0xFD] true ∧
    (CompleteHIDQueueRequest { HidQueue := [sampleReader 2], Completed := [] }
        (sampleClass 1 [1, 0, 5, 0xFD] true))
      = ({ HidQueue := [], Completed := [(sampleReader 2, STATUS_INVALID_BUFFER_SIZE)] },
         sampleClass 1 [1, 0, 5, 0xFD] true) ∧
    (CompleteHIDQueueRequest { HidQueue := [sampleReader 2], Completed := [] }
        (sampleClass 1 [1, 0, 5, 0xFD] true)).2 = sampleClass 1 [1, 0, 5, 0xFD] true :=
  ⟨by decide, by decide, by decide,
   (CompleteHIDQueueRequest_dirty_flag { HidQueue := [sampleReader 2], Completed := [] }
     (sampleClass 1 [1, 0, 5, 0xFD] true)).2.2.2.1 (sampleReader 2) [] rfl (by decide)⟩

/-- A flush leaves the class as it was or clears its dirty flag. -/
theorem CompleteHIDQueueRequest_class (io : Framework) (c : INPUT_CLASS_COMMON) :
    (CompleteHIDQueueRequest io c).2 = c ∨
    (CompleteHIDQueueRequest io c).2 = { c with bDirty := false } := by
  cases hd : c.bDirty
  · rw [CompleteHIDQueueRequest_clean io c hd]; exact Or.inl rfl
  · cases hq : io.HidQueue with
    | nil => rw [CompleteHIDQueueRequest_no_reader io c hq]; exact Or.inl rfl
    | cons r rest =>
      rw [CompleteHIDQueueRequest_reader io c r rest hd hq]
      simp only
      split
      · exact Or.inr rfl
      · exact Or.inl rfl

theorem CompleteHIDQueueRequest_size (io : Framework) (c : INPUT_CLASS_COMMON) :
    (CompleteHIDQueueRequest io c).2.cbHidReportSize = c.cbHidReportSize := by
  rcases CompleteHIDQueueRequest_class io c with h | h <;> rw [h]

theorem ReaderFits.tail {c : INPUT_CLASS_COMMON} {cs : List INPUT_CLASS_COMMON}
    {r : WDFREQUEST} (h : ReaderFits (c :: cs) r) : ReaderFits cs r :=
  ⟨h.1, h.2.1, fun c' hc' => h.2.2 c' (List.mem_cons_of_mem _ hc')⟩

/-- Flushing a list of classes with readers that fit: the dirty classes, in
order, each take the next reader while there is one. -/
theorem flushList_spec (cs : List INPUT_CLASS_COMMON) :
    ∀ io : Framework, (∀ r ∈ io.HidQueue, ReaderFits cs r) →
      (flushList io cs).HidQueue = io.HidQueue.drop (cs.filter (fun c => c.bDirty)).length ∧
      (flushList io cs).Completed
        = io.Completed ++ List.zipWith delivered (cs.filter (fun c => c.bDirty)) io.HidQueue := by
  induction cs with
  | nil => intro io _; simp [flushList]
  | cons c cs ih =>
    intro io hfit
    have hfit' : ∀ r ∈ io.HidQueue, ReaderFits cs r := fun r hr => (hfit r hr).tail
    unfold flushList
    cases hd : c.bDirty
    · rw [CompleteHIDQueueRequest_clean io c hd]
      simp only [List.filter_cons, hd, Bool.false_eq_true, if_false]
      exact ih io hfit'
    · simp only [List.filter_cons, hd, if_true, List.length_cons]
      cases hq : io.HidQueue with
      | nil =>
        rw [CompleteHIDQueueRequest_no_reader io c hq]
        have h := ih io hfit'
        rw [hq] at h
        simpa using h
      | cons r rest =>
        have hr : ReaderFits (c :: cs) r := hfit r (by rw [hq]; exact List.mem_cons_self _ _)
        rw [CompleteHIDQueueRequest_reader io c r rest hd hq,
          RequestCopyFromBuffer_fits r c hr.1 hr.2.1 (hr.2.2 c (List.mem_cons_self _ _))]
        have h := ih { HidQueue := rest, Completed := io.Completed ++ [delivered c r] }
          (fun r' hr' => hfit' r' (by rw [hq]; exact List.mem_cons_of_mem _ hr'))
        simp only [List.drop_succ_cons, List.zipWith_cons_cons]
        rw [h.1, h.2]
        simp

theorem sendReportsUp_io (pContext : INPUT_DEVICE) (io : Framework) :
    (sendReportsUp pContext io).2 = flushList io (flushOrder pContext) := rfl

/-- C11: on an `EV_SYN` event, with readers waiting that can each take a
report, `ProcessInputEvent` completes one reader for each of the classes
that are dirty on entry, taken in the order mouse, keyboard, consumer,
tablet, as long as readers are left: the first `min k d` dirty classes (of
`d`, with `k` readers) each get the `cbHidReportSize` bytes of their report
buffer delivered to the next reader, the other readers stay queued, and no
reader is taken for a class that is not dirty. -/
theorem syn_flush_delivers (M : EventMappers) (pContext : INPUT_DEVICE) (io : Framework)
    (pEvent : VIRTIO_INPUT_EVENT) (hsyn : pEvent.type = EV_SYN)
    (hfit : ∀ r ∈ io.HidQueue, ReaderFits (flushOrder pContext) r) :
    (ProcessInputEvent M pContext io pEvent).io.Completed
      = io.Completed ++ List.zipWith delivered
          ((flushOrder pContext).filter (fun c => c.bDirty)) io.HidQueue ∧
    (List.zipWith delivered
        ((flushOrder pContext).filter (fun c => c.bDirty)) io.HidQueue).length
      = min io.HidQueue.length ((flushOrder pContext).filter (fun c => c.bDirty)).length ∧
    (ProcessInputEvent M pContext io pEvent).io.HidQueue
      = io.HidQueue.drop
          (min io.HidQueue.length ((flushOrder pContext).filter (fun c => c.bDirty)).length) := by
  have hio : (ProcessInputEvent M pContext io pEvent).io
      = flushList io (flushOrder pContext) := by
    unfold ProcessInputEvent
    simp only [hsyn, if_true]
    exact sendReportsUp_io pContext io
  obtain ⟨h1, h2⟩ := flushList_spec (flushOrder pContext) io hfit
  rw [hio]
  refine ⟨h2, ?_, ?_⟩
  · rw [List.length_zipWith, Nat.min_comm]
  · rw [h1]
    rcases Nat.le_total io.HidQueue.length
      ((flushOrder pContext).filter (fun c => c.bDirty)).length with h | h
    · rw [Nat.min_eq_left h, List.drop_of_length_le h, List.drop_of_length_le (Nat.le_refl _)]
    · rw [Nat.min_eq_right h]

theorem syn_flush_delivers_witness :
    (∀ r ∈ [sampleReader 8], ReaderFits (flushOrder (sampleDevice true true)) r) ∧
    (ProcessInputEvent sampleMappers (sampleDevice true true)
        { HidQueue := [sampleReader 8], Completed := [] } ⟨EV_SYN, 0, 0⟩).io
      = { HidQueue := [],
          Completed := [({ sampleReader 8 with
                            OutputMemory := [1, 0, 5, 0xFD, 0, 0, 0, 0], Information := 4 },
                         STATUS_SUCCESS)] } ∧
    (ProcessInputEvent sampleMappers (sampleDevice true true)
        { HidQueue := [sampleReader 8], Completed := [] } ⟨EV_SYN, 0, 0⟩).io.HidQueue
      = List.drop (min [sampleReader 8].length
          ((flushOrder (sampleDevice true true)).filter (fun c => c.bDirty)).length)
          [sampleReader 8] :=
  ⟨by decide, by decide,
   (syn_flush_delivers sampleMappers (sampleDevice true true)
     { HidQueue := [sampleReader 8], Completed := [] } ⟨EV_SYN, 0, 0⟩ rfl (by decide)).2.2⟩

/-! ## Event routing -/

/-- The guarded mapper calls: one call for each class whose report size is
not zero, and each class descriptor is what its mapper returned, or
untouched when the mapper was not called. -/
theorem callMappers_spec (M : EventMappers) (pContext : INPUT_DEVICE)
    (pEvent : VIRTIO_INPUT_EVENT) :
    (callMappers M pContext pEvent).2 = expectedCalls pContext pEvent ∧
    (callMappers M pContext pEvent).1.MouseDesc
      = (if 0 < pContext.MouseDesc.cbHidReportSize
         then M.HIDMouseEventToReport pContext.MouseDesc pEvent else pContext.MouseDesc) ∧
    (callMappers M pContext pEvent).1.KeyboardDesc
      = (if 0 < pContext.KeyboardDesc.cbHidReportSize
         then M.HIDKeyboardEventToReport pContext.KeyboardDesc pEvent
         else pContext.KeyboardDesc) ∧
    (callMappers M pContext pEvent).1.ConsumerDesc
      = (if 0 < pContext.ConsumerDesc.cbHidReportSize
         then M.HIDConsumerEventToReport pContext.ConsumerDesc pEvent
         else pContext.ConsumerDesc) ∧
    (callMappers M pContext pEvent).1.TabletDesc
      = (if 0 < pContext.TabletDesc.cbHidReportSize
         then M.HIDTabletEventToReport pContext.TabletDesc pEvent
         else pContext.TabletDesc) := by
  unfold callMappers expectedCalls
  by_cases h1 : 0 < pContext.MouseDesc.cbHidReportSize <;>
  by_cases h2 : 0 < pContext.KeyboardDesc.cbHidReportSize <;>
  by_cases h3 : 0 < pContext.ConsumerDesc.cbHidReportSize <;>
  by_cases h4 : 0 < pContext.TabletDesc.cbHidReportSize <;>
  simp [h1, h2, h3, h4]

/-- Sending the reports up does not change any report size. -/
theorem sendReportsUp_sizes (pContext : INPUT_DEVICE) (io : Framework) :
    (sendReportsUp pContext io).1.MouseDesc.cbHidReportSize
      = pContext.MouseDesc.cbHidReportSize ∧
    (sendReportsUp pContext io).1.KeyboardDesc.cbHidReportSize
      = pContext.KeyboardDesc.cbHidReportSize ∧
    (sendReportsUp pContext io).1.ConsumerDesc.cbHidReportSize
      = pContext.ConsumerDesc.cbHidReportSize ∧
    (sendReportsUp pContext io).1.TabletDesc.cbHidReportSize
      = pContext.TabletDesc.cbHidReportSize := by
  unfold sendReportsUp
  exact ⟨CompleteHIDQueueRequest_size _ _, CompleteHIDQueueRequest_size _ _,
    CompleteHIDQueueRequest_size _ _, CompleteHIDQueueRequest_size _ _⟩

/-- C12 fails as stated: after the flushes of an `EV_SYN` event the guarded
mapper calls follow as for every other event.  On a device with a mouse and
a keyboard an `EV_SYN` event is passed to both mappers. -/
theorem syn_event_reaches_mappers :
    (ProcessInputEvent sampleMappers (sampleDevice true false)
        { HidQueue := [sampleReader 8], Completed := [] } ⟨EV_SYN, 0, 0⟩).mapperCalls
      = [(DeviceClass.Mouse, ⟨EV_SYN, 0, 0⟩), (DeviceClass.Keyboard, ⟨EV_SYN, 0, 0⟩)] := by
  decide

/-- C12 (amended): on an `EV_SYN` event `ProcessInputEvent` first attempts the
four flushes and then, as for every other event, invokes the event-to-report
mapper of each class whose `cbHidReportSize` is not zero exactly once, with
the `EV_SYN` event and the class as the flush left it; only the mappers of
classes with `cbHidReportSize` zero are not reached. -/
theorem syn_event_mapper_calls (M : EventMappers) (pContext : INPUT_DEVICE) (io : Framework)
    (pEvent : VIRTIO_INPUT_EVENT) (hsyn : pEvent.type = EV_SYN) :
    (ProcessInputEvent M pContext io pEvent).mapperCalls = expectedCalls pContext pEvent ∧
    (ProcessInputEvent M pContext io pEvent).io = (sendReportsUp pContext io).2 ∧
    (ProcessInputEvent M pContext io pEvent).pContext.MouseDesc
      = (if 0 < pContext.MouseDesc.cbHidReportSize
         then M.HIDMouseEventToReport (sendReportsUp pContext io).1.MouseDesc pEvent
         else (sendReportsUp pContext io).1.MouseDesc) ∧
    (ProcessInputEvent M pContext io pEvent).pContext.KeyboardDesc
      = (if 0 < pContext.KeyboardDesc.cbHidReportSize
         then M.HIDKeyboardEventToReport (sendReportsUp pContext io).1.KeyboardDesc pEvent
         else (sendReportsUp pContext io).1.KeyboardDesc) ∧
    (ProcessInputEvent M pContext io pEvent).pContext.ConsumerDesc
      = (if 0 < pContext.ConsumerDesc.cbHidReportSize
         then M.HIDConsumerEventToReport (sendReportsUp pContext io).1.ConsumerDesc pEvent
         else (sendReportsUp pContext io).1.ConsumerDesc) ∧
    (ProcessInputEvent M pContext io pEvent).pContext.TabletDesc
      = (if 0 < pContext.TabletDesc.cbHidReportSize
         then M.HIDTabletEventToReport (sendReportsUp pContext io).1.TabletDesc pEvent
         else (sendReportsUp pContext io).1.TabletDesc) := by
  obtain ⟨s1, s2, s3, s4⟩ := sendReportsUp_sizes pContext io
  obtain ⟨c0, c1, c2, c3, c4⟩ := callMappers_spec M (sendReportsUp pContext io).1 pEvent
  have hp : ProcessInputEvent M pContext io pEvent
      = { pContext := (callMappers M (sendReportsUp pContext io).1 pEvent).1,
          io := (sendReportsUp pContext io).2,
          mapperCalls := (callMappers M (sendReportsUp pContext io).1 pEvent).2 } := by
    unfold ProcessInputEvent
    simp only [hsyn, if_true]
  rw [hp]
  simp only
  rw [s1] at c1
  rw [s2] at c2
  rw [s3] at c3
  rw [s4] at c4
  refine ⟨?_, trivial, c1, c2, c3, c4⟩
  rw [c0]
  unfold expectedCalls
  rw [s1, s2, s3, s4]

theorem syn_event_mapper_calls_witness :
    (⟨EV_SYN, 0, 0⟩ : VIRTIO_INPUT_EVENT).type = EV_SYN ∧
    (ProcessInputEvent sampleMappers (sampleDevice true true)
        { HidQueue := [], Completed := [] } ⟨EV_SYN, 0, 0⟩).mapperCalls
      = expectedCalls (sampleDevice true true) ⟨EV_SYN, 0, 0⟩ ∧
    expectedCalls (sampleDevice true true) ⟨EV_SYN, 0, 0⟩
      = [(DeviceClass.Mouse, ⟨EV_SYN, 0, 0⟩), (DeviceClass.Keyboard, ⟨EV_SYN, 0, 0⟩)] :=
  ⟨rfl,
   (syn_event_mapper_calls sampleMappers (sampleDevice true true)
     { HidQueue := [], Completed := [] } ⟨EV_SYN, 0, 0⟩ rfl).1,
   by decide⟩

/-- C13: for every event whose type is not `EV_SYN`, `ProcessInputEvent`
leaves the pending-read queue and the completed requests as they are, and
invokes the mapper of a class exactly once, with the event, if the class's
`cbHidReportSize` is not zero and never if it is zero; a class with
`cbHidReportSize` zero is unchanged. -/
theorem non_syn_event_routing (M : EventMappers) (pContext : INPUT_DEVICE) (io : Framework)
    (pEvent : VIRTIO_INPUT_EVENT) (hne : pEvent.type ≠ EV_SYN) :
    (ProcessInputEvent M pContext io pEvent).io = io ∧
    (ProcessInputEvent M pContext io pEvent).mapperCalls = expectedCalls pContext pEvent ∧
    (ProcessInputEvent M pContext io pEvent).pContext.MouseDesc
      = (if 0 < pContext.MouseDesc.cbHidReportSize
         then M.HIDMouseEventToReport pContext.MouseDesc pEvent else pContext.MouseDesc) ∧
    (ProcessInputEvent M pContext io pEvent).pContext.KeyboardDesc
      = (if 0 < pContext.KeyboardDesc.cbHidReportSize
         then M.HIDKeyboardEventToReport pContext.KeyboardDesc pEvent
         else pContext.KeyboardDesc) ∧
    (ProcessInputEvent M pContext io pEvent).pContext.ConsumerDesc
      = (if 0 < pContext.ConsumerDesc.cbHidReportSize
         then M.HIDConsumerEventToReport pContext.ConsumerDesc pEvent
         else pContext.ConsumerDesc) ∧
    (ProcessInputEvent M pContext io pEvent).pContext.TabletDesc
      = (if 0 < pContext.TabletDesc.cbHidReportSize
         then M.HIDTabletEventToReport pContext.TabletDesc pEvent
         else pContext.TabletDesc) ∧
    (pContext.MouseDesc.cbHidReportSize = 0 →
      (ProcessInputEvent M pContext io pEvent).pContext.MouseDesc = pContext.MouseDesc) ∧
    (pContext.KeyboardDesc.cbHidReportSize = 0 →
      (ProcessInputEvent M pContext io pEvent).pContext.KeyboardDesc
        = pContext.KeyboardDesc) ∧
    (pContext.ConsumerDesc.cbHidReportSize = 0 →
      (ProcessInputEvent M pContext io pEvent).pContext.ConsumerDesc
        = pContext.ConsumerDesc) ∧
    (pContext.TabletDesc.cbHidReportSize = 0 →
      (ProcessInputEvent M pContext io pEvent).pContext.TabletDesc = pContext.TabletDesc) := by
  obtain ⟨c0, c1, c2, c3, c4⟩ := callMappers_spec M pContext pEvent
  have hp : ProcessInputEvent M pContext io pEvent
      = { pContext := (callMappers M pContext pEvent).1, io := io,
          mapperCalls := (callMappers M pContext pEvent).2 } := by
    unfold ProcessInputEvent
    simp only [hne, if_false]
  rw [hp]
  simp only
  refine ⟨trivial, c0, c1, c2, c3, c4, ?_, ?_, ?_, ?_⟩
  · intro h; rw [c1, h]; rfl
  · intro h; rw [c2, h]; rfl
  · intro h; rw [c3, h]; rfl
  · intro h; rw [c4, h]; rfl

theorem non_syn_event_routing_witness :
    (⟨EV_REL, 0, 5⟩ : VIRTIO_INPUT_EVENT).type ≠ EV_SYN ∧
    (ProcessInputEvent sampleMappers (sampleDevice false false)
        { HidQueue := [sampleReader 8], Completed := [] } ⟨EV_REL, 0, 5⟩).io
      = { HidQueue := [sampleReader 8], Completed := [] } ∧
    (ProcessInputEvent sampleMappers (sampleDevice false false)
        { HidQueue := [sampleReader 8], Completed := [] } ⟨EV_REL, 0, 5⟩).mapperCalls
      = [(DeviceClass.Mouse, ⟨EV_REL, 0, 5⟩), (DeviceClass.Keyboard, ⟨EV_REL, 0, 5⟩)] ∧
    (ProcessInputEvent sampleMappers (sampleDevice false false)
        { HidQueue := [sampleReader 8], Completed := [] } ⟨EV_REL, 0, 5⟩).pContext.TabletDesc
      = (sampleDevice false false).TabletDesc :=
  ⟨by decide, by decide, by decide,
   (non_syn_event_routing sampleMappers (sampleDevice false false)
     { HidQueue := [sampleReader 8], Completed := [] } ⟨EV_REL, 0, 5⟩
     (by decide)).2.2.2.2.2.2.2.2.2 rfl⟩

/-! ## Output reports -/

/-- C14: for every output packet, `ProcessOutputReport` invokes
`HIDKeyboardReportToEvent` (once, with the packet's buffer and length) and
returns its status exactly when the packet's `reportId` equals the keyboard
class's `uReportID`; for every other `reportId` it returns
`STATUS_NONE_MAPPED`, invokes no mapper, hands no event to the transport and
leaves the device context alone. -/
theorem ProcessOutputReport_dispatch (K : KeyboardReportToEvent) (pContext : INPUT_DEVICE)
    (Request : WDFREQUEST) (pPacket : HID_XFER_PACKET) :
    ((ProcessOutputReport K pContext Request pPacket).mapperCalls ≠ [] ↔
      pPacket.reportId = pContext.KeyboardDesc.uReportID) ∧
    (pPacket.reportId = pContext.KeyboardDesc.uReportID →
      (ProcessOutputReport K pContext Request pPacket).mapperCalls
        = [(pPacket.reportBuffer, pPacket.reportBufferLen)] ∧
      (ProcessOutputReport K pContext Request pPacket).status
        = (K pContext pContext.KeyboardDesc Request pPacket.reportBuffer
            pPacket.reportBufferLen).status ∧
      (ProcessOutputReport K pContext Request pPacket).sent
        = (K pContext pContext.KeyboardDesc Request pPacket.reportBuffer
            pPacket.reportBufferLen).sent) ∧
    (pPacket.reportId ≠ pContext.KeyboardDesc.uReportID →
      (ProcessOutputReport K pContext Request pPacket).status = STATUS_NONE_MAPPED ∧
      (ProcessOutputReport K pContext Request pPacket).mapperCalls = [] ∧
      (ProcessOutputReport K pContext Request pPacket).sent = [] ∧
      (ProcessOutputReport K pContext Request pPacket).pContext = pContext) := by
  unfold ProcessOutputReport
  by_cases h : pPacket.reportId = pContext.KeyboardDesc.uReportID
  · simp [h]
  · simp [h]

theorem ProcessOutputReport_dispatch_witness :
    (ProcessOutputReport sampleReportToEvent (sampleDevice false false)
      (sampleReader 0) ⟨[0x02], 1, 2⟩).mapperCalls = [([0x02], 1)] ∧
    (ProcessOutputReport sampleReportToEvent (sampleDevice false false)
      (sampleReader 0) ⟨[0x02], 1, 1⟩).status = STATUS_NONE_MAPPED ∧
    (ProcessOutputReport sampleReportToEvent (sampleDevice false false)
      (sampleReader 0) ⟨[0x02], 1, 1⟩).mapperCalls = [] :=
  ⟨((ProcessOutputReport_dispatch sampleReportToEvent (sampleDevice false false)
      (sampleReader 0) ⟨[0x02], 1, 2⟩).2.1 rfl).1,
   by decide, by decide⟩

/-- With the keyboard class unassigned (`uReportID` 0) a packet with
`reportId` 0 is dispatched to `HIDKeyboardReportToEvent` and the status is the
mapper's; every other `reportId` gives `STATUS_NONE_MAPPED` and no call. -/
theorem ProcessOutputReport_keyboard_zero (K : KeyboardReportToEvent)
    (pContext : INPUT_DEVICE) (Request : WDFREQUEST) (pPacket : HID_XFER_PACKET)
    (hk : pContext.KeyboardDesc.uReportID = 0) :
    (pPacket.reportId = 0 →
      (ProcessOutputReport K pContext Request pPacket).mapperCalls
        = [(pPacket.reportBuffer, pPacket.reportBufferLen)] ∧
      (ProcessOutputReport K pContext Request pPacket).status
        = (K pContext pContext.KeyboardDesc Request pPacket.reportBuffer
            pPacket.reportBufferLen).status) ∧
    (pPacket.reportId ≠ 0 →
      (ProcessOutputReport K pContext Request pPacket).mapperCalls = [] ∧
      (ProcessOutputReport K pContext Request pPacket).status = STATUS_NONE_MAPPED) := by
  unfold ProcessOutputReport
  rw [hk]
  by_cases h : pPacket.reportId = 0
  · simp [h]
  · simp [h]

/-- C19, the code at the failing input: on a device with relative axes only
the keyboard class is unassigned (`uReportID` 0); a write of report ID 0 is
still dispatched to `HIDKeyboardReportToEvent`, which here hands three LED
events to the transport, and the status returned is the mapper's
`STATUS_SUCCESS`, not `STATUS_NONE_MAPPED`.  A write of report ID 1 gives
`STATUS_NONE_MAPPED` and no call. -/
theorem ProcessOutputReport_id_zero_reaches_keyboard :
    (VIOInputBuildReportDescriptor (sampleBuilders (some [0xC0]))
      (freshContext (sampleConfig [] [0x03] [] []))).2.KeyboardDesc.uReportID = 0 ∧
    (ProcessOutputReport sampleReportToEvent
      (VIOInputBuildReportDescriptor (sampleBuilders (some [0xC0]))
        (freshContext (sampleConfig [] [0x03] [] []))).2
      (sampleReader 0) ⟨[0x05], 1, 0⟩).mapperCalls = [([0x05], 1)] ∧
    (ProcessOutputReport sampleReportToEvent
      (VIOInputBuildReportDescriptor (sampleBuilders (some [0xC0]))
        (freshContext (sampleConfig [] [0x03] [] []))).2
      (sampleReader 0) ⟨[0x05], 1, 0⟩).status = STATUS_SUCCESS ∧
    (ProcessOutputReport sampleReportToEvent
      (VIOInputBuildReportDescriptor (sampleBuilders (some [0xC0]))
        (freshContext (sampleConfig [] [0x03] [] []))).2
      (sampleReader 0) ⟨[0x05], 1, 0⟩).sent
      = [⟨EV_LED, 0, 1⟩, ⟨EV_LED, 1, 0⟩, ⟨EV_LED, 2, 1⟩] ∧
    (ProcessOutputReport sampleReportToEvent
      (VIOInputBuildReportDescriptor (sampleBuilders (some [0xC0]))
        (freshContext (sampleConfig [] [0x03] [] []))).2
      (sampleReader 0) ⟨[0x05], 1, 1⟩).status = STATUS_NONE_MAPPED := by
  decide

/-- C15: for an `IOCTL_HID_WRITE_REPORT` request whose input buffer is shorter
than `sizeof(HID_XFER_PACKET)`, `EvtIoDeviceControl` completes the request
with `STATUS_BUFFER_TOO_SMALL` and does not call `ProcessOutputReport`: no
mapper is invoked, no event is sent, the device context and the pending-read
queue are unchanged.  For an input buffer of at least that size
`ProcessOutputReport` is called exactly once, with the packet of the request,
and the request is completed here only when it fails. -/
theorem write_report_length_check (E : IoCollaborators) (pContext : INPUT_DEVICE)
    (io : Framework) (R : IoctlRequest) :
    (R.InputBufferLength < E.sizeof_HID_XFER_PACKET →
      (EvtIoDeviceControl E pContext io R IOCTL_HID_WRITE_REPORT).io.Completed
        = io.Completed ++ [(R.Request, STATUS_BUFFER_TOO_SMALL)] ∧
      (EvtIoDeviceControl E pContext io R IOCTL_HID_WRITE_REPORT).io.HidQueue = io.HidQueue ∧
      (EvtIoDeviceControl E pContext io R IOCTL_HID_WRITE_REPORT).outputReports = [] ∧
      (EvtIoDeviceControl E pContext io R IOCTL_HID_WRITE_REPORT).mapperCalls = [] ∧
      (EvtIoDeviceControl E pContext io R IOCTL_HID_WRITE_REPORT).sent = [] ∧
      (EvtIoDeviceControl E pContext io R IOCTL_HID_WRITE_REPORT).pContext = pContext) ∧
    (E.sizeof_HID_XFER_PACKET ≤ R.InputBufferLength →
      (EvtIoDeviceControl E pContext io R IOCTL_HID_WRITE_REPORT).outputReports
        = [R.UserBuffer] ∧
      (EvtIoDeviceControl E pContext io R IOCTL_HID_WRITE_REPORT).status
        = (ProcessOutputReport E.HIDKeyboardReportToEvent pContext
            { R.Request with Information := R.UserBuffer.reportBufferLen } R.UserBuffer).status ∧
      (EvtIoDeviceControl E pContext io R IOCTL_HID_WRITE_REPORT).mapperCalls
        = (ProcessOutputReport E.HIDKeyboardReportToEvent pContext
            { R.Request with Information := R.UserBuffer.reportBufferLen }
            R.UserBuffer).mapperCalls) := by
  have hsw : ioctlSwitch E pContext io R IOCTL_HID_WRITE_REPORT
      = if R.InputBufferLength < E.sizeof_HID_XFER_PACKET then
          { status := STATUS_BUFFER_TOO_SMALL, completeRequest := true, Request := R.Request,
            pContext := pContext, io := io, outputReports := [], mapperCalls := [], sent := [] }
        else
          { status := (ProcessOutputReport E.HIDKeyboardReportToEvent pContext
              { R.Request with Information := R.UserBuffer.reportBufferLen } R.UserBuffer).status,
            completeRequest := !NT_SUCCESS (ProcessOutputReport E.HIDKeyboardReportToEvent
              pContext { R.Request with Information := R.UserBuffer.reportBufferLen }
              R.UserBuffer).status,
            Request := { R.Request with Information := R.UserBuffer.reportBufferLen },
            pContext := (ProcessOutputReport E.HIDKeyboardReportToEvent pContext
              { R.Request with Information := R.UserBuffer.reportBufferLen }
              R.UserBuffer).pContext,
            io := io, outputReports := [R.UserBuffer],
            mapperCalls := (ProcessOutputReport E.HIDKeyboardReportToEvent pContext
              { R.Request with Information := R.UserBuffer.reportBufferLen }
              R.UserBuffer).mapperCalls,
            sent := (ProcessOutputReport E.HIDKeyboardReportToEvent pContext
              { R.Request with Information := R.UserBuffer.reportBufferLen }
              R.UserBuffer).sent } := by
    unfold ioctlSwitch
    rw [if_neg (by decide), if_neg (by decide), if_neg (by decide), if_neg (by decide),
      if_pos rfl]
  unfold EvtIoDeviceControl
  rw [hsw]
  constructor
  · intro hlt
    simp [hlt, WdfRequestComplete]
  · intro hge
    have hnlt : ¬ R.InputBufferLength < E.sizeof_HID_XFER_PACKET := by omega
    simp only [hnlt, if_false]
    split <;> exact ⟨rfl, rfl, rfl⟩

theorem write_report_length_check_witness :
    (EvtIoDeviceControl sampleCollaborators (sampleDevice false false)
        { HidQueue := [], Completed := [] } ⟨sampleReader 0, 15, ⟨[0x02], 1, 2⟩⟩
        IOCTL_HID_WRITE_REPORT).io.Completed = [(sampleReader 0, STATUS_BUFFER_TOO_SMALL)] ∧
    (EvtIoDeviceControl sampleCollaborators (sampleDevice false false)
        { HidQueue := [], Completed := [] } ⟨sampleReader 0, 15, ⟨[0x02], 1, 2⟩⟩
        IOCTL_HID_WRITE_REPORT).outputReports = [] ∧
    (EvtIoDeviceControl sampleCollaborators (sampleDevice false false)
        { HidQueue := [], Completed := [] } ⟨sampleReader 0, 16, ⟨[0x02], 1, 2⟩⟩
        IOCTL_HID_WRITE_REPORT).outputReports = [⟨[0x02], 1, 2⟩] ∧
    (EvtIoDeviceControl sampleCollaborators (sampleDevice false false)
        { HidQueue := [], Completed := [] } ⟨sampleReader 0, 16, ⟨[0x02], 1, 2⟩⟩
        IOCTL_HID_WRITE_REPORT).mapperCalls = [([0x02], 1)] :=
  ⟨((write_report_length_check sampleCollaborators (sampleDevice false false)
      { HidQueue := [], Completed := [] } ⟨sampleReader 0, 15, ⟨[0x02], 1, 2⟩⟩).1
      (by decide)).1,
   by decide, by decide, by decide⟩

/-! ## Absolute axis information -/

theorem getD_set_zero (l : List Nat) (i j a : Nat) (hi : i < l.length) :
    (l.set i a).getD j 0 = if j = i then a else l.getD j 0 := by
  simp only [List.getD_eq_getElem?_getD, List.getElem?_set]
  by_cases h : i = j
  · subst h; simp [hi]
  · have h' : ¬ j = i := fun e => h e.symm
    simp [h, h']

/-- The loop of `GetAbsAxisInfo` from index `i` with enough iterations left:
it reads the bytes from `i` up to the smaller of `uSize` and the structure
size, in order, and writes each to the same index of the result. -/
theorem absInfoLoop_spec (pContext : INPUT_DEVICE) (cfgSubSel uSize : Nat) :
    ∀ (fuel i : Nat) (buf : List Nat) (tr : List ConfigAccess),
      i ≤ min uSize sizeof_virtio_input_absinfo →
      min uSize sizeof_virtio_input_absinfo - i < fuel →
      buf.length = sizeof_virtio_input_absinfo →
      (absInfoLoop pContext cfgSubSel uSize fuel i buf tr).2
        = tr ++ (List.range' i (min uSize sizeof_virtio_input_absinfo - i)).map
            ConfigAccess.readByte ∧
      (absInfoLoop pContext cfgSubSel uSize fuel i buf tr).1.length
        = sizeof_virtio_input_absinfo ∧
      ∀ j, (absInfoLoop pContext cfgSubSel uSize fuel i buf tr).1.getD j 0
        = if i ≤ j ∧ j < min uSize sizeof_virtio_input_absinfo then
            (pContext.VDevice (VIRTIO_INPUT_CFG_ABS_INFO % 256) (cfgSubSel % 256)).bitmap j % 256
          else buf.getD j 0 := by
  intro fuel
  induction fuel with
  | zero => intro i buf tr _ h; omega
  | succ n ih =>
    intro i buf tr hi hfuel hlen
    unfold absInfoLoop
    by_cases hc : i < uSize ∧ i < sizeof_virtio_input_absinfo
    · rw [if_pos hc]
      have hlt : i < min uSize sizeof_virtio_input_absinfo := by omega
      obtain ⟨h1, h2, h3⟩ := ih (i + 1)
        (buf.set i ((pContext.VDevice (VIRTIO_INPUT_CFG_ABS_INFO % 256)
          (cfgSubSel % 256)).bitmap i % 256))
        (tr ++ [ConfigAccess.readByte i]) (by omega) (by omega)
        (by rw [List.length_set]; exact hlen)
      refine ⟨?_, h2, ?_⟩
      · rw [h1]
        have e : min uSize sizeof_virtio_input_absinfo - i
            = (min uSize sizeof_virtio_input_absinfo - (i + 1)) + 1 := by omega
        rw [e, List.range'_succ]
        simp
      · intro j
        rw [h3 j, getD_set_zero _ _ _ _ (by rw [hlen]; exact hc.2)]
        by_cases hj : j = i
        · subst hj
          have a1 : ¬ (j + 1 ≤ j ∧ j < min uSize sizeof_virtio_input_absinfo) := by omega
          have a2 : j ≤ j ∧ j < min uSize sizeof_virtio_input_absinfo := ⟨Nat.le_refl _, hlt⟩
          rw [if_neg a1, if_pos rfl, if_pos a2]
        · rw [if_neg hj]
          by_cases hr : i + 1 ≤ j ∧ j < min uSize sizeof_virtio_input_absinfo
          · rw [if_pos hr, if_pos ⟨by omega, hr.2⟩]
          · rw [if_neg hr, if_neg (by omega)]
    · rw [if_neg hc]
      have he : min uSize sizeof_virtio_input_absinfo - i = 0 := by omega
      refine ⟨by rw [he]; simp, hlen, ?_⟩
      intro j
      rw [if_neg (by omega)]

/-- C16: for every axis code up to 255 and every size `s` the device
reports, `GetAbsAxisInfo` makes one config query and then reads exactly the
bytes `0 .. min(s, sizeof(struct virtio_input_absinfo)) - 1` of the config
data, in order, into the same positions of the result; the result has the
size of the structure and all its other bytes are zero.  For an axis code
above 255 it makes no config access and the result is all zeros. -/
theorem GetAbsAxisInfo_bounded (pContext : INPUT_DEVICE) (uAbsAxis : Nat) :
    (uAbsAxis ≤ 255 →
      (GetAbsAxisInfo pContext uAbsAxis).2
        = ConfigAccess.select VIRTIO_INPUT_CFG_ABS_INFO uAbsAxis ::
          (List.range (min (SelectInputConfig pContext VIRTIO_INPUT_CFG_ABS_INFO uAbsAxis)
            sizeof_virtio_input_absinfo)).map ConfigAccess.readByte ∧
      (GetAbsAxisInfo pContext uAbsAxis).1.length = sizeof_virtio_input_absinfo ∧
      ∀ j, (GetAbsAxisInfo pContext uAbsAxis).1.getD j 0
        = if j < min (SelectInputConfig pContext VIRTIO_INPUT_CFG_ABS_INFO uAbsAxis)
              sizeof_virtio_input_absinfo then
            (pContext.VDevice VIRTIO_INPUT_CFG_ABS_INFO uAbsAxis).bitmap j % 256
          else 0) ∧
    (255 < uAbsAxis →
      GetAbsAxisInfo pContext uAbsAxis = (List.replicate sizeof_virtio_input_absinfo 0, [])) := by
  constructor
  · intro hle
    have hm : uAbsAxis % 256 = uAbsAxis := Nat.mod_eq_of_lt (by omega)
    have hs : VIRTIO_INPUT_CFG_ABS_INFO % 256 = VIRTIO_INPUT_CFG_ABS_INFO := by decide
    have hg : GetAbsAxisInfo pContext uAbsAxis
        = absInfoLoop pContext uAbsAxis
            (SelectInputConfig pContext VIRTIO_INPUT_CFG_ABS_INFO uAbsAxis)
            (sizeof_virtio_input_absinfo + 1) 0
            (List.replicate sizeof_virtio_input_absinfo 0)
            [ConfigAccess.select VIRTIO_INPUT_CFG_ABS_INFO uAbsAxis] := by
      unfold GetAbsAxisInfo
      have : uAbsAxis ≤ MAXUCHAR := hle
      simp only [this, if_true, hm]
    obtain ⟨h1, h2, h3⟩ := absInfoLoop_spec pContext uAbsAxis
      (SelectInputConfig pContext VIRTIO_INPUT_CFG_ABS_INFO uAbsAxis)
      (sizeof_virtio_input_absinfo + 1) 0 (List.replicate sizeof_virtio_input_absinfo 0)
      [ConfigAccess.select VIRTIO_INPUT_CFG_ABS_INFO uAbsAxis]
      (Nat.zero_le _) (by omega) (List.length_replicate _ _)
    rw [hg]
    refine ⟨?_, h2, ?_⟩
    · rw [h1, Nat.sub_zero, List.range_eq_range']
      rfl
    · intro j
      rw [h3 j, hm, hs]
      by_cases hj : j < min (SelectInputConfig pContext VIRTIO_INPUT_CFG_ABS_INFO uAbsAxis)
          sizeof_virtio_input_absinfo
      · rw [if_pos ⟨Nat.zero_le _, hj⟩, if_pos hj]
      · rw [if_neg (fun h => hj h.2), if_neg hj]
        simp only [List.getD_eq_getElem?_getD, List.getElem?_replicate]
        split <;> rfl
  · intro hgt
    unfold GetAbsAxisInfo
    have : ¬ uAbsAxis ≤ MAXUCHAR := by unfold MAXUCHAR; omega
    simp only [this, if_false]

theorem GetAbsAxisInfo_bounded_witness :
    GetAbsAxisInfo (freshContext (sampleAbsConfig (List.range' 1 24))) 0
      = ([1, 2, 3, 4, 5, 6, 7, 8, 9, 10, 11, 12, 13, 14, 15, 16, 17, 18, 19, 20],
         ConfigAccess.select VIRTIO_INPUT_CFG_ABS_INFO 0
           :: (List.range 20).map ConfigAccess.readByte) ∧
    (GetAbsAxisInfo (freshContext (sampleAbsConfig [7, 1])) 0).1
      = [7, 1, 0, 0, 0, 0, 0, 0, 0, 0, 0, 0, 0, 0, 0, 0, 0, 0, 0, 0] ∧
    GetAbsAxisInfo (freshContext (sampleAbsConfig [7, 1])) 256
      = (List.replicate sizeof_virtio_input_absinfo 0, []) :=
  ⟨by decide, by decide,
   (GetAbsAxisInfo_bounded (freshContext (sampleAbsConfig [7, 1])) 256).2 (by decide)⟩

end VioInput
